import Mathlib

/-!
# Flash record store of the Airscoute sensor logger

A shallow embedding of `src/libs/flash/flash.h` and `src/libs/flash/flash.cpp`:
the record codec (`serializeSensorData`, `deserializeSensorData`), the layout
computed by the constructor, and the durable write and read paths
(`init`, `saveSensorData`, `loadSensorData`, `loadAllSensorData`,
`resetStorage`, `safeFlashErase`, `safeFlashProgram`).

Conventions of the embedding.

* Machine integers are natural numbers; every place where the C++ code
  computes in `uint32_t` is wrapped in `u32`.
* A `float` is kept as its IEEE-754 binary32 bit pattern (a `uint32_t`); the
  few float operations the code performs are defined on bit patterns below.
* Memory (the flash chip, a RAM buffer, a pointer into either of them) is a
  function from a byte index to a byte; every read reduces the value it
  finds modulo 256.
* The flash chip is addressed by flash offset: the execute-in-place mapping
  `XIP_BASE + offset` of the source is the identity on offsets here.
* `printf` output and `_debug_level` have no effect on results and are not
  modelled.
-/

namespace Airscoute

/-! ## Constants -/

/-- Modelled from the spec: the erase unit of the flash chip, the SDK macro
`FLASH_SECTOR_SIZE` of `hardware/flash.h` (4096 bytes). -/
abbrev FLASH_SECTOR_SIZE : Nat := 4096

/-- Modelled from the spec: the program unit of the flash chip, the SDK macro
`FLASH_PAGE_SIZE` of `hardware/flash.h` (256 bytes). -/
abbrev FLASH_PAGE_SIZE : Nat := 256

/-- The macro `DATA_COUNT_SIZE`, `sizeof(uint32_t)` (flash.cpp:11). -/
abbrev DATA_COUNT_SIZE : Nat := 4

/-- The macro `DEFAULT_FLASH_TARGET_OFFSET` (flash.cpp:14). -/
abbrev DEFAULT_FLASH_TARGET_OFFSET : Nat := 1792 * 1024

/-- Reduction of a natural number to a `uint32_t`. -/
def u32 (x : Nat) : Nat := x % 4294967296

/-- Subtraction in `uint32_t`: the difference modulo `2^32`. -/
def u32Sub (a b : Nat) : Nat := (4294967296 + u32 a - u32 b) % 4294967296

/-! ## Struct sizes

`sizeof` is computed from the member lists of the two structs of `flash.h`
under the natural-alignment rule of the target ABI (a member is placed at the
next multiple of its alignment, the struct is padded to a multiple of its
largest member alignment); under `#pragma pack(push, 1)` every alignment is 1.
-/

/-- A struct member: its size and its alignment in bytes. -/
structure CMember where
  size : Nat
  align : Nat
deriving DecidableEq

/-- The C `float` as a member. -/
def cFloat : CMember := ⟨4, 4⟩
/-- The C `uint32_t` as a member. -/
def cU32 : CMember := ⟨4, 4⟩
/-- The C `uint16_t` as a member. -/
def cU16 : CMember := ⟨2, 2⟩
/-- The C `uint8_t` and `bool` as a member. -/
def cU8 : CMember := ⟨1, 1⟩

/-- Round `x` up to the next multiple of `a`. -/
def alignUp (x a : Nat) : Nat := (x + a - 1) / a * a

/-- Layout rule: `sizeof` of a struct with the given members. -/
def sizeofStruct (packed : Bool) (members : List CMember) : Nat :=
  let al := fun (m : CMember) => if packed then 1 else m.align
  let last := members.foldl (fun off m => alignUp off (al m) + m.size) 0
  alignUp last (members.foldl (fun a m => max a (al m)) 1)

/-- Members of `struct SensorData` (flash.h:13-26). -/
def SensorData_members : List CMember :=
  [cFloat, cFloat, cFloat, cFloat, cU16, cU16, cU16, cU32, cU32, cU32, cU32, cU8]

/-- Members of the packed `struct SerializedSensorData` (flash.h:29-59). -/
def SerializedSensorData_members : List CMember :=
  [cU32, cFloat, cFloat, cFloat, cFloat, cU16, cU16, cU16, cU16,
   cU32, cU32, cU32, cU32, cU8, cU8, cU8, cU8, cU32]

/-- The macro `SENSOR_DATA_SIZE`, defined as `sizeof(SensorData)` (flash.h:10). -/
def SENSOR_DATA_SIZE : Nat := sizeofStruct false SensorData_members

/-- The expression `sizeof(SerializedSensorData)`: the number of bytes
`serializeSensorData` writes and `deserializeSensorData` reads. -/
def SERIALIZED_SIZE : Nat := sizeofStruct true SerializedSensorData_members

/-! ## IEEE-754 binary32 operations used by the code -/

/-- Biased exponent field of a binary32 pattern. -/
def f32Exp (b : Nat) : Nat := b / 8388608 % 256

/-- Fraction field of a binary32 pattern. -/
def f32Frac (b : Nat) : Nat := b % 8388608

/-- Sign bit of a binary32 pattern. -/
def f32Neg (b : Nat) : Bool := b / 2147483648 % 2 = 1

/-- Whether the pattern is a NaN. -/
def f32IsNaN (b : Nat) : Bool := f32Exp b = 255 && f32Frac b ≠ 0

/-- Magnitude of the pattern in units of `2^-149`; an infinity gets `2^277`,
above every finite magnitude. -/
def f32Mag (b : Nat) : Nat :=
  if f32Exp b = 0 then f32Frac b else (8388608 + f32Frac b) * 2 ^ (f32Exp b - 1)

/-- Signed value of the pattern in units of `2^-149`. -/
def f32Val (b : Nat) : Int := if f32Neg b then -(f32Mag b : Int) else (f32Mag b : Int)

/-- The comparison `a < b` on floats. -/
def f32Lt (a b : Nat) : Bool := !f32IsNaN a && !f32IsNaN b && decide (f32Val a < f32Val b)

/-- The comparison `a <= b` on floats. -/
def f32Le (a b : Nat) : Bool := !f32IsNaN a && !f32IsNaN b && decide (f32Val a ≤ f32Val b)

/-- Number of binary digits of `n`, by halving at most `fuel` times. -/
def bitLenAux : Nat → Nat → Nat
  | 0, _ => 0
  | fuel + 1, n => if n = 0 then 0 else 1 + bitLenAux fuel (n / 2)

/-- Number of binary digits of `n` (`n` halvings always suffice). -/
def bitLen (n : Nat) : Nat := bitLenAux n n

/-- Round a magnitude (in units of `2^-149`) to 24 significant bits, to
nearest, ties to even: the rounding of a binary32 result. -/
def f32Round (m : Nat) : Nat :=
  if bitLen m ≤ 24 then m
  else
    let k := bitLen m - 24
    let q := m / 2 ^ k
    let r := m % 2 ^ k
    let up : Bool := decide (r > 2 ^ (k - 1)) || (decide (r = 2 ^ (k - 1)) && decide (q % 2 = 1))
    (if up then q + 1 else q) * 2 ^ k

/-- The expression `(int)(x * 100)` on a float `x`, as the 32-bit pattern of
the resulting `int`: single-precision product, then truncation toward zero.
Where the conversion is undefined in C++ (NaN, or a product outside the range
of `int`) the value of the target's runtime is taken: 0 for NaN, saturation
otherwise. -/
def f32Mul100ToInt (b : Nat) : Nat :=
  if f32IsNaN b then 0
  else
    let t := f32Round (f32Mag b * 100) / 2 ^ 149
    if f32Neg b then (if t ≥ 2147483648 then 2147483648 else u32 (4294967296 - t))
    else (if t ≥ 2147483648 then 2147483647 else t)

/-- The expression `std::fabs(a - b) > 0.01` on floats `a`, `b`: the
single-precision difference, compared as a `double` with the `double` nearest
to 0.01, which is `5764607523034235 * 2^-59`. -/
def f32FabsDiffGt (a b : Nat) : Bool :=
  !f32IsNaN a && !f32IsNaN b &&
    decide (f32Round (f32Val a - f32Val b).natAbs > 5764607523034235 * 2 ^ 90)

/-! ## Bytes and memory -/

/-- A byte-addressed memory: the flash chip, a RAM buffer, or a pointer. -/
abbrev Bytes := Nat → Nat

/-- Read one byte. -/
def read8 (m : Bytes) (a : Nat) : Nat := m a % 256

/-- Read a little-endian `uint16_t`. -/
def read16 (m : Bytes) (a : Nat) : Nat := read8 m a + 256 * read8 m (a + 1)

/-- Read a little-endian `uint32_t`. -/
def read32 (m : Bytes) (a : Nat) : Nat :=
  read8 m a + 256 * read8 m (a + 1) + 65536 * read8 m (a + 2) + 16777216 * read8 m (a + 3)

/-- The bytes of a `uint16_t`, least significant first. -/
def le16 (x : Nat) : List Nat := [x % 256, x / 256 % 256]

/-- The bytes of a `uint32_t`, least significant first. -/
def le32 (x : Nat) : List Nat := [x % 256, x / 256 % 256, x / 65536 % 256, x / 16777216 % 256]

/-- The pointer `p + off`. -/
def ptrAdd (p : Bytes) (off : Nat) : Bytes := fun i => p (off + i)

/-- The contents of a byte list as a pointer to its first byte. -/
def ofList (l : List Nat) : Bytes := fun i => l.getD i 0

/-- The call `memcpy(dst + off, src, src.length)`. -/
def memcpyAt (dst : Bytes) (off : Nat) (src : List Nat) : Bytes :=
  fun i => if off ≤ i ∧ i < off + src.length then src.getD (i - off) 0 else dst i

/-- The call `memcpy(buffer, src, n)` into a fresh buffer of `n` bytes. -/
def memcpyFrom (src : Bytes) (n : Nat) : Bytes :=
  fun i => if i < n then read8 src i else 0

/-! ## Records -/

/-- The struct `SensorData` (flash.h:13-26). The four `float` members hold
binary32 bit patterns. -/
structure SensorData where
  temp : Nat
  hum : Nat
  pres : Nat
  gasRes : Nat
  pm2_5 : Nat
  pm5 : Nat
  pm10 : Nat
  co2 : Nat
  latitude : Nat
  longitude : Nat
  timestamp : Nat
  is_fake_gps : Bool
deriving DecidableEq

/-- A `SensorData` value whose members fit their C types. -/
def SensorData.WellTyped (d : SensorData) : Prop :=
  d.temp < 4294967296 ∧ d.hum < 4294967296 ∧ d.pres < 4294967296 ∧ d.gasRes < 4294967296 ∧
  d.pm2_5 < 65536 ∧ d.pm5 < 65536 ∧ d.pm10 < 65536 ∧
  d.co2 < 4294967296 ∧ d.latitude < 4294967296 ∧ d.longitude < 4294967296 ∧
  d.timestamp < 4294967296

instance (d : SensorData) : Decidable d.WellTyped := by
  unfold SensorData.WellTyped; infer_instance

/-- A default-constructed `SensorData` (every member initialiser is zero). -/
def SensorData.default : SensorData :=
  { temp := 0, hum := 0, pres := 0, gasRes := 0, pm2_5 := 0, pm5 := 0, pm10 := 0,
    co2 := 0, latitude := 0, longitude := 0, timestamp := 0, is_fake_gps := false }

/-- The packed struct `SerializedSensorData` (flash.h:30-58). -/
structure SerializedSensorData where
  magic : Nat
  temp : Nat
  hum : Nat
  pres : Nat
  gasRes : Nat
  pm2_5 : Nat
  pm5 : Nat
  pm10 : Nat
  padding : Nat
  co2 : Nat
  latitude : Nat
  longitude : Nat
  timestamp : Nat
  flags : Nat
  reserved0 : Nat
  reserved1 : Nat
  reserved2 : Nat
  checksum : Nat
deriving DecidableEq

/-- The object representation of a `SerializedSensorData`: its 52 bytes. -/
def SerializedSensorData.toBytes (s : SerializedSensorData) : List Nat :=
  le32 s.magic ++ le32 s.temp ++ le32 s.hum ++ le32 s.pres ++ le32 s.gasRes ++
  le16 s.pm2_5 ++ le16 s.pm5 ++ le16 s.pm10 ++ le16 s.padding ++
  le32 s.co2 ++ le32 s.latitude ++ le32 s.longitude ++ le32 s.timestamp ++
  [s.flags % 256, s.reserved0 % 256, s.reserved1 % 256, s.reserved2 % 256] ++
  le32 s.checksum

/-- The call `memcpy(&serialized, buffer, sizeof(SerializedSensorData))`. -/
def SerializedSensorData.ofBytes (buffer : Bytes) : SerializedSensorData :=
  { magic := read32 buffer 0, temp := read32 buffer 4, hum := read32 buffer 8,
    pres := read32 buffer 12, gasRes := read32 buffer 16,
    pm2_5 := read16 buffer 20, pm5 := read16 buffer 22, pm10 := read16 buffer 24,
    padding := read16 buffer 26,
    co2 := read32 buffer 28, latitude := read32 buffer 32, longitude := read32 buffer 36,
    timestamp := read32 buffer 40,
    flags := read8 buffer 44, reserved0 := read8 buffer 45, reserved1 := read8 buffer 46,
    reserved2 := read8 buffer 47, checksum := read32 buffer 48 }

/-- The `value_checksum` computation shared by the two codec functions
(flash.cpp:626-645 and 705-724): a chain of `uint32_t` additions seeded with
the magic constant. -/
def valueChecksum (s : SerializedSensorData) : Nat :=
  [s.co2, s.pm2_5, s.pm10, s.timestamp, s.latitude % 1000000, s.longitude % 1000000,
   f32Mul100ToInt s.temp, f32Mul100ToInt s.hum, s.flags].foldl
    (fun acc v => u32 (acc + v)) 0xABCD1234

/-- The struct filled in by `serializeSensorData` before its checksum is set
(flash.cpp:598-622). Each member is stored at the width of its C type; for a
well-typed record the reductions are the identity. -/
def serializedFields (data : SensorData) : SerializedSensorData :=
  { magic := 0xABCD1234,
    temp := u32 data.temp, hum := u32 data.hum, pres := u32 data.pres, gasRes := u32 data.gasRes,
    pm2_5 := data.pm2_5 % 65536, pm5 := data.pm5 % 65536, pm10 := data.pm10 % 65536,
    padding := 0,
    co2 := u32 data.co2, latitude := u32 data.latitude, longitude := u32 data.longitude,
    timestamp := u32 data.timestamp,
    flags := if data.is_fake_gps then 0x01 else 0x00,
    reserved0 := 0, reserved1 := 0, reserved2 := 0,
    checksum := 0 }

/-- The bytes `Flash::serializeSensorData` copies to `buffer`
(flash.cpp:591-667). -/
def serializeSensorData (data : SensorData) : List Nat :=
  let serialized := serializedFields data
  let value_checksum := valueChecksum serialized
  ({ serialized with checksum := value_checksum }).toBytes

/-- The secondary plausibility test of `deserializeSensorData`
(flash.cpp:736-739); `0xC2480000` is `-50.0f`, `0x42C80000` is `100.0f`. -/
def dataLooksValid (s : SerializedSensorData) : Bool :=
  f32Lt 0xC2480000 s.temp && f32Lt s.temp 0x42C80000 &&
  f32Le 0 s.hum && f32Le s.hum 0x42C80000 &&
  decide (s.timestamp > 1600000000) && decide (s.timestamp < 2000000000)

/-- The field extraction at the end of `deserializeSensorData`
(flash.cpp:750-764). -/
def extractFields (s : SerializedSensorData) : SensorData :=
  { temp := s.temp, hum := s.hum, pres := s.pres, gasRes := s.gasRes,
    pm2_5 := s.pm2_5, pm5 := s.pm5, pm10 := s.pm10,
    co2 := s.co2, latitude := s.latitude, longitude := s.longitude,
    timestamp := s.timestamp,
    is_fake_gps := decide ((s.flags &&& 0x01) ≠ 0) }

/-- The function `Flash::deserializeSensorData` (flash.cpp:669-772). -/
def deserializeSensorData (buffer : Bytes) : SensorData :=
  let data := SensorData.default
  let serialized := SerializedSensorData.ofBytes buffer
  if serialized.magic ≠ 0xABCD1234 then data
  else
    let stored_checksum := serialized.checksum
    let value_checksum := valueChecksum { serialized with checksum := 0 }
    if value_checksum ≠ stored_checksum ∧ !dataLooksValid serialized then data
    else extractFields serialized

/-- The function `Flash::getSensorDataError` (flash.cpp:891-907). -/
def getSensorDataError : SensorData :=
  { temp := 0, hum := 0, pres := 0, gasRes := 0, pm2_5 := 0, pm5 := 0, pm10 := 0,
    co2 := 0, latitude := 0, longitude := 0, timestamp := 0, is_fake_gps := false }

/-! ## The flash chip and the store object -/

/-- The two SDK primitives the store calls, as functions on the chip
contents: `flash_range_erase(addr, count)` and
`flash_range_program(addr, data, count)`. An arbitrary `Hw` is a chip whose
operations may fail in any way; reads between two operations are stable. -/
structure Hw where
  flash_range_erase : Bytes → Nat → Nat → Bytes
  flash_range_program : Bytes → Nat → Bytes → Nat → Bytes

/-- Modelled from the spec: a fault-free NOR flash. Erase sets every byte of
the sectors covering the range to `0xFF`; program can only clear bits, so a
programmed byte is the bitwise AND of the old byte and the data byte. -/
def idealHw : Hw :=
  { flash_range_erase := fun m addr count a =>
      if addr ≤ a ∧ a < addr + alignUp count FLASH_SECTOR_SIZE then 0xFF else m a
    flash_range_program := fun m addr data count a =>
      if addr ≤ a ∧ a < addr + count then read8 m a &&& read8 data (a - addr) else m a }

/-- The data members of `class Flash` (flash.h:115-120), together with the
contents of the flash chip the object works on. -/
structure Flash where
  _flash_offset : Nat
  _data_count_address : Nat
  _data_start_address : Nat
  _max_data_count : Nat
  _stored_data_count : Nat
  _flash_enabled : Bool
  chip : Bytes

/-- The constructor `Flash::Flash` (flash.cpp:16-47), on a chip with the given
contents. -/
def Flash.new (flash_offset : Nat) (chip : Bytes) : Flash :=
  let off0 := if flash_offset = 0 then DEFAULT_FLASH_TARGET_OFFSET else flash_offset
  let off :=
    if off0 % FLASH_SECTOR_SIZE ≠ 0 then off0 / FLASH_SECTOR_SIZE * FLASH_SECTOR_SIZE else off0
  let storage_size := 32 * FLASH_SECTOR_SIZE - FLASH_SECTOR_SIZE
  { _flash_offset := off
    _data_count_address := off
    _data_start_address := u32 (off + FLASH_SECTOR_SIZE)
    _max_data_count := storage_size / SENSOR_DATA_SIZE
    _stored_data_count := 0
    _flash_enabled := true
    chip := chip }

/-- The accessor `getStoredCount` (flash.cpp:583-585). -/
abbrev Flash.getStoredCount (s : Flash) : Nat := s._stored_data_count

/-- The accessor `getMaxDataCount` (flash.h:91). -/
abbrev Flash.getMaxDataCount (s : Flash) : Nat := s._max_data_count

/-- The accessor `isFlashEnabled` (flash.h:109). -/
abbrev Flash.isFlashEnabled (s : Flash) : Bool := s._flash_enabled

/-- The setter `setFlashEnabled` (flash.h:106). -/
def Flash.setFlashEnabled (s : Flash) (enabled : Bool) : Flash :=
  { s with _flash_enabled := enabled }

/-- The function `Flash::safeFlashErase` (flash.cpp:910-968). -/
def Flash.safeFlashErase (hw : Hw) (s : Flash) (address size : Nat) : Bool × Flash :=
  if !s._flash_enabled then (true, s)
  else if address % FLASH_SECTOR_SIZE ≠ 0 then (false, s)
  else
    let s1 := { s with chip := hw.flash_range_erase s.chip address size }
    let verify_begin := read32 s1.chip address
    let verify_middle := read32 s1.chip (u32 (address + size / 2))
    let verify_end := read32 s1.chip (u32Sub (address + size) 4)
    if verify_begin ≠ 0xFFFFFFFF ∨ verify_middle ≠ 0xFFFFFFFF ∨ verify_end ≠ 0xFFFFFFFF then
      (false, s1)
    else (true, s1)

/-- The function `Flash::safeFlashProgram` (flash.cpp:971-1043). -/
def Flash.safeFlashProgram (hw : Hw) (s : Flash) (address : Nat) (data : Bytes) (size : Nat) :
    Bool × Flash :=
  if !s._flash_enabled then (true, s)
  else if address % 4 ≠ 0 then (false, s)
  else
    let s1 := { s with chip := hw.flash_range_program s.chip address data size }
    let verify_size := min size 16
    let verification_passed :=
      (List.range verify_size).all fun i => decide (read8 s1.chip (address + i) = read8 data i)
    (verification_passed, s1)

/-- The function `Flash::resetStorage` (flash.cpp:797-857). -/
def Flash.resetStorage (hw : Hw) (s : Flash) : Bool × Flash :=
  if !s._flash_enabled then (true, { s with _stored_data_count := 0 })
  else
    let flash_offset_aligned :=
      if s._flash_offset % FLASH_SECTOR_SIZE ≠ 0 then
        s._flash_offset / FLASH_SECTOR_SIZE * FLASH_SECTOR_SIZE
      else s._flash_offset
    let sectors_to_erase := 16
    let e := s.safeFlashErase hw flash_offset_aligned (sectors_to_erase * FLASH_SECTOR_SIZE)
    if !e.1 then (false, e.2)
    else
      let s2 := { e.2 with _stored_data_count := 0 }
      let count_sector_offset := s2._data_count_address % FLASH_SECTOR_SIZE
      let count_sector_address := s2._data_count_address - count_sector_offset
      let sector_buffer : Bytes := fun _ => 0xFF
      let count_offset_in_sector := s2._data_count_address - count_sector_address
      let sector_buffer := memcpyAt sector_buffer count_offset_in_sector (le32 0)
      let p := s2.safeFlashProgram hw count_sector_address sector_buffer FLASH_SECTOR_SIZE
      if !p.1 then (false, p.2) else (true, p.2)

/-- The function `Flash::init` (flash.cpp:53-192). -/
def Flash.init (hw : Hw) (s : Flash) : Bool × Flash :=
  if !s._flash_enabled then (true, { s with _stored_data_count := 0 })
  else
    let count_sector_offset := s._data_count_address % FLASH_SECTOR_SIZE
    let count_sector_address := s._data_count_address - count_sector_offset
    let aligned_data_start := u32 (count_sector_address + FLASH_SECTOR_SIZE)
    let s :=
      if s._data_start_address ≠ aligned_data_start then
        { s with _data_start_address := aligned_data_start }
      else s
    let stored_count := read32 s.chip s._data_count_address
    if stored_count = 0xFFFFFFFF then
      let s := { s with _stored_data_count := 0 }
      let e := s.safeFlashErase hw s._data_count_address FLASH_PAGE_SIZE
      if !e.1 then (true, { e.2 with _stored_data_count := 0, _flash_enabled := false })
      else
        let p := e.2.safeFlashProgram hw e.2._data_count_address (ofList (le32 0)) DATA_COUNT_SIZE
        if !p.1 then (true, { p.2 with _stored_data_count := 0, _flash_enabled := false })
        else (true, p.2)
    else if stored_count > s._max_data_count then
      let r := s.resetStorage hw
      if !r.1 then (true, { r.2 with _stored_data_count := 0, _flash_enabled := false })
      else (true, { r.2 with _stored_data_count := 0 })
    else
      let s := { s with _stored_data_count := stored_count }
      if s._stored_data_count > 0 then
        let magic := read32 s.chip s._data_start_address
        if magic = 0xABCD1234 then (true, s)
        else
          let r := s.resetStorage hw
          if !r.1 then (true, { r.2 with _stored_data_count := 0, _flash_enabled := false })
          else (true, r.2)
      else (true, s)

/-- The addresses `saveSensorData` computes for one record. -/
structure WriteTarget where
  data_address : Nat
  page_offset : Nat
  page_address : Nat
  sector_address : Nat
deriving DecidableEq

/-- The first address computation of `saveSensorData` (flash.cpp:208-217). -/
def Flash.initialTarget (s : Flash) : WriteTarget :=
  let data_address := u32 (s._data_start_address + u32 (s._stored_data_count * SENSOR_DATA_SIZE))
  let page_offset := data_address % FLASH_PAGE_SIZE
  let page_address := data_address - page_offset
  let sector_offset := page_address % FLASH_SECTOR_SIZE
  let sector_address := page_address - sector_offset
  { data_address := data_address, page_offset := page_offset,
    page_address := page_address, sector_address := sector_address }

/-- The page-boundary adjustment of `saveSensorData` (flash.cpp:235-247). -/
def WriteTarget.adjust (t : WriteTarget) : WriteTarget :=
  if t.page_offset + SENSOR_DATA_SIZE > FLASH_PAGE_SIZE then
    let page_address := u32 (t.page_address + FLASH_PAGE_SIZE)
    let sector_offset := page_address % FLASH_SECTOR_SIZE
    { data_address := page_address, page_offset := 0,
      page_address := page_address, sector_address := page_address - sector_offset }
  else t

/-- The sector buffer `saveSensorData` programs (flash.cpp:256-274): the
current sector contents with the serialized record copied in. -/
def Flash.sectorBuffer (s : Flash) (data : SensorData) (t : WriteTarget) : Bytes :=
  let sector_buffer := memcpyFrom (ptrAdd s.chip t.sector_address) FLASH_SECTOR_SIZE
  let page_offset_in_sector := t.page_address - t.sector_address
  let data_offset_in_buffer := page_offset_in_sector + t.page_offset
  memcpyAt sector_buffer data_offset_in_buffer (serializeSensorData data)

/-- The read-back verification of `saveSensorData` (flash.cpp:292-343):
`true` when the record found at `data_address` is accepted. -/
def Flash.verifyPayload (s : Flash) (data : SensorData) (t : WriteTarget) : Bool :=
  let verification_ptr := ptrAdd s.chip t.data_address
  let written_magic := read32 verification_ptr 0
  if written_magic ≠ 0xABCD1234 then false
  else
    let verify := deserializeSensorData verification_ptr
    let verification_failed :=
      f32FabsDiffGt verify.temp data.temp || f32FabsDiffGt verify.hum data.hum ||
      decide (verify.co2 ≠ data.co2) || decide (verify.timestamp ≠ data.timestamp)
    !verification_failed

/-- The payload part of `saveSensorData` (flash.cpp:256-343): patch the
sector, erase it, program it, verify the record. -/
def Flash.writePayload (hw : Hw) (s : Flash) (data : SensorData) (t : WriteTarget) :
    Bool × Flash :=
  let sector_buffer := s.sectorBuffer data t
  let e := s.safeFlashErase hw t.sector_address FLASH_SECTOR_SIZE
  if !e.1 then (false, e.2)
  else
    let p := e.2.safeFlashProgram hw t.sector_address sector_buffer FLASH_SECTOR_SIZE
    if !p.1 then (false, p.2)
    else if !p.2.verifyPayload data t then (false, p.2)
    else (true, p.2)

/-- The count part of `saveSensorData` (flash.cpp:345-406): increment the
in-memory count and rewrite the count sector. -/
def Flash.updateCount (hw : Hw) (s : Flash) : Bool × Flash :=
  let s := { s with _stored_data_count := u32 (s._stored_data_count + 1) }
  let count_buffer := s._stored_data_count
  let count_sector_offset := s._data_count_address % FLASH_SECTOR_SIZE
  let count_sector_address := s._data_count_address - count_sector_offset
  let count_sector_buffer := memcpyFrom (ptrAdd s.chip count_sector_address) FLASH_SECTOR_SIZE
  let count_offset_in_sector := s._data_count_address - count_sector_address
  let count_sector_buffer := memcpyAt count_sector_buffer count_offset_in_sector (le32 count_buffer)
  let e := s.safeFlashErase hw count_sector_address FLASH_SECTOR_SIZE
  if !e.1 then
    (false, { e.2 with _stored_data_count := u32Sub e.2._stored_data_count 1 })
  else
    let p := e.2.safeFlashProgram hw count_sector_address count_sector_buffer FLASH_SECTOR_SIZE
    if !p.1 then
      (false, { p.2 with _stored_data_count := u32Sub p.2._stored_data_count 1 })
    else
      let verify_count := read32 p.2.chip p.2._data_count_address
      if verify_count ≠ p.2._stored_data_count then
        (false, { p.2 with _stored_data_count := verify_count })
      else (true, p.2)

/-- The function `Flash::saveSensorData` (flash.cpp:194-407). -/
def Flash.saveSensorData (hw : Hw) (s : Flash) (data : SensorData) : Bool × Flash :=
  if !s._flash_enabled then (true, s)
  else if s._stored_data_count ≥ s._max_data_count then (false, s)
  else
    let t := s.initialTarget
    if t.sector_address < s._flash_offset then (false, s)
    else
      let max_allowed_address := u32 (s._flash_offset + 16 * FLASH_SECTOR_SIZE)
      if t.sector_address ≥ max_allowed_address then (false, s)
      else
        let t := t.adjust
        let w := s.writePayload hw data t
        if !w.1 then (false, w.2) else w.2.updateCount hw

/-- The function `Flash::loadSensorData(size_t index)` (flash.cpp:446-511). -/
def Flash.loadSensorData (s : Flash) (index : Nat) : SensorData :=
  if index ≥ s._stored_data_count then getSensorDataError
  else
    let address := u32 (s._data_start_address + u32 (index * SENSOR_DATA_SIZE))
    if address < s._data_start_address ∨
        address ≥ u32 (s._data_start_address + u32 (s._max_data_count * SENSOR_DATA_SIZE)) then
      getSensorDataError
    else
      let data_ptr := ptrAdd s.chip address
      let is_erased :=
        (List.range (min 16 SENSOR_DATA_SIZE)).all fun i => decide (read8 data_ptr i = 0xFF)
      if is_erased then getSensorDataError
      else
        let magic := read32 data_ptr 0
        if magic ≠ 0xABCD1234 then getSensorDataError
        else deserializeSensorData data_ptr

/-- The function `Flash::loadAllSensorData` (flash.cpp:518-547): the loop
pushes every loaded record with a non-zero timestamp onto `result`. -/
def Flash.loadAllSensorData (s : Flash) : List SensorData :=
  let result : List SensorData := []
  if !s._flash_enabled ∨ s.getStoredCount = 0 then result
  else
    let count := s.getStoredCount
    (List.range count).foldl
      (fun result i =>
        let data := s.loadSensorData i
        if data.timestamp ≠ 0 then result ++ [data] else result)
      result

/-- A chip in the state a reset leaves behind: the count word at `base` is 0,
every other byte is erased. -/
def resetChip (base : Nat) : Bytes := fun a => if base ≤ a ∧ a < base + 4 then 0 else 0xFF

/-- A `SerializedSensorData` whose members fit their C types. -/
def SerializedSensorData.WellTyped (s : SerializedSensorData) : Prop :=
  s.magic < 4294967296 ∧ s.temp < 4294967296 ∧ s.hum < 4294967296 ∧ s.pres < 4294967296 ∧
  s.gasRes < 4294967296 ∧ s.pm2_5 < 65536 ∧ s.pm5 < 65536 ∧ s.pm10 < 65536 ∧
  s.padding < 65536 ∧ s.co2 < 4294967296 ∧ s.latitude < 4294967296 ∧
  s.longitude < 4294967296 ∧ s.timestamp < 4294967296 ∧ s.flags < 256 ∧
  s.reserved0 < 256 ∧ s.reserved1 < 256 ∧ s.reserved2 < 256 ∧ s.checksum < 4294967296

/-- The layout members of `s` are the ones the constructor computes for the
argument `f`; the count, the enabled flag and the chip contents are free. -/
def Flash.HasLayout (s : Flash) (f : Nat) : Prop :=
  s._flash_offset = (Flash.new f s.chip)._flash_offset ∧
  s._data_count_address = (Flash.new f s.chip)._data_count_address ∧
  s._data_start_address = (Flash.new f s.chip)._data_start_address ∧
  s._max_data_count = (Flash.new f s.chip)._max_data_count

/-- A plausible record for concrete checks: 20.0 degrees, 50 percent
humidity, 400 ppm. -/
def sampleRecord (timestamp : Nat) (is_fake_gps : Bool) : SensorData :=
  { temp := 0x41A00000, hum := 0x42480000, pres := 0x447D5000, gasRes := 0x47435000,
    pm2_5 := 3, pm5 := 4, pm10 := 5, co2 := 400,
    latitude := 482000000, longitude := 156000000,
    timestamp := timestamp, is_fake_gps := is_fake_gps }

/-- A store constructed with the default offset on a freshly reset chip. -/
def freshStore : Flash := Flash.new 0 (resetChip DEFAULT_FLASH_TARGET_OFFSET)

/-- The two states hold the same data members; only the chip contents may
differ. -/
def Flash.SameMembers (s t : Flash) : Prop :=
  t._flash_offset = s._flash_offset ∧
  t._data_count_address = s._data_count_address ∧
  t._data_start_address = s._data_start_address ∧
  t._max_data_count = s._max_data_count ∧
  t._stored_data_count = s._stored_data_count ∧
  t._flash_enabled = s._flash_enabled

/-- The flash image right after `saveSensorData` has programmed the payload
sector (the `flash_range_program` call inside flash.cpp:284), when the call
gets that far; `none` when it returns before. From there to the erase of the
count sector (flash.cpp:376) the code performs no flash operation, so this is
the image at every point in between, whether or not the read-back
verification accepts the record. -/
def Flash.imageAfterPayloadProgram (hw : Hw) (s : Flash) (data : SensorData) : Option Bytes :=
  if !s._flash_enabled then none
  else if s._stored_data_count ≥ s._max_data_count then none
  else
    let t := s.initialTarget
    if t.sector_address < s._flash_offset then none
    else
      let max_allowed_address := u32 (s._flash_offset + 16 * FLASH_SECTOR_SIZE)
      if t.sector_address ≥ max_allowed_address then none
      else
        let t := t.adjust
        let sector_buffer := s.sectorBuffer data t
        let e := s.safeFlashErase hw t.sector_address FLASH_SECTOR_SIZE
        if !e.1 then none
        else some (e.2.safeFlashProgram hw t.sector_address sector_buffer FLASH_SECTOR_SIZE).2.chip

/-- The store after one record was appended to `freshStore` on the fault-free
chip: both counts are 1. -/
def storeWithOneRecord : Flash :=
  (freshStore.saveSensorData idealHw (sampleRecord 1700000000 false)).2

/-- The flash image a second append to `storeWithOneRecord` leaves between
programming the payload and erasing the count sector. -/
def crashImage : Bytes :=
  (storeWithOneRecord.imageAfterPayloadProgram idealHw (sampleRecord 1700000060 false)).getD
    (fun _ => 0xFF)

/-- Calls of `saveSensorData` in order, one per record: the list of return
values and the final state. -/
def Flash.saveAll (hw : Hw) (s : Flash) : List SensorData → List Bool × Flash
  | [] => ([], s)
  | d :: ds =>
    let r := s.saveSensorData hw d
    let rest := Flash.saveAll hw r.2 ds
    (r.1 :: rest.1, rest.2)

/-- A freshly reset store, ready for use: constructed with the default offset
on a reset chip and initialised on the fault-free chip. -/
def readyStore : Flash := (freshStore.init idealHw).2

/-- The two states have the same layout members and the same enabled flag;
the count and the chip contents may differ. -/
def Flash.SameLayout (s t : Flash) : Prop :=
  t._flash_offset = s._flash_offset ∧
  t._data_count_address = s._data_count_address ∧
  t._data_start_address = s._data_start_address ∧
  t._max_data_count = s._max_data_count ∧
  t._flash_enabled = s._flash_enabled

/-- A record that passes the plausibility test of the codec: temperature
strictly between -50 and 100, humidity in [0, 100], timestamp strictly
between 1600000000 and 2000000000. -/
def SensorData.Plausible (d : SensorData) : Prop := dataLooksValid (serializedFields d) = true

instance (d : SensorData) : Decidable d.Plausible := by
  unfold SensorData.Plausible; infer_instance

/-- The function `Flash::eraseStorage` (flash.cpp:549-581). It calls the two
SDK primitives directly, without the `safeFlash` helpers and without testing
`_flash_enabled`. -/
def Flash.eraseStorage (hw : Hw) (s : Flash) : Bool × Flash :=
  let sectors_to_erase := 16
  let erased := hw.flash_range_erase s.chip s._flash_offset (sectors_to_erase * FLASH_SECTOR_SIZE)
  let s := { s with chip := erased }
  let s := { s with _stored_data_count := 0 }
  let count_bytes := ofList (le32 0)
  let programmed := hw.flash_range_program s.chip s._data_count_address count_bytes DATA_COUNT_SIZE
  let s := { s with chip := programmed }
  let verify_count := read32 s.chip s._data_count_address
  if verify_count ≠ 0 then (false, s) else (true, s)

/-- The serialization loop of `saveSensorDataBatch` (flash.cpp:423-425):
record `i` is written at `buffer + i * SENSOR_DATA_SIZE`. -/
def fillBatchBuffer (buffer : Bytes) (i : Nat) : List SensorData → Bytes
  | [] => buffer
  | d :: ds =>
    fillBatchBuffer (memcpyAt buffer (u32 (i * SENSOR_DATA_SIZE)) (serializeSensorData d))
      (i + 1) ds

/-- The function `Flash::saveSensorDataBatch` (flash.cpp:409-444). It calls
`flash_range_program` directly: no erase, no `safeFlash` helper, no test of
`_flash_enabled`, no read-back. -/
def Flash.saveSensorDataBatch (hw : Hw) (s : Flash) (data : List SensorData) : Bool × Flash :=
  if u32 (s._stored_data_count + data.length) > s._max_data_count then (false, s)
  else
    let totalSize := u32 (data.length * SENSOR_DATA_SIZE)
    let pages := u32 (totalSize + FLASH_PAGE_SIZE - 1) / FLASH_PAGE_SIZE
    let buffer : Bytes := fun _ => 0xFF
    let buffer := fillBatchBuffer buffer 0 data
    let data_address := u32 (s._data_start_address + u32 (s._stored_data_count * SENSOR_DATA_SIZE))
    let programmed := hw.flash_range_program s.chip data_address buffer (u32 (pages * FLASH_PAGE_SIZE))
    let s := { s with chip := programmed }
    let s := { s with _stored_data_count := u32 (s._stored_data_count + data.length) }
    let count_bytes := ofList (le32 s._stored_data_count)
    let programmed := hw.flash_range_program s.chip s._data_count_address count_bytes DATA_COUNT_SIZE
    let s := { s with chip := programmed }
    (true, s)

/-- The store as `init` sees it after its address adjustment
(flash.cpp:64-76): the data start is one sector after the count sector. -/
def Flash.initStart (s : Flash) : Flash :=
  let count_sector_offset := s._data_count_address % FLASH_SECTOR_SIZE
  let count_sector_address := s._data_count_address - count_sector_offset
  let aligned_data_start := u32 (count_sector_address + FLASH_SECTOR_SIZE)
  if s._data_start_address ≠ aligned_data_start then
    { s with _data_start_address := aligned_data_start }
  else s

/-- The record whose every field is the corresponding field of the 52-byte
buffer `b`, in the layout of `SerializedSensorData`. -/
def fieldsOf (b : Bytes) : SensorData :=
  { temp := read32 b 4, hum := read32 b 8, pres := read32 b 12, gasRes := read32 b 16,
    pm2_5 := read16 b 20, pm5 := read16 b 22, pm10 := read16 b 24,
    co2 := read32 b 28, latitude := read32 b 32, longitude := read32 b 36,
    timestamp := read32 b 40, is_fake_gps := decide (read8 b 44 % 2 = 1) }

/-- The byte positions of a serialized record that hold an integer summand of
the checksum: `pm2_5` (20-21), `pm10` (24-25), `co2`, `latitude`, `longitude`,
`timestamp` (28-43) and `flags` (44). -/
def checksummedIntegerBytes : List Nat :=
  [20, 21, 24, 25, 28, 29, 30, 31, 32, 33, 34, 35, 36, 37, 38, 39, 40, 41, 42, 43, 44]

/-- The serialized bytes of `r` with the stored checksum replaced by the
computed checksum plus one: a buffer with a valid magic whose checksum does
not match. -/
def withBadChecksum (r : SensorData) : Bytes :=
  ofList ({ serializedFields r with
    checksum := u32 (valueChecksum (serializedFields r) + 1) }).toBytes

/-- The record `sampleRecord` with the given temperature and humidity bit
patterns. -/
def sampleClimate (temp hum timestamp : Nat) : SensorData :=
  { sampleRecord timestamp false with temp := temp, hum := hum }

/-- The byte positions of the two floats that enter the checksum only as
`(int)(value * 100)`: `temp` (4-7) and `hum` (8-11). -/
def scaledFloatBytes : List Nat := [4, 5, 6, 7, 8, 9, 10, 11]

/-- The byte positions of the data fields the checksum leaves out: `pres`
(12-15), `gasRes` (16-19) and `pm5` (22-23). -/
def unsummedDataBytes : List Nat := [12, 13, 14, 15, 16, 17, 18, 19, 22, 23]

/-- The erase step of the first-time initialisation in `init`
(flash.cpp:103), on the state `init` has reached there. -/
def Flash.initErase (hw : Hw) (s : Flash) : Bool × Flash :=
  Flash.safeFlashErase hw { s.initStart with _stored_data_count := 0 } s._data_count_address
    FLASH_PAGE_SIZE

/-- The program step of the first-time initialisation in `init`
(flash.cpp:112), on the state the erase step leaves. -/
def Flash.initProgram (hw : Hw) (s : Flash) : Bool × Flash :=
  (s.initErase hw).2.safeFlashProgram hw (s.initErase hw).2._data_count_address
    (ofList (le32 0)) DATA_COUNT_SIZE

/-- A chip on which erase and program have no effect. -/
def stuckHw : Hw :=
  { flash_range_erase := fun m _ _ => m
    flash_range_program := fun m _ _ _ => m }

/-- The store after `n` appends of the sample record to the ready store, on
the fault-free chip. -/
def storeAfter (n : Nat) : Flash :=
  (readyStore.saveAll idealHw (List.replicate n (sampleRecord 1700000000 false))).2

/-- A store with the default offset and the given in-memory count; only its
address members matter where it is used. -/
def layoutWithCount (c : Nat) : Flash :=
  { Flash.new 0 (fun _ => 0xFF) with _stored_data_count := c }

/-- The size of the staging buffer `saveSensorDataBatch` allocates for `n`
records (flash.cpp:415-420): `pages * FLASH_PAGE_SIZE`. -/
def batchBufferSize (n : Nat) : Nat :=
  let totalSize := u32 (n * SENSOR_DATA_SIZE)
  let pages := u32 (totalSize + FLASH_PAGE_SIZE - 1) / FLASH_PAGE_SIZE
  u32 (pages * FLASH_PAGE_SIZE)

/-- The address `resetStorage` passes to `safeFlashErase`: its
`flash_offset_aligned` (flash.cpp:806-813). -/
def Flash.resetEraseAddress (s : Flash) : Nat :=
  if s._flash_offset % FLASH_SECTOR_SIZE ≠ 0 then
    s._flash_offset / FLASH_SECTOR_SIZE * FLASH_SECTOR_SIZE
  else s._flash_offset

/-- The address of the sector that holds the count word, `count_sector_address`
in `saveSensorData` (flash.cpp:355-356) and in `resetStorage`
(flash.cpp:828-829); both pass it to `safeFlashErase` or `safeFlashProgram`. -/
def Flash.countSectorAddress (s : Flash) : Nat :=
  s._data_count_address - s._data_count_address % FLASH_SECTOR_SIZE

/-- A call of one of the two flash helpers, with the address it is given. -/
inductive HelperCall where
  | erase (address : Nat)
  | program (address : Nat)
deriving DecidableEq

/-- The address of a helper call passes the alignment test of the helper:
`address % FLASH_SECTOR_SIZE != 0` sends `safeFlashErase` into its
'not sector-aligned' return (flash.cpp:920-923) and `address % 4 != 0` sends
`safeFlashProgram` into its 'not word-aligned' return (flash.cpp:981-984). -/
def HelperCall.Aligned : HelperCall → Prop
  | HelperCall.erase address => address % FLASH_SECTOR_SIZE = 0
  | HelperCall.program address => address % 4 = 0

instance (c : HelperCall) : Decidable c.Aligned := by
  cases c <;> unfold HelperCall.Aligned <;> infer_instance

/-- The part of `safeFlashErase` that follows its alignment test
(flash.cpp:925-968): the erase primitive and the three read-backs. -/
def Flash.eraseAfterAlignmentTest (hw : Hw) (s : Flash) (address size : Nat) : Bool × Flash :=
  let s1 := { s with chip := hw.flash_range_erase s.chip address size }
  let verify_begin := read32 s1.chip address
  let verify_middle := read32 s1.chip (u32 (address + size / 2))
  let verify_end := read32 s1.chip (u32Sub (address + size) 4)
  if verify_begin ≠ 0xFFFFFFFF ∨ verify_middle ≠ 0xFFFFFFFF ∨ verify_end ≠ 0xFFFFFFFF then
    (false, s1)
  else (true, s1)

/-- The part of `safeFlashProgram` that follows its alignment test
(flash.cpp:986-1043): the program primitive and the read-back of the first
bytes. -/
def Flash.programAfterAlignmentTest (hw : Hw) (s : Flash) (address : Nat) (data : Bytes)
    (size : Nat) : Bool × Flash :=
  let s1 := { s with chip := hw.flash_range_program s.chip address data size }
  let verify_size := min size 16
  let verification_passed :=
    (List.range verify_size).all fun i => decide (read8 s1.chip (address + i) = read8 data i)
  (verification_passed, s1)

/-- The call `safeFlashErase(address, size)` together with its record. -/
def Flash.safeFlashEraseTraced (hw : Hw) (s : Flash) (address size : Nat) :
    (Bool × Flash) × List HelperCall :=
  (s.safeFlashErase hw address size, [HelperCall.erase address])

/-- The call `safeFlashProgram(address, data, size)` together with its
record. -/
def Flash.safeFlashProgramTraced (hw : Hw) (s : Flash) (address : Nat) (data : Bytes)
    (size : Nat) : (Bool × Flash) × List HelperCall :=
  (s.safeFlashProgram hw address data size, [HelperCall.program address])

/-- The function `Flash::resetStorage` (flash.cpp:797-857) with every helper
call it makes recorded, in order. -/
def Flash.resetStorageTraced (hw : Hw) (s : Flash) : (Bool × Flash) × List HelperCall :=
  if !s._flash_enabled then ((true, { s with _stored_data_count := 0 }), [])
  else
    let flash_offset_aligned :=
      if s._flash_offset % FLASH_SECTOR_SIZE ≠ 0 then
        s._flash_offset / FLASH_SECTOR_SIZE * FLASH_SECTOR_SIZE
      else s._flash_offset
    let sectors_to_erase := 16
    let e := s.safeFlashEraseTraced hw flash_offset_aligned (sectors_to_erase * FLASH_SECTOR_SIZE)
    if !e.1.1 then ((false, e.1.2), e.2)
    else
      let s2 := { e.1.2 with _stored_data_count := 0 }
      let count_sector_offset := s2._data_count_address % FLASH_SECTOR_SIZE
      let count_sector_address := s2._data_count_address - count_sector_offset
      let sector_buffer : Bytes := fun _ => 0xFF
      let count_offset_in_sector := s2._data_count_address - count_sector_address
      let sector_buffer := memcpyAt sector_buffer count_offset_in_sector (le32 0)
      let p := s2.safeFlashProgramTraced hw count_sector_address sector_buffer FLASH_SECTOR_SIZE
      if !p.1.1 then ((false, p.1.2), e.2 ++ p.2) else ((true, p.1.2), e.2 ++ p.2)

/-- The function `Flash::init` (flash.cpp:53-192) with every helper call it
makes recorded, in order, those of a triggered `resetStorage` included. -/
def Flash.initTraced (hw : Hw) (s : Flash) : (Bool × Flash) × List HelperCall :=
  if !s._flash_enabled then ((true, { s with _stored_data_count := 0 }), [])
  else
    let count_sector_offset := s._data_count_address % FLASH_SECTOR_SIZE
    let count_sector_address := s._data_count_address - count_sector_offset
    let aligned_data_start := u32 (count_sector_address + FLASH_SECTOR_SIZE)
    let s :=
      if s._data_start_address ≠ aligned_data_start then
        { s with _data_start_address := aligned_data_start }
      else s
    let stored_count := read32 s.chip s._data_count_address
    if stored_count = 0xFFFFFFFF then
      let s := { s with _stored_data_count := 0 }
      let e := s.safeFlashEraseTraced hw s._data_count_address FLASH_PAGE_SIZE
      if !e.1.1 then ((true, { e.1.2 with _stored_data_count := 0, _flash_enabled := false }), e.2)
      else
        let p := e.1.2.safeFlashProgramTraced hw e.1.2._data_count_address (ofList (le32 0))
          DATA_COUNT_SIZE
        if !p.1.1 then
          ((true, { p.1.2 with _stored_data_count := 0, _flash_enabled := false }), e.2 ++ p.2)
        else ((true, p.1.2), e.2 ++ p.2)
    else if stored_count > s._max_data_count then
      let r := s.resetStorageTraced hw
      if !r.1.1 then ((true, { r.1.2 with _stored_data_count := 0, _flash_enabled := false }), r.2)
      else ((true, { r.1.2 with _stored_data_count := 0 }), r.2)
    else
      let s := { s with _stored_data_count := stored_count }
      if s._stored_data_count > 0 then
        let magic := read32 s.chip s._data_start_address
        if magic = 0xABCD1234 then ((true, s), [])
        else
          let r := s.resetStorageTraced hw
          if !r.1.1 then
            ((true, { r.1.2 with _stored_data_count := 0, _flash_enabled := false }), r.2)
          else ((true, r.1.2), r.2)
      else ((true, s), [])

/-- The payload part of `saveSensorData` (flash.cpp:256-343) with every helper
call it makes recorded, in order. -/
def Flash.writePayloadTraced (hw : Hw) (s : Flash) (data : SensorData) (t : WriteTarget) :
    (Bool × Flash) × List HelperCall :=
  let sector_buffer := s.sectorBuffer data t
  let e := s.safeFlashEraseTraced hw t.sector_address FLASH_SECTOR_SIZE
  if !e.1.1 then ((false, e.1.2), e.2)
  else
    let p := e.1.2.safeFlashProgramTraced hw t.sector_address sector_buffer FLASH_SECTOR_SIZE
    if !p.1.1 then ((false, p.1.2), e.2 ++ p.2)
    else if !p.1.2.verifyPayload data t then ((false, p.1.2), e.2 ++ p.2)
    else ((true, p.1.2), e.2 ++ p.2)

/-- The count part of `saveSensorData` (flash.cpp:345-406) with every helper
call it makes recorded, in order. -/
def Flash.updateCountTraced (hw : Hw) (s : Flash) : (Bool × Flash) × List HelperCall :=
  let s := { s with _stored_data_count := u32 (s._stored_data_count + 1) }
  let count_buffer := s._stored_data_count
  let count_sector_offset := s._data_count_address % FLASH_SECTOR_SIZE
  let count_sector_address := s._data_count_address - count_sector_offset
  let count_sector_buffer := memcpyFrom (ptrAdd s.chip count_sector_address) FLASH_SECTOR_SIZE
  let count_offset_in_sector := s._data_count_address - count_sector_address
  let count_sector_buffer := memcpyAt count_sector_buffer count_offset_in_sector (le32 count_buffer)
  let e := s.safeFlashEraseTraced hw count_sector_address FLASH_SECTOR_SIZE
  if !e.1.1 then
    ((false, { e.1.2 with _stored_data_count := u32Sub e.1.2._stored_data_count 1 }), e.2)
  else
    let p := e.1.2.safeFlashProgramTraced hw count_sector_address count_sector_buffer
      FLASH_SECTOR_SIZE
    if !p.1.1 then
      ((false, { p.1.2 with _stored_data_count := u32Sub p.1.2._stored_data_count 1 }),
        e.2 ++ p.2)
    else
      let verify_count := read32 p.1.2.chip p.1.2._data_count_address
      if verify_count ≠ p.1.2._stored_data_count then
        ((false, { p.1.2 with _stored_data_count := verify_count }), e.2 ++ p.2)
      else ((true, p.1.2), e.2 ++ p.2)

/-- The function `Flash::saveSensorData` (flash.cpp:194-407) with every helper
call it makes recorded, in order. -/
def Flash.saveSensorDataTraced (hw : Hw) (s : Flash) (data : SensorData) :
    (Bool × Flash) × List HelperCall :=
  if !s._flash_enabled then ((true, s), [])
  else if s._stored_data_count ≥ s._max_data_count then ((false, s), [])
  else
    let t := s.initialTarget
    if t.sector_address < s._flash_offset then ((false, s), [])
    else
      let max_allowed_address := u32 (s._flash_offset + 16 * FLASH_SECTOR_SIZE)
      if t.sector_address ≥ max_allowed_address then ((false, s), [])
      else
        let t := t.adjust
        let w := s.writePayloadTraced hw data t
        if !w.1.1 then ((false, w.1.2), w.2)
        else
          let u := w.1.2.updateCountTraced hw
          (u.1, w.2 ++ u.2)

/-! ## Codec lemmas -/

/-- Little-endian recomposition of a `uint32_t` from its four bytes. -/
theorem le32_recompose (x : Nat) (h : x < 4294967296) :
    x % 256 % 256 + 256 * (x / 256 % 256 % 256) + 65536 * (x / 65536 % 256 % 256) +
      16777216 * (x / 16777216 % 256 % 256) = x := by
  omega

/-- Little-endian recomposition of a `uint16_t` from its two bytes. -/
theorem le16_recompose (x : Nat) (h : x < 65536) :
    x % 256 % 256 + 256 * (x / 256 % 256 % 256) = x := by
  omega

/-- Copying a struct out to bytes and back in gives the struct. -/
theorem ofBytes_toBytes (s : SerializedSensorData) (h : s.WellTyped) :
    SerializedSensorData.ofBytes (ofList s.toBytes) = s := by
  obtain ⟨h1, h2, h3, h4, h5, h6, h7, h8, h9, h10, h11, h12, h13, h14, h15, h16, h17, h18⟩ := h
  cases s
  simp only [SerializedSensorData.ofBytes, SerializedSensorData.toBytes, le32, le16,
    read32, read16, read8, List.cons_append, List.nil_append, ofList, List.getD_cons_succ,
    List.getD_cons_zero, SerializedSensorData.mk.injEq] at *
  and_intros
  all_goals omega

/-- The checksum does not read the checksum member. -/
theorem valueChecksum_checksum (s : SerializedSensorData) (c : Nat) :
    valueChecksum { s with checksum := c } = valueChecksum s := rfl

/-- The checksum is a `uint32_t`. -/
theorem valueChecksum_lt (s : SerializedSensorData) : valueChecksum s < 4294967296 := by
  simp only [valueChecksum, List.foldl_cons, List.foldl_nil, u32]
  omega

/-- The struct `serializeSensorData` copies out is well typed. -/
theorem serialized_wellTyped (x : SensorData) :
    ({ serializedFields x with checksum := valueChecksum (serializedFields x) }
      : SerializedSensorData).WellTyped := by
  have hc := valueChecksum_lt (serializedFields x)
  simp only [SerializedSensorData.WellTyped, serializedFields, u32] at *
  and_intros
  all_goals first
    | omega
    | exact hc
    | (split <;> omega)

/-- Extraction undoes the field copy of `serializeSensorData`. -/
theorem extractFields_serializedFields (x : SensorData) (h : x.WellTyped) (c : Nat) :
    extractFields { serializedFields x with checksum := c } = x := by
  obtain ⟨h1, h2, h3, h4, h5, h6, h7, h8, h9, h10, h11⟩ := h
  cases x with
  | mk temp hum pres gasRes pm2_5 pm5 pm10 co2 latitude longitude timestamp is_fake_gps =>
    simp only [extractFields, serializedFields, u32, SensorData.mk.injEq] at *
    and_intros
    all_goals first
      | omega
      | (cases is_fake_gps <;> simp)

/-- Decoding the bytes `serializeSensorData` produced takes the checksum-match
path and extracts the fields of the serialized struct. -/
theorem deserialize_serialize_any (x : SensorData) :
    deserializeSensorData (ofList (serializeSensorData x)) =
      extractFields { serializedFields x with checksum := valueChecksum (serializedFields x) } := by
  unfold deserializeSensorData serializeSensorData
  simp only [ofBytes_toBytes _ (serialized_wellTyped x)]
  simp only [valueChecksum_checksum]
  simp [serializedFields]

/-- The number of bytes `serializeSensorData` writes. -/
theorem serializeSensorData_length (x : SensorData) : (serializeSensorData x).length = 52 := by
  simp [serializeSensorData, SerializedSensorData.toBytes, le32, le16]

/-! ## C1: codec round trip -/

/-- C1. Codec round trip: for every well-typed `SensorData` record `x`
(`is_fake_gps` true or false), `serializeSensorData` writes 52 bytes and
`deserializeSensorData` applied to them returns a record equal to `x` in
every field, the four floats as 32-bit patterns. -/
theorem C1_codec_round_trip (x : SensorData) (h : x.WellTyped) :
    (serializeSensorData x).length = 52 ∧
      deserializeSensorData (ofList (serializeSensorData x)) = x := by
  refine ⟨serializeSensorData_length x, ?_⟩
  rw [deserialize_serialize_any, extractFields_serializedFields x h]

/-- C1 at a concrete record with the fake-GPS flag set. -/
theorem C1_codec_round_trip_witness :
    (sampleRecord 1700000000 true).WellTyped ∧
      ((serializeSensorData (sampleRecord 1700000000 true)).length = 52 ∧
        deserializeSensorData (ofList (serializeSensorData (sampleRecord 1700000000 true))) =
          sampleRecord 1700000000 true) :=
  ⟨by decide, C1_codec_round_trip (sampleRecord 1700000000 true) (by decide)⟩

/-! ## C4: capacity -/

/-- The two struct sizes under the target ABI. -/
theorem struct_sizes : SENSOR_DATA_SIZE = 44 ∧ SERIALIZED_SIZE = 52 := by
  constructor <;> decide

/-- C4. The capacity the constructor computes, for every constructor offset:
`getMaxDataCount()` is `(32 - 1) * 4096 / SENSOR_DATA_SIZE = 2885`, a division
by `sizeof(SensorData) = 44`, whereas the size of one serialized record is
`sizeof(SerializedSensorData) = 52` and the quotient by it is 2441. -/
theorem C4_capacity_divides_by_struct_size (f : Nat) (chip : Bytes) :
    (Flash.new f chip).getMaxDataCount = (32 - 1) * 4096 / SENSOR_DATA_SIZE ∧
      (Flash.new f chip).getMaxDataCount = 2885 ∧
      (serializeSensorData (sampleRecord 1700000000 false)).length = SERIALIZED_SIZE ∧
      (32 - 1) * 4096 / SERIALIZED_SIZE = 2441 ∧
      (Flash.new f chip).getMaxDataCount ≠ (32 - 1) * 4096 / SERIALIZED_SIZE := by
  have h := struct_sizes
  refine ⟨?_, ?_, ?_, ?_, ?_⟩
  · simp [Flash.new, Flash.getMaxDataCount, FLASH_SECTOR_SIZE]
  · simp [Flash.new, Flash.getMaxDataCount, FLASH_SECTOR_SIZE, h.1]
  · rw [serializeSensorData_length, h.2]
  · rw [h.2]
  · simp [Flash.new, Flash.getMaxDataCount, FLASH_SECTOR_SIZE, h.1, h.2]

/-! ## C5: rejection at capacity -/

/-- C5. Clean rejection at capacity: for every chip behaviour `hw`, every
store state with flash enabled and `getStoredCount() >= getMaxDataCount()`,
and every record, `saveSensorData` returns false and leaves the whole state
as it was: the in-memory count and every flash byte, the persisted count word
included, are unchanged (no erase or program has acted on the chip). -/
theorem C5_clean_rejection_at_capacity (hw : Hw) (s : Flash) (data : SensorData)
    (hen : s.isFlashEnabled = true) (hfull : s.getStoredCount ≥ s.getMaxDataCount) :
    (s.saveSensorData hw data).1 = false ∧
      (s.saveSensorData hw data).2.getStoredCount = s.getStoredCount ∧
      (∀ a, (s.saveSensorData hw data).2.chip a = s.chip a) ∧
      read32 (s.saveSensorData hw data).2.chip s._data_count_address =
        read32 s.chip s._data_count_address ∧
      (s.saveSensorData hw data).2 = s := by
  have h : s.saveSensorData hw data = (false, s) := by
    simp only [Flash.isFlashEnabled, Flash.getStoredCount, Flash.getMaxDataCount] at hen hfull
    simp [Flash.saveSensorData, hen, hfull]
  rw [h]
  exact ⟨rfl, rfl, fun _ => rfl, rfl, rfl⟩

/-- C5 at a full store on the fault-free chip. -/
theorem C5_clean_rejection_at_capacity_witness :
    ({ freshStore with _stored_data_count := 2885 } : Flash).isFlashEnabled = true ∧
    ({ freshStore with _stored_data_count := 2885 } : Flash).getStoredCount ≥
      ({ freshStore with _stored_data_count := 2885 } : Flash).getMaxDataCount ∧
    (({ freshStore with _stored_data_count := 2885 } : Flash).saveSensorData idealHw
        (sampleRecord 1700000000 false)).1 = false :=
  ⟨by decide!, by decide!,
    (C5_clean_rejection_at_capacity idealHw { freshStore with _stored_data_count := 2885 }
      (sampleRecord 1700000000 false) (by decide!) (by decide!)).1⟩

/-! ## C9: error conditions of the single-record read -/

/-- The address `loadSensorData(index)` reads from (flash.cpp:453), computed
in `uint32_t`. -/
theorem loadSensorData_address (s : Flash) (index : Nat) :
    u32 (s._data_start_address + u32 (index * SENSOR_DATA_SIZE)) =
      (s._data_start_address + index * SENSOR_DATA_SIZE) % 4294967296 := by
  simp only [u32]
  omega

/-- C9. Error conditions of the single-record read: for every store state and
index, `loadSensorData(index)` returns the error record (every numeric field
0, timestamp 0, `is_fake_gps` false) whenever `index >= getStoredCount()`, or
the first 16 bytes at `data_start + index * SENSOR_DATA_SIZE` (the `uint32_t`
address the code computes) are all `0xFF`, or the 32-bit little-endian word at
that address is not `0xABCD1234`. -/
theorem C9_load_error_conditions (s : Flash) (index : Nat)
    (h : index ≥ s.getStoredCount ∨
      (∀ i, i < 16 →
        read8 s.chip (u32 (s._data_start_address + u32 (index * SENSOR_DATA_SIZE)) + i) = 0xFF) ∨
      read32 s.chip (u32 (s._data_start_address + u32 (index * SENSOR_DATA_SIZE))) ≠ 0xABCD1234) :
    s.loadSensorData index = getSensorDataError ∧
      getSensorDataError =
        { temp := 0, hum := 0, pres := 0, gasRes := 0, pm2_5 := 0, pm5 := 0, pm10 := 0,
          co2 := 0, latitude := 0, longitude := 0, timestamp := 0, is_fake_gps := false } := by
  refine ⟨?_, rfl⟩
  unfold Flash.loadSensorData
  by_cases hidx : index ≥ s._stored_data_count
  · simp only [hidx, if_true]
  · simp only [hidx, if_false]
    split
    · rfl
    · by_cases herased : ((List.range (min 16 SENSOR_DATA_SIZE)).all fun i =>
          decide (read8 (ptrAdd s.chip (u32 (s._data_start_address +
            u32 (index * SENSOR_DATA_SIZE)))) i = 0xFF)) = true
      · simp only [herased, if_true]
      · simp only [herased, Bool.false_eq_true, if_false]
        split
        · rfl
        · rename_i hmagic
          exfalso
          rcases h with h | h | h
          · exact hidx h
          · apply herased
            rw [List.all_eq_true]
            intro i hi
            have hi16 : i < 16 := by
              have := List.mem_range.mp hi
              have hs := struct_sizes.1
              omega
            simpa [ptrAdd, read8] using h i hi16
          · apply h
            have hm : read32 (ptrAdd s.chip (u32 (s._data_start_address +
                u32 (index * SENSOR_DATA_SIZE)))) 0 = 0xABCD1234 := by
              simpa using hmagic
            simpa [read32, read8, ptrAdd] using hm

/-- C9 on the corruption scenario: the count is 3 and the magic word of
record 0 reads `0x00000000`. -/
theorem C9_load_error_conditions_witness :
    read32 ({ freshStore with _stored_data_count := 3, chip := fun _ => 0 } : Flash).chip
        (u32 (({ freshStore with _stored_data_count := 3, chip := fun _ => 0 } : Flash
          )._data_start_address + u32 (0 * SENSOR_DATA_SIZE))) ≠ 0xABCD1234 ∧
      ({ freshStore with _stored_data_count := 3, chip := fun _ => 0 } : Flash).loadSensorData 0 =
        getSensorDataError :=
  ⟨by decide!,
    (C9_load_error_conditions { freshStore with _stored_data_count := 3, chip := fun _ => 0 } 0
      (Or.inr (Or.inr (by decide!)))).1⟩

/-! ## C10: read-all is the filtered map of read-one -/

/-- The push loop of `loadAllSensorData` appends the kept records in order. -/
theorem foldl_push_eq_filter (load : Nat → SensorData) (l : List Nat) (acc : List SensorData) :
    l.foldl (fun result i =>
        let data := load i
        if data.timestamp ≠ 0 then result ++ [data] else result) acc =
      acc ++ (l.map load).filter (fun d => decide (d.timestamp ≠ 0)) := by
  induction l generalizing acc with
  | nil => simp
  | cons i l ih =>
    simp only [List.foldl_cons, List.map_cons]
    rw [ih]
    by_cases h : (load i).timestamp = 0
    · simp [h]
    · simp [h]

/-- C10. Read-all is the filtered map of read-one: for every store state with
flash enabled, `loadAllSensorData()` is the list of `loadSensorData(i)` for
`i = 0 .. getStoredCount() - 1` in increasing `i`, keeping exactly the results
whose timestamp is non-zero (so an error sentinel is omitted and the others
keep their order), and its length is at most `getStoredCount()`. -/
theorem C10_load_all_is_filtered_map (s : Flash) (hen : s.isFlashEnabled = true) :
    s.loadAllSensorData =
        ((List.range s.getStoredCount).map s.loadSensorData).filter
          (fun d => decide (d.timestamp ≠ 0)) ∧
      s.loadAllSensorData.length ≤ s.getStoredCount := by
  have heq : s.loadAllSensorData =
      ((List.range s.getStoredCount).map s.loadSensorData).filter
        (fun d => decide (d.timestamp ≠ 0)) := by
    unfold Flash.loadAllSensorData
    simp only [Flash.isFlashEnabled] at hen
    by_cases h0 : s.getStoredCount = 0
    · simp [h0]
    · simp only [hen, h0, Bool.not_true, Bool.false_eq_true, or_self, if_false]
      rw [foldl_push_eq_filter]
      simp
  refine ⟨heq, ?_⟩
  rw [heq]
  calc (((List.range s.getStoredCount).map s.loadSensorData).filter
          (fun d => decide (d.timestamp ≠ 0))).length
      ≤ ((List.range s.getStoredCount).map s.loadSensorData).length := List.length_filter_le _ _
    _ = s.getStoredCount := by simp

/-- C10 on a store whose count is 3 over an erased data region: every read is
the error sentinel and the result is empty. -/
theorem C10_load_all_is_filtered_map_witness :
    ({ freshStore with _stored_data_count := 3 } : Flash).isFlashEnabled = true ∧
      ({ freshStore with _stored_data_count := 3 } : Flash).loadAllSensorData.length ≤ 3 :=
  ⟨by decide!, (C10_load_all_is_filtered_map { freshStore with _stored_data_count := 3 }
    (by decide!)).2⟩

/-! ## Frame lemmas of the write path -/

/-- The relation `SameMembers` is reflexive. -/
theorem Flash.SameMembers.refl (s : Flash) : s.SameMembers s :=
  ⟨rfl, rfl, rfl, rfl, rfl, rfl⟩

/-- The relation `SameMembers` is transitive. -/
theorem Flash.SameMembers.trans {s t u : Flash} (h1 : s.SameMembers t) (h2 : t.SameMembers u) :
    s.SameMembers u := by
  unfold Flash.SameMembers at h1 h2 ⊢
  refine ⟨?_, ?_, ?_, ?_, ?_, ?_⟩
  · rw [h2.1, h1.1]
  · rw [h2.2.1, h1.2.1]
  · rw [h2.2.2.1, h1.2.2.1]
  · rw [h2.2.2.2.1, h1.2.2.2.1]
  · rw [h2.2.2.2.2.1, h1.2.2.2.2.1]
  · rw [h2.2.2.2.2.2, h1.2.2.2.2.2]

/-- The helper `safeFlashErase` changes no data member. -/
theorem safeFlashErase_sameMembers (hw : Hw) (s : Flash) (address size : Nat) :
    s.SameMembers (s.safeFlashErase hw address size).2 := by
  unfold Flash.safeFlashErase
  split
  · exact Flash.SameMembers.refl s
  · split
    · exact Flash.SameMembers.refl s
    · dsimp only
      split <;> exact ⟨rfl, rfl, rfl, rfl, rfl, rfl⟩

/-- The helper `safeFlashProgram` changes no data member. -/
theorem safeFlashProgram_sameMembers (hw : Hw) (s : Flash) (address : Nat) (data : Bytes)
    (size : Nat) : s.SameMembers (s.safeFlashProgram hw address data size).2 := by
  unfold Flash.safeFlashProgram
  split
  · exact Flash.SameMembers.refl s
  · split
    · exact Flash.SameMembers.refl s
    · exact ⟨rfl, rfl, rfl, rfl, rfl, rfl⟩

/-- When `safeFlashProgram` reports success on an enabled store, the first
`min size 16` bytes read back from the chip are the data bytes. -/
theorem safeFlashProgram_verified (hw : Hw) (s : Flash) (address : Nat) (data : Bytes)
    (size : Nat) (hen : s._flash_enabled = true)
    (hok : (s.safeFlashProgram hw address data size).1 = true) :
    ∀ i, i < min size 16 →
      read8 (s.safeFlashProgram hw address data size).2.chip (address + i) = read8 data i := by
  unfold Flash.safeFlashProgram at hok ⊢
  simp only [hen, Bool.not_true, Bool.false_eq_true, if_false] at hok ⊢
  split at hok
  · simp at hok
  · rename_i hal
    simp only [hal, if_false]
    dsimp only at hok ⊢
    rw [List.all_eq_true] at hok
    intro i hi
    have := hok i (List.mem_range.mpr hi)
    simpa using this

/-- The payload part of `saveSensorData` changes no data member. -/
theorem writePayload_sameMembers (hw : Hw) (s : Flash) (data : SensorData) (t : WriteTarget) :
    s.SameMembers (s.writePayload hw data t).2 := by
  have he := safeFlashErase_sameMembers hw s t.sector_address FLASH_SECTOR_SIZE
  have hp := safeFlashProgram_sameMembers hw
    (s.safeFlashErase hw t.sector_address FLASH_SECTOR_SIZE).2 t.sector_address
    (s.sectorBuffer data t) FLASH_SECTOR_SIZE
  unfold Flash.writePayload
  dsimp only
  split
  · exact he
  · split
    · exact he.trans hp
    · split <;> exact he.trans hp

/-- When `safeFlashProgram` reports success on an enabled store, the 32-bit
word read back at the programmed address is the first word of the data. -/
theorem safeFlashProgram_word (hw : Hw) (s : Flash) (address : Nat) (data : Bytes)
    (size : Nat) (hen : s._flash_enabled = true) (hsize : 4 ≤ size)
    (hok : (s.safeFlashProgram hw address data size).1 = true) :
    read32 (s.safeFlashProgram hw address data size).2.chip address = read32 data 0 := by
  have hv := safeFlashProgram_verified hw s address data size hen hok
  have h0 := hv 0 (by omega)
  have h1 := hv 1 (by omega)
  have h2 := hv 2 (by omega)
  have h3 := hv 3 (by omega)
  simp only [Nat.add_zero] at h0
  simp only [read32, h0, h1, h2, h3, Nat.zero_add]

/-- The first word of a buffer after the four bytes of `x` were copied to its
start. -/
theorem read32_memcpyAt_le32 (buf : Bytes) (x : Nat) :
    read32 (memcpyAt buf 0 (le32 x)) 0 = u32 x := by
  simp only [read32, read8, memcpyAt, le32, u32, List.length_cons, List.length_nil]
  simp
  omega

/-- What a successful count update leaves behind: the in-memory count is the
incremented one and the count word read back from flash equals it. -/
theorem updateCount_true (hw : Hw) (s : Flash)
    (hok : (s.updateCount hw).1 = true) :
    (s.updateCount hw).2._stored_data_count = u32 (s._stored_data_count + 1) ∧
      read32 (s.updateCount hw).2.chip s._data_count_address =
        (s.updateCount hw).2._stored_data_count := by
  have he := safeFlashErase_sameMembers hw
    { s with _stored_data_count := u32 (s._stored_data_count + 1) }
    (s._data_count_address - s._data_count_address % FLASH_SECTOR_SIZE) FLASH_SECTOR_SIZE
  have hp := safeFlashProgram_sameMembers hw
    (Flash.safeFlashErase hw { s with _stored_data_count := u32 (s._stored_data_count + 1) }
      (s._data_count_address - s._data_count_address % FLASH_SECTOR_SIZE)
      FLASH_SECTOR_SIZE).2
    (s._data_count_address - s._data_count_address % FLASH_SECTOR_SIZE)
    (memcpyAt (memcpyFrom (ptrAdd s.chip
      (s._data_count_address - s._data_count_address % FLASH_SECTOR_SIZE)) FLASH_SECTOR_SIZE)
      (s._data_count_address -
        (s._data_count_address - s._data_count_address % FLASH_SECTOR_SIZE))
      (le32 (u32 (s._stored_data_count + 1))))
    FLASH_SECTOR_SIZE
  unfold Flash.updateCount at hok ⊢
  dsimp only at hok ⊢
  generalize Flash.safeFlashErase hw { s with _stored_data_count := u32 (s._stored_data_count + 1) }
      (s._data_count_address - s._data_count_address % FLASH_SECTOR_SIZE)
      FLASH_SECTOR_SIZE = e at he hp hok ⊢
  generalize Flash.safeFlashProgram hw e.2
    (s._data_count_address - s._data_count_address % FLASH_SECTOR_SIZE)
    (memcpyAt (memcpyFrom (ptrAdd s.chip
      (s._data_count_address - s._data_count_address % FLASH_SECTOR_SIZE)) FLASH_SECTOR_SIZE)
      (s._data_count_address -
        (s._data_count_address - s._data_count_address % FLASH_SECTOR_SIZE))
      (le32 (u32 (s._stored_data_count + 1))))
    FLASH_SECTOR_SIZE = p at hp hok ⊢
  obtain ⟨-, m2, -, -, m5, -⟩ := he.trans hp
  dsimp only at m2 m5
  split at hok
  · simp at hok
  · split at hok
    · simp at hok
    · split at hok
      · simp at hok
      · rename_i h1 h2 h3
        rw [if_neg h1, if_neg h2, if_neg h3]
        dsimp only
        rw [m5]
        refine ⟨rfl, ?_⟩
        have h3' := not_not.mp h3
        rw [m2, m5] at h3'
        exact h3'

/-- A failed count update leaves the in-memory count where it was, when the
count word sits at the start of its sector (as the constructor places it). -/
theorem updateCount_false (hw : Hw) (s : Flash) (hen : s._flash_enabled = true)
    (hal : s._data_count_address % FLASH_SECTOR_SIZE = 0)
    (hc : s._stored_data_count < 4294967296)
    (hfail : (s.updateCount hw).1 = false) :
    (s.updateCount hw).2._stored_data_count = s._stored_data_count := by
  have hback : u32Sub (u32 (s._stored_data_count + 1)) 1 = s._stored_data_count := by
    simp only [u32Sub, u32]
    omega
  have hsub : s._data_count_address - s._data_count_address % FLASH_SECTOR_SIZE =
      s._data_count_address := by omega
  unfold Flash.updateCount at hfail ⊢
  dsimp only at hfail ⊢
  rw [hsub, Nat.sub_self] at hfail ⊢
  have he := safeFlashErase_sameMembers hw
    { s with _stored_data_count := u32 (s._stored_data_count + 1) }
    s._data_count_address FLASH_SECTOR_SIZE
  generalize Flash.safeFlashErase hw { s with _stored_data_count := u32 (s._stored_data_count + 1) }
      s._data_count_address FLASH_SECTOR_SIZE = e at he hfail ⊢
  have hp := safeFlashProgram_sameMembers hw e.2 s._data_count_address
    (memcpyAt (memcpyFrom (ptrAdd s.chip s._data_count_address) FLASH_SECTOR_SIZE) 0
      (le32 (u32 (s._stored_data_count + 1)))) FLASH_SECTOR_SIZE
  have hpe : e.2._flash_enabled = true := by
    rw [he.2.2.2.2.2]
    exact hen
  have hw32 := safeFlashProgram_word hw e.2 s._data_count_address
    (memcpyAt (memcpyFrom (ptrAdd s.chip s._data_count_address) FLASH_SECTOR_SIZE) 0
      (le32 (u32 (s._stored_data_count + 1)))) FLASH_SECTOR_SIZE hpe (by decide)
  rw [read32_memcpyAt_le32] at hw32
  generalize Flash.safeFlashProgram hw e.2 s._data_count_address
    (memcpyAt (memcpyFrom (ptrAdd s.chip s._data_count_address) FLASH_SECTOR_SIZE) 0
      (le32 (u32 (s._stored_data_count + 1)))) FLASH_SECTOR_SIZE = p at hp hw32 hfail ⊢
  obtain ⟨-, m2, -, -, m5, -⟩ := he.trans hp
  obtain ⟨-, -, -, -, e5, -⟩ := he
  dsimp only at m2 m5 e5
  split
  · dsimp only
    rw [e5]
    exact hback
  · split
    · dsimp only
      rw [m5]
      exact hback
    · rename_i h1 h2
      exfalso
      rw [if_neg h1, if_neg h2] at hfail
      have hword := hw32 (by simpa using h2)
      split at hfail
      · rename_i h3
        apply h3
        rw [m2, m5, hword]
        simp [u32]
      · simp at hfail

/-- What the constructor layout gives: the base offset is sector aligned, the
count word sits at the base, the data region starts one sector later, and the
capacity is 2885. -/
theorem hasLayout_facts (s : Flash) (f : Nat) (h : s.HasLayout f) :
    s._flash_offset % 4096 = 0 ∧ s._data_count_address = s._flash_offset ∧
      s._data_start_address = (s._flash_offset + 4096) % 4294967296 ∧
      s._max_data_count = 2885 := by
  obtain ⟨h1, h2, h3, h4⟩ := h
  have hs := struct_sizes.1
  simp only [Flash.new, FLASH_SECTOR_SIZE, DEFAULT_FLASH_TARGET_OFFSET, u32, hs] at h1 h2 h3 h4
  refine ⟨?_, ?_, ?_, ?_⟩
  · rw [h1]
    generalize (if f = 0 then 1792 * 1024 else f) = x
    split <;> omega
  · rw [h1, h2]
  · rw [h1, h3]
  · rw [h4]

/-! ## C7: a successful append commits the count -/

/-- C7. Successful append commits the count: for every chip behaviour, every
store state with flash enabled (its capacity member a `uint32_t`) and every
record, if `saveSensorData` returns true then the in-memory count is exactly
one more than before the call and the 32-bit count word read from flash at
the count address equals the new in-memory count. -/
theorem C7_success_commits_count (hw : Hw) (s : Flash) (data : SensorData)
    (hen : s.isFlashEnabled = true) (hmax : s.getMaxDataCount < 4294967296)
    (hok : (s.saveSensorData hw data).1 = true) :
    (s.saveSensorData hw data).2.getStoredCount = s.getStoredCount + 1 ∧
      read32 (s.saveSensorData hw data).2.chip s._data_count_address =
        (s.saveSensorData hw data).2.getStoredCount := by
  simp only [Flash.isFlashEnabled, Flash.getMaxDataCount, Flash.getStoredCount] at *
  unfold Flash.saveSensorData at hok ⊢
  simp only [hen, Bool.not_true, Bool.false_eq_true, if_false] at hok ⊢
  split at hok
  · simp at hok
  · rename_i hfull
    rw [if_neg hfull]
    split at hok
    · simp at hok
    · rename_i hlow
      rw [if_neg hlow]
      split at hok
      · simp at hok
      · rename_i hhigh
        rw [if_neg hhigh]
        have hw' := writePayload_sameMembers hw s data s.initialTarget.adjust
        generalize Flash.writePayload hw s data s.initialTarget.adjust = w at hw' hok ⊢
        obtain ⟨-, m2, -, -, m5, -⟩ := hw'
        split at hok
        · simp at hok
        · rename_i hwok
          rw [if_neg hwok]
          obtain ⟨hu1, hu2⟩ := updateCount_true hw w.2 hok
          rw [m2] at hu2
          rw [m5] at hu1
          have hcount : u32 (s._stored_data_count + 1) = s._stored_data_count + 1 := by
            simp only [u32]
            omega
          rw [hcount] at hu1
          exact ⟨hu1, hu2⟩

/-- C7 on the first append to a fresh store on the fault-free chip. -/
theorem C7_success_commits_count_witness :
    freshStore.isFlashEnabled = true ∧ freshStore.getMaxDataCount < 4294967296 ∧
      (freshStore.saveSensorData idealHw (sampleRecord 1700000000 false)).1 = true ∧
      (freshStore.saveSensorData idealHw (sampleRecord 1700000000 false)).2.getStoredCount =
        freshStore.getStoredCount + 1 :=
  ⟨by decide!, by decide!, by decide!,
    (C7_success_commits_count idealHw freshStore (sampleRecord 1700000000 false)
      (by decide!) (by decide!) (by decide!)).1⟩

/-! ## C8: a failed append never advances the count -/

/-- C8. Failed append never advances the count: for every store state with the
constructor's layout, every record and every outcome of the erase, program
and read-back steps (any chip behaviour `hw`, reads being stable between
operations), if `saveSensorData` returns false then `getStoredCount()` after
the call equals `getStoredCount()` before it. -/
theorem C8_failed_append_keeps_count (hw : Hw) (s : Flash) (data : SensorData) (f : Nat)
    (hlay : s.HasLayout f) (hfail : (s.saveSensorData hw data).1 = false) :
    (s.saveSensorData hw data).2.getStoredCount = s.getStoredCount := by
  obtain ⟨hal, hca, -, hmax⟩ := hasLayout_facts s f hlay
  simp only [Flash.getStoredCount] at *
  unfold Flash.saveSensorData at hfail ⊢
  split
  · rfl
  · rename_i hen
    split
    · rfl
    · rename_i hfull
      dsimp only
      split
      · rfl
      · split
        · rfl
        · have hw' := writePayload_sameMembers hw s data s.initialTarget.adjust
          rw [if_neg hen, if_neg hfull] at hfail
          dsimp only at hfail
          rename_i hlow hhigh
          rw [if_neg hlow, if_neg hhigh] at hfail
          generalize Flash.writePayload hw s data s.initialTarget.adjust = w at hw' hfail ⊢
          obtain ⟨-, m2, -, -, m5, m6⟩ := hw'
          split
          · exact m5
          · rename_i hwok
            rw [if_neg hwok] at hfail
            rw [← m5]
            apply updateCount_false hw w.2
            · rw [m6]
              simpa using hen
            · rw [m2, hca]
              exact hal
            · rw [m5]
              omega
            · exact hfail

/-- C8 on a store whose chip ignores every erase and program: the first append
fails at the erase verification and the count stays 0. -/
theorem C8_failed_append_keeps_count_witness :
    freshStore.HasLayout 0 ∧
      (freshStore.saveSensorData ⟨fun m _ _ => m, fun m _ _ _ => m⟩
        (sampleRecord 1700000000 false)).1 = false ∧
      (freshStore.saveSensorData ⟨fun m _ _ => m, fun m _ _ _ => m⟩
        (sampleRecord 1700000000 false)).2.getStoredCount = freshStore.getStoredCount :=
  ⟨⟨rfl, rfl, rfl, rfl⟩, by decide!,
    C8_failed_append_keeps_count ⟨fun m _ _ => m, fun m _ _ _ => m⟩ freshStore
      (sampleRecord 1700000000 false) 0 ⟨rfl, rfl, rfl, rfl⟩ (by decide!)⟩

/-! ## The fault-free chip -/

/-- Programming an erased byte stores the data byte. -/
theorem land_255 (x : Nat) : (255 &&& x % 256) % 256 = x % 256 := by
  have h := Nat.and_pow_two_sub_one_eq_mod (x % 256) 8
  rw [Nat.land_comm] at h
  norm_num at h
  rw [h]
  omega

/-- A sector that was erased and then programmed on the fault-free chip reads
back as the programmed buffer; every byte outside the sector is untouched. -/
theorem ideal_erase_program_read8 (m : Bytes) (sa : Nat) (buf : Bytes) (a : Nat) :
    read8 (idealHw.flash_range_program (idealHw.flash_range_erase m sa FLASH_SECTOR_SIZE) sa buf
        FLASH_SECTOR_SIZE) a =
      if sa ≤ a ∧ a < sa + FLASH_SECTOR_SIZE then read8 buf (a - sa) else read8 m a := by
  have hal : alignUp FLASH_SECTOR_SIZE FLASH_SECTOR_SIZE = 4096 := by decide
  simp only [idealHw, hal, FLASH_SECTOR_SIZE]
  by_cases h : sa ≤ a ∧ a < sa + 4096
  · simp only [h, and_self, if_true, read8]
    exact land_255 _
  · simp only [h, if_false, read8]

/-- The base offset of a constructed store is a `uint32_t`. -/
theorem hasLayout_offset_lt (s : Flash) (f : Nat) (h : s.HasLayout f) (hf : f < 4294967296) :
    s._flash_offset < 4294967296 := by
  obtain ⟨h1, -, -, -⟩ := h
  simp only [Flash.new, FLASH_SECTOR_SIZE, DEFAULT_FLASH_TARGET_OFFSET] at h1
  rw [h1]
  split <;> split <;> omega

/-- Address facts of a write that passed the range checks of `saveSensorData`:
the sector is aligned and lies after the count sector, no address wrapped,
and the first 44 bytes of the record lie inside the sector. -/
theorem target_facts (s : Flash) (f : Nat) (hf : f < 4294967296) (hlay : s.HasLayout f)
    (hk : ¬s._stored_data_count ≥ s._max_data_count)
    (hlow : ¬s.initialTarget.sector_address < s._flash_offset)
    (hhigh : ¬s.initialTarget.sector_address ≥ u32 (s._flash_offset + 16 * FLASH_SECTOR_SIZE)) :
    s.initialTarget.adjust.sector_address % 4096 = 0 ∧
      s._flash_offset + 4096 ≤ s.initialTarget.adjust.sector_address ∧
      s._data_start_address = s._flash_offset + 4096 ∧
      s.initialTarget.adjust.sector_address ≤ s.initialTarget.adjust.data_address ∧
      s.initialTarget.adjust.data_address + 44 ≤ s.initialTarget.adjust.sector_address + 4096 ∧
      s.initialTarget.adjust.page_address - s.initialTarget.adjust.sector_address +
          s.initialTarget.adjust.page_offset =
        s.initialTarget.adjust.data_address - s.initialTarget.adjust.sector_address ∧
      s._data_start_address + s._stored_data_count * 44 ≤ s.initialTarget.adjust.data_address ∧
      s.initialTarget.adjust.sector_address + 4096 ≤ 4294967296 := by
  obtain ⟨hal, -, hst, hmax⟩ := hasLayout_facts s f hlay
  have hoff := hasLayout_offset_lt s f hlay hf
  have hs := struct_sizes.1
  simp only [Flash.initialTarget, WriteTarget.adjust, u32, hs, FLASH_PAGE_SIZE,
    FLASH_SECTOR_SIZE] at hlow hhigh ⊢
  rw [hmax] at hk
  generalize s._flash_offset = off at *
  generalize s._data_start_address = st at *
  generalize s._stored_data_count = k at *
  have hnw : off + 4096 + k * 44 < 4294967296 := by
    by_contra hcon
    have hda : (st + k * 44 % 4294967296) % 4294967296 = off + 4096 + k * 44 - 4294967296 := by
      omega
    rw [hda] at hlow
    omega
  have hda : (st + k * 44 % 4294967296) % 4294967296 = off + 4096 + k * 44 := by omega
  rw [hda] at hlow hhigh ⊢
  have hst' : st = off + 4096 := by omega
  have h16 : (off + 16 * 4096) % 4294967296 = off + 65536 := by
    by_contra hcon
    omega
  rw [h16] at hhigh
  clear hda hnw
  obtain ⟨da, hdadef⟩ : ∃ da, da = off + 4096 + k * 44 := ⟨_, rfl⟩
  rw [← hdadef] at hlow hhigh ⊢
  split
  · dsimp only
    have hp : (da - da % 256 + 256) % 4294967296 = da - da % 256 + 256 := by omega
    rw [hp]
    omega
  · dsimp only
    omega

/-- On an enabled store and a sector-aligned address, `safeFlashErase` leaves
the chip as the erase primitive produced it. -/
theorem safeFlashErase_chip (hw : Hw) (s : Flash) (address size : Nat)
    (hen : s._flash_enabled = true) (hal : address % FLASH_SECTOR_SIZE = 0) :
    (s.safeFlashErase hw address size).2.chip = hw.flash_range_erase s.chip address size := by
  unfold Flash.safeFlashErase
  simp only [hen, hal, Bool.not_true, Bool.false_eq_true, if_false, ne_eq, not_true_eq_false]
  split <;> rfl

/-- On an enabled store and a word-aligned address, `safeFlashProgram` leaves
the chip as the program primitive produced it. -/
theorem safeFlashProgram_chip (hw : Hw) (s : Flash) (address : Nat) (data : Bytes) (size : Nat)
    (hen : s._flash_enabled = true) (hal : address % 4 = 0) :
    (s.safeFlashProgram hw address data size).2.chip =
      hw.flash_range_program s.chip address data size := by
  unfold Flash.safeFlashProgram
  simp only [hen, hal, Bool.not_true, Bool.false_eq_true, if_false, ne_eq, not_true_eq_false]

/-- Two memories with the same four bytes at an address hold the same word
there. -/
theorem read32_congr (m n : Bytes) (a b : Nat)
    (h : ∀ i, i < 4 → read8 m (a + i) = read8 n (b + i)) : read32 m a = read32 n b := by
  have h0 := h 0 (by decide)
  have h1 := h 1 (by decide)
  have h2 := h 2 (by decide)
  have h3 := h 3 (by decide)
  simp only [Nat.add_zero] at h0
  simp only [read32, h0, h1, h2, h3]

/-- The sector buffer holds the old flash contents before the record. -/
theorem sectorBuffer_before (s : Flash) (data : SensorData) (t : WriteTarget) (i : Nat)
    (h : i < t.page_address - t.sector_address + t.page_offset) (hi : i < FLASH_SECTOR_SIZE) :
    read8 (s.sectorBuffer data t) i = read8 s.chip (t.sector_address + i) := by
  unfold Flash.sectorBuffer memcpyAt memcpyFrom ptrAdd
  have hn : ¬(t.page_address - t.sector_address + t.page_offset ≤ i ∧
      i < t.page_address - t.sector_address + t.page_offset + (serializeSensorData data).length) := by
    omega
  simp only [hn, if_false, hi, if_true, read8]
  omega

/-- When the payload sector gets programmed on the fault-free chip, the image
is the erased-and-reprogrammed sector, and the range checks were passed. -/
theorem imageAfterPayloadProgram_ideal (s : Flash) (data : SensorData) (img : Bytes)
    (himg : s.imageAfterPayloadProgram idealHw data = some img) :
    s._flash_enabled = true ∧ ¬s._stored_data_count ≥ s._max_data_count ∧
      ¬s.initialTarget.sector_address < s._flash_offset ∧
      ¬s.initialTarget.sector_address ≥ u32 (s._flash_offset + 16 * FLASH_SECTOR_SIZE) ∧
      (s.initialTarget.adjust.sector_address % 4096 = 0 →
        img = idealHw.flash_range_program
          (idealHw.flash_range_erase s.chip s.initialTarget.adjust.sector_address
            FLASH_SECTOR_SIZE)
          s.initialTarget.adjust.sector_address
          (s.sectorBuffer data s.initialTarget.adjust) FLASH_SECTOR_SIZE) := by
  unfold Flash.imageAfterPayloadProgram at himg
  split at himg
  · simp at himg
  · rename_i hen
    split at himg
    · simp at himg
    · rename_i hk
      dsimp only at himg
      split at himg
      · simp at himg
      · rename_i hlow
        split at himg
        · simp at himg
        · rename_i hhigh
          split at himg
          · simp at himg
          · have hen' : s._flash_enabled = true := by simpa using hen
            refine ⟨hen', hk, hlow, hhigh, ?_⟩
            intro hal
            have he := safeFlashErase_sameMembers idealHw s
              s.initialTarget.adjust.sector_address FLASH_SECTOR_SIZE
            have hec := safeFlashErase_chip idealHw s s.initialTarget.adjust.sector_address
              FLASH_SECTOR_SIZE hen' hal
            have hpc := safeFlashProgram_chip idealHw
              (s.safeFlashErase idealHw s.initialTarget.adjust.sector_address FLASH_SECTOR_SIZE).2
              s.initialTarget.adjust.sector_address (s.sectorBuffer data s.initialTarget.adjust)
              FLASH_SECTOR_SIZE (by rw [he.2.2.2.2.2]; exact hen') (by omega)
            rw [hec] at hpc
            rw [← hpc]
            exact (Option.some.inj himg).symm

/-- Every byte in front of the record keeps its value when the payload sector
is rewritten on the fault-free chip. -/
theorem payload_image_before_record (s : Flash) (data : SensorData) (t : WriteTarget) (a : Nat)
    (h1 : t.sector_address ≤ t.data_address)
    (h2 : t.page_address - t.sector_address + t.page_offset = t.data_address - t.sector_address)
    (h3 : t.data_address ≤ t.sector_address + 4096)
    (ha : a < t.data_address) :
    read8 (idealHw.flash_range_program
        (idealHw.flash_range_erase s.chip t.sector_address FLASH_SECTOR_SIZE) t.sector_address
        (s.sectorBuffer data t) FLASH_SECTOR_SIZE) a = read8 s.chip a := by
  rw [ideal_erase_program_read8]
  split
  · rename_i hin
    rw [sectorBuffer_before s data t (a - t.sector_address) (by omega) (by omega)]
    congr 1
    omega
  · rfl

/-- The branch of `init` that accepts the stored count: a count word within
capacity, and a valid first magic when the count is positive, make `init`
return true with that count and without touching the chip. -/
theorem init_accepts (hw : Hw) (s : Flash) (c : Nat) (hen : s._flash_enabled = true)
    (hstart : s._data_start_address =
      u32 (s._data_count_address - s._data_count_address % FLASH_SECTOR_SIZE + FLASH_SECTOR_SIZE))
    (hc : read32 s.chip s._data_count_address = c) (hcm : c ≤ s._max_data_count)
    (hne : c ≠ 0xFFFFFFFF)
    (hmagic : c > 0 → read32 s.chip s._data_start_address = 0xABCD1234) :
    s.init hw = (true, { s with _stored_data_count := c }) := by
  unfold Flash.init
  simp only [hen, Bool.not_true, Bool.false_eq_true, if_false, ← hstart, ne_eq,
    not_true_eq_false, hc, hne]
  have hgt : ¬c > s._max_data_count := by omega
  simp only [hgt, if_false]
  by_cases h0 : c > 0
  · simp only [h0, if_true, hmagic h0]
  · simp only [h0, if_false]

/-! ## C6: crash safety of the write ordering -/

/-- C6. Crash safety of the write ordering, on the fault-free chip: for every
consistent store state with the constructor's layout and persisted count `c`
(`c <= max`, the in-memory count equal to `c`, and if `c > 0` the first
record's magic is `0xABCD1234`) and every record, the flash image that
`saveSensorData` leaves between programming the payload sector and erasing the
count sector still holds `c` in the count word, and `init()` run on that image
by a newly constructed store returns true with `getStoredCount() = c`. -/
theorem C6_crash_between_payload_and_count (s : Flash) (data : SensorData) (f c : Nat)
    (img : Bytes) (hf : f < 4294967296) (hlay : s.HasLayout f)
    (hc : read32 s.chip s._data_count_address = c) (hcm : c ≤ s.getMaxDataCount)
    (hmem : s.getStoredCount = c)
    (hmagic : c > 0 → read32 s.chip s._data_start_address = 0xABCD1234)
    (himg : s.imageAfterPayloadProgram idealHw data = some img) :
    read32 img s._data_count_address = c ∧
      ((Flash.new f img).init idealHw).1 = true ∧
      ((Flash.new f img).init idealHw).2.getStoredCount = c := by
  simp only [Flash.getMaxDataCount, Flash.getStoredCount] at hcm hmem ⊢
  obtain ⟨hen, hk, hlow, hhigh, himg'⟩ := imageAfterPayloadProgram_ideal s data img himg
  obtain ⟨t1, t2, t3, t4, t5, t6, t7, t8⟩ := target_facts s f hf hlay hk hlow hhigh
  obtain ⟨hal, hca, hst, hmax⟩ := hasLayout_facts s f hlay
  have himg'' := himg' t1
  have hbefore : ∀ a, a < s.initialTarget.adjust.data_address → read8 img a = read8 s.chip a := by
    intro a ha
    rw [himg'']
    exact payload_image_before_record s data s.initialTarget.adjust a t4 t6 (by omega) ha
  have hword : read32 img s._data_count_address = c := by
    rw [← hc]
    apply read32_congr
    intro i hi
    apply hbefore
    omega
  have hmagic' : c > 0 → read32 img s._data_start_address = 0xABCD1234 := by
    intro hpos
    rw [← hmagic hpos]
    apply read32_congr
    intro i hi
    apply hbefore
    omega
  obtain ⟨l1, l2, l3, l4⟩ := hlay
  have hinit := init_accepts idealHw (Flash.new f img) c rfl
    (by
      show (Flash.new f s.chip)._data_start_address =
        u32 ((Flash.new f s.chip)._data_count_address -
          (Flash.new f s.chip)._data_count_address % FLASH_SECTOR_SIZE + FLASH_SECTOR_SIZE)
      rw [← l2, ← l3, hst, hca]
      simp only [u32, FLASH_SECTOR_SIZE]
      omega)
    (by
      show read32 img (Flash.new f s.chip)._data_count_address = c
      rw [← l2]
      exact hword)
    (by
      show c ≤ (Flash.new f s.chip)._max_data_count
      rw [← l4]
      exact hcm)
    (by omega)
    (by
      show c > 0 → read32 img (Flash.new f s.chip)._data_start_address = 0xABCD1234
      rw [← l3]
      exact hmagic')
  rw [hinit]
  exact ⟨hword, rfl, rfl⟩

/-- C6 on a crash during the second append: the re-initialised store holds
one record. -/
theorem C6_crash_between_payload_and_count_witness :
    storeWithOneRecord.HasLayout 0 ∧
      read32 storeWithOneRecord.chip storeWithOneRecord._data_count_address = 1 ∧
      storeWithOneRecord.getStoredCount = 1 ∧
      (storeWithOneRecord.imageAfterPayloadProgram idealHw
        (sampleRecord 1700000060 false)).isSome = true ∧
      (read32 crashImage storeWithOneRecord._data_count_address = 1 ∧
        ((Flash.new 0 crashImage).init idealHw).1 = true ∧
        ((Flash.new 0 crashImage).init idealHw).2.getStoredCount = 1) := by
  have hsome : (storeWithOneRecord.imageAfterPayloadProgram idealHw
      (sampleRecord 1700000060 false)).isSome = true := by decide!
  have himg : storeWithOneRecord.imageAfterPayloadProgram idealHw
      (sampleRecord 1700000060 false) = some crashImage := by
    unfold crashImage
    cases hx : storeWithOneRecord.imageAfterPayloadProgram idealHw
      (sampleRecord 1700000060 false) with
    | none => rw [hx] at hsome; simp at hsome
    | some v => rfl
  have hlay : storeWithOneRecord.HasLayout 0 :=
    ⟨by decide!, by decide!, by decide!, by decide!⟩
  exact ⟨hlay, by decide!, by decide!, hsome,
    C6_crash_between_payload_and_count storeWithOneRecord (sampleRecord 1700000060 false) 0 1
      crashImage (by decide) hlay (by decide!) (by decide!) (by decide!)
      (fun _ => by decide!) himg⟩

/-! ## C2: store read-back -/

/-- C2 at two failing inputs, on the fault-free chip from a freshly reset
store. (a) Two records, the first with `is_fake_gps` set: both appends return
true and the count is 2, but `loadSensorData(0)` returns the first record
with `is_fake_gps` cleared, because the second record, written 44 bytes
further, overwrote the flags and the checksum of the first. (b) Six plausible
records: all appends return true and the count is 6, but `loadSensorData(5)`
is the error record and `loadAllSensorData()` returns five records, because
the sixth record was written at the next page while it is read at
`data_start + 5 * 44`. -/
theorem C2_read_back_fails :
    (readyStore.getStoredCount = 0 ∧
      (readyStore.saveAll idealHw
        [sampleRecord 1700000000 true, sampleRecord 1700000060 false]).1 = [true, true] ∧
      (readyStore.saveAll idealHw
        [sampleRecord 1700000000 true, sampleRecord 1700000060 false]).2.getStoredCount = 2 ∧
      (readyStore.saveAll idealHw
        [sampleRecord 1700000000 true, sampleRecord 1700000060 false]).2.loadSensorData 0 =
          sampleRecord 1700000000 false ∧
      (readyStore.saveAll idealHw
        [sampleRecord 1700000000 true, sampleRecord 1700000060 false]).2.loadSensorData 0 ≠
          sampleRecord 1700000000 true ∧
      (readyStore.saveAll idealHw
        [sampleRecord 1700000000 true, sampleRecord 1700000060 false]).2.loadAllSensorData ≠
          [sampleRecord 1700000000 true, sampleRecord 1700000060 false]) ∧
    ((readyStore.saveAll idealHw
        [sampleRecord 1700000000 false, sampleRecord 1700000060 false,
         sampleRecord 1700000120 false, sampleRecord 1700000180 false,
         sampleRecord 1700000240 false, sampleRecord 1700000300 false]).1 =
          [true, true, true, true, true, true] ∧
      (readyStore.saveAll idealHw
        [sampleRecord 1700000000 false, sampleRecord 1700000060 false,
         sampleRecord 1700000120 false, sampleRecord 1700000180 false,
         sampleRecord 1700000240 false, sampleRecord 1700000300 false]).2.getStoredCount = 6 ∧
      (readyStore.saveAll idealHw
        [sampleRecord 1700000000 false, sampleRecord 1700000060 false,
         sampleRecord 1700000120 false, sampleRecord 1700000180 false,
         sampleRecord 1700000240 false, sampleRecord 1700000300 false]).2.loadSensorData 5 =
          getSensorDataError ∧
      (readyStore.saveAll idealHw
        [sampleRecord 1700000000 false, sampleRecord 1700000060 false,
         sampleRecord 1700000120 false, sampleRecord 1700000180 false,
         sampleRecord 1700000240 false, sampleRecord 1700000300 false]).2.loadAllSensorData =
          [sampleRecord 1700000000 false, sampleRecord 1700000060 false,
           sampleRecord 1700000120 false, sampleRecord 1700000180 false,
           sampleRecord 1700000240 false]) := by
  decide!

/-! ## Appends on the fault-free chip -/

/-- An erased byte reads `0xFF`. -/
theorem ideal_erase_read8 (m : Bytes) (sa a : Nat) (h : sa ≤ a ∧ a < sa + 4096) :
    read8 (idealHw.flash_range_erase m sa FLASH_SECTOR_SIZE) a = 255 := by
  have hal : alignUp FLASH_SECTOR_SIZE FLASH_SECTOR_SIZE = 4096 := by decide
  simp only [idealHw, hal, read8, h, and_self, if_true]

/-- An erased word reads `0xFFFFFFFF`. -/
theorem ideal_erase_read32 (m : Bytes) (sa a : Nat) (h : sa ≤ a ∧ a + 3 < sa + 4096) :
    read32 (idealHw.flash_range_erase m sa FLASH_SECTOR_SIZE) a = 0xFFFFFFFF := by
  simp only [read32, ideal_erase_read8 m sa a (by omega),
    ideal_erase_read8 m sa (a + 1) (by omega), ideal_erase_read8 m sa (a + 2) (by omega),
    ideal_erase_read8 m sa (a + 3) (by omega)]

/-- On the fault-free chip `safeFlashErase` of one aligned sector succeeds. -/
theorem safeFlashErase_ideal_ok (s : Flash) (sa : Nat) (hen : s._flash_enabled = true)
    (hal : sa % 4096 = 0) (hb : sa + 4096 ≤ 4294967296) :
    (s.safeFlashErase idealHw sa FLASH_SECTOR_SIZE).1 = true := by
  unfold Flash.safeFlashErase
  have h1 : u32 (sa + FLASH_SECTOR_SIZE / 2) = sa + 2048 := by
    simp only [u32, FLASH_SECTOR_SIZE]
    omega
  have h2 : u32Sub (sa + FLASH_SECTOR_SIZE) 4 = sa + 4092 := by
    simp only [u32Sub, u32, FLASH_SECTOR_SIZE]
    omega
  simp only [hen, Bool.not_true, Bool.false_eq_true, if_false, FLASH_SECTOR_SIZE, hal, ne_eq,
    not_true_eq_false, h1, h2]
  rw [ideal_erase_read32 s.chip sa sa (by omega), ideal_erase_read32 s.chip sa (sa + 2048)
    (by omega), ideal_erase_read32 s.chip sa (sa + 4092) (by omega)]
  simp

/-- On the fault-free chip `safeFlashProgram` of a freshly erased sector
succeeds. -/
theorem safeFlashProgram_ideal_ok (s : Flash) (m : Bytes) (sa : Nat) (buf : Bytes)
    (hen : s._flash_enabled = true) (hal : sa % 4 = 0)
    (hchip : s.chip = idealHw.flash_range_erase m sa FLASH_SECTOR_SIZE) :
    (s.safeFlashProgram idealHw sa buf FLASH_SECTOR_SIZE).1 = true := by
  unfold Flash.safeFlashProgram
  simp only [hen, Bool.not_true, Bool.false_eq_true, if_false, hal, ne_eq, not_true_eq_false,
    hchip]
  rw [List.all_eq_true]
  intro i hi
  have hi' : i < 16 := by
    have := List.mem_range.mp hi
    simp only [FLASH_SECTOR_SIZE] at this
    omega
  rw [decide_eq_true_eq, ideal_erase_program_read8]
  have hin : sa ≤ sa + i ∧ sa + i < sa + FLASH_SECTOR_SIZE := by
    simp only [FLASH_SECTOR_SIZE]
    omega
  simp only [hin, and_self, if_true]
  congr 1
  omega

/-- The float test `std::fabs(x - x) > 0.01` is false. -/
theorem f32FabsDiffGt_self (x : Nat) : f32FabsDiffGt x x = false := by
  unfold f32FabsDiffGt
  have h0 : f32Round (f32Val x - f32Val x).natAbs = 0 := by
    simp [f32Round, bitLen, bitLenAux]
  rw [h0]
  simp

/-- A plausible record whose first 44 serialized bytes (magic through
timestamp) are found at `p` decodes to its own temperature, humidity, CO2 and
timestamp, whatever the flags, reserved and checksum bytes are. -/
theorem deserialize_of_prefix (p : Bytes) (data : SensorData) (hwt : data.WellTyped)
    (hvalid : dataLooksValid (serializedFields data) = true)
    (hp : ∀ i, i < 44 → read8 p i = read8 (ofList (serializeSensorData data)) i) :
    read32 p 0 = 0xABCD1234 ∧ (deserializeSensorData p).temp = data.temp ∧
      (deserializeSensorData p).hum = data.hum ∧ (deserializeSensorData p).co2 = data.co2 ∧
      (deserializeSensorData p).timestamp = data.timestamp := by
  have key : SerializedSensorData.ofBytes (ofList (serializeSensorData data)) =
      { serializedFields data with checksum := valueChecksum (serializedFields data) } := by
    unfold serializeSensorData
    exact ofBytes_toBytes _ (serialized_wellTyped data)
  have h32 : ∀ o, o + 3 < 44 →
      read32 p o = read32 (ofList (serializeSensorData data)) o := by
    intro o ho
    apply read32_congr
    intro i hi
    exact hp (o + i) (by omega)
  have hmagic : (SerializedSensorData.ofBytes p).magic = 0xABCD1234 := by
    show read32 p 0 = _
    rw [h32 0 (by decide)]
    show (SerializedSensorData.ofBytes (ofList (serializeSensorData data))).magic = _
    rw [key]
    rfl
  have htemp : (SerializedSensorData.ofBytes p).temp = u32 data.temp := by
    show read32 p 4 = _
    rw [h32 4 (by decide)]
    show (SerializedSensorData.ofBytes (ofList (serializeSensorData data))).temp = _
    rw [key]
    rfl
  have hhum : (SerializedSensorData.ofBytes p).hum = u32 data.hum := by
    show read32 p 8 = _
    rw [h32 8 (by decide)]
    show (SerializedSensorData.ofBytes (ofList (serializeSensorData data))).hum = _
    rw [key]
    rfl
  have hco2 : (SerializedSensorData.ofBytes p).co2 = u32 data.co2 := by
    show read32 p 28 = _
    rw [h32 28 (by decide)]
    show (SerializedSensorData.ofBytes (ofList (serializeSensorData data))).co2 = _
    rw [key]
    rfl
  have hts : (SerializedSensorData.ofBytes p).timestamp = u32 data.timestamp := by
    show read32 p 40 = _
    rw [h32 40 (by decide)]
    show (SerializedSensorData.ofBytes (ofList (serializeSensorData data))).timestamp = _
    rw [key]
    rfl
  have hv : dataLooksValid (SerializedSensorData.ofBytes p) = true := by
    unfold dataLooksValid at hvalid ⊢
    rw [htemp, hhum, hts]
    exact hvalid
  obtain ⟨w1, w2, -, -, -, -, -, w8, -, -, w11⟩ := hwt
  have u1 : u32 data.temp = data.temp := Nat.mod_eq_of_lt w1
  have u2 : u32 data.hum = data.hum := Nat.mod_eq_of_lt w2
  have u8 : u32 data.co2 = data.co2 := Nat.mod_eq_of_lt w8
  have u11 : u32 data.timestamp = data.timestamp := Nat.mod_eq_of_lt w11
  have hd : deserializeSensorData p = extractFields (SerializedSensorData.ofBytes p) := by
    unfold deserializeSensorData
    simp only [hmagic, ne_eq, not_true_eq_false, if_false, hv, Bool.not_true,
      Bool.false_eq_true, and_false]
  rw [hd]
  refine ⟨hmagic, ?_, ?_, ?_, ?_⟩
  · show (SerializedSensorData.ofBytes p).temp = _
    rw [htemp, u1]
  · show (SerializedSensorData.ofBytes p).hum = _
    rw [hhum, u2]
  · show (SerializedSensorData.ofBytes p).co2 = _
    rw [hco2, u8]
  · show (SerializedSensorData.ofBytes p).timestamp = _
    rw [hts, u11]

/-- The sector buffer holds the serialized record at the record offset, for
the bytes that lie inside the buffer. -/
theorem sectorBuffer_record (s : Flash) (data : SensorData) (t : WriteTarget) (i : Nat)
    (hi : i < 52) :
    read8 (s.sectorBuffer data t) (t.page_address - t.sector_address + t.page_offset + i) =
      read8 (ofList (serializeSensorData data)) i := by
  unfold Flash.sectorBuffer memcpyAt
  have hl := serializeSensorData_length data
  have hin : t.page_address - t.sector_address + t.page_offset ≤
      t.page_address - t.sector_address + t.page_offset + i ∧
      t.page_address - t.sector_address + t.page_offset + i <
        t.page_address - t.sector_address + t.page_offset +
          (serializeSensorData data).length := by
    omega
  simp only [hin, and_self, if_true, read8, ofList]
  congr 2
  omega

/-- The read-back verification of `saveSensorData` accepts a plausible record
that was written through the fault-free chip. -/
theorem verifyPayload_ideal (s : Flash) (m : Bytes) (data : SensorData) (t : WriteTarget)
    (hwt : data.WellTyped) (hvalid : dataLooksValid (serializedFields data) = true)
    (h1 : t.sector_address ≤ t.data_address)
    (h2 : t.page_address - t.sector_address + t.page_offset = t.data_address - t.sector_address)
    (h3 : t.data_address + 44 ≤ t.sector_address + 4096)
    (hchip : s.chip = idealHw.flash_range_program
      (idealHw.flash_range_erase m t.sector_address FLASH_SECTOR_SIZE) t.sector_address
      ((Flash.sectorBuffer { s with chip := m } data t)) FLASH_SECTOR_SIZE) :
    s.verifyPayload data t = true := by
  have hp : ∀ i, i < 44 → read8 (ptrAdd s.chip t.data_address) i =
      read8 (ofList (serializeSensorData data)) i := by
    intro i hi
    have hr : read8 (ptrAdd s.chip t.data_address) i = read8 s.chip (t.data_address + i) := rfl
    rw [hr, hchip, ideal_erase_program_read8]
    have hin : t.sector_address ≤ t.data_address + i ∧
        t.data_address + i < t.sector_address + FLASH_SECTOR_SIZE := by
      simp only [FLASH_SECTOR_SIZE]
      omega
    simp only [hin, and_self, if_true]
    rw [← sectorBuffer_record { s with chip := m } data t i (by omega)]
    congr 1
    omega
  obtain ⟨d0, d1, d2, d3, d4⟩ := deserialize_of_prefix _ data hwt hvalid hp
  unfold Flash.verifyPayload
  simp only [d0, d1, d2, d3, d4, f32FabsDiffGt_self, ne_eq, not_true_eq_false, if_false,
    decide_False, Bool.or_self, Bool.not_false]

/-- The payload part of `saveSensorData` succeeds on the fault-free chip for a
plausible record and a target inside its sector. -/
theorem writePayload_ideal (s : Flash) (data : SensorData) (t : WriteTarget)
    (hen : s._flash_enabled = true) (hwt : data.WellTyped)
    (hvalid : dataLooksValid (serializedFields data) = true)
    (hal : t.sector_address % 4096 = 0) (hb : t.sector_address + 4096 ≤ 4294967296)
    (h1 : t.sector_address ≤ t.data_address)
    (h2 : t.page_address - t.sector_address + t.page_offset = t.data_address - t.sector_address)
    (h3 : t.data_address + 44 ≤ t.sector_address + 4096) :
    (s.writePayload idealHw data t).1 = true := by
  have he1 := safeFlashErase_ideal_ok s t.sector_address hen hal hb
  have hem := safeFlashErase_sameMembers idealHw s t.sector_address FLASH_SECTOR_SIZE
  have hec := safeFlashErase_chip idealHw s t.sector_address FLASH_SECTOR_SIZE hen hal
  have heen : (s.safeFlashErase idealHw t.sector_address FLASH_SECTOR_SIZE).2._flash_enabled =
      true := by
    rw [hem.2.2.2.2.2]
    exact hen
  have hp1 := safeFlashProgram_ideal_ok
    (s.safeFlashErase idealHw t.sector_address FLASH_SECTOR_SIZE).2 s.chip t.sector_address
    (s.sectorBuffer data t) heen (by omega) hec
  have hpc := safeFlashProgram_chip idealHw
    (s.safeFlashErase idealHw t.sector_address FLASH_SECTOR_SIZE).2 t.sector_address
    (s.sectorBuffer data t) FLASH_SECTOR_SIZE heen (by omega)
  rw [hec] at hpc
  have hv := verifyPayload_ideal
    ((s.safeFlashErase idealHw t.sector_address FLASH_SECTOR_SIZE).2.safeFlashProgram idealHw
      t.sector_address (s.sectorBuffer data t) FLASH_SECTOR_SIZE).2
    s.chip data t hwt hvalid h1 h2 h3 hpc
  unfold Flash.writePayload
  simp only [he1, hp1, hv, Bool.not_true, Bool.false_eq_true, if_false]
/-- The count part of `saveSensorData` changes neither the layout members nor
the enabled flag. -/
theorem updateCount_sameLayout (hw : Hw) (s : Flash) : s.SameLayout (s.updateCount hw).2 := by
  have he := safeFlashErase_sameMembers hw
    { s with _stored_data_count := u32 (s._stored_data_count + 1) }
    (s._data_count_address - s._data_count_address % FLASH_SECTOR_SIZE) FLASH_SECTOR_SIZE
  have hp := safeFlashProgram_sameMembers hw
    (Flash.safeFlashErase hw { s with _stored_data_count := u32 (s._stored_data_count + 1) }
      (s._data_count_address - s._data_count_address % FLASH_SECTOR_SIZE)
      FLASH_SECTOR_SIZE).2
    (s._data_count_address - s._data_count_address % FLASH_SECTOR_SIZE)
    (memcpyAt (memcpyFrom (ptrAdd s.chip
      (s._data_count_address - s._data_count_address % FLASH_SECTOR_SIZE)) FLASH_SECTOR_SIZE)
      (s._data_count_address -
        (s._data_count_address - s._data_count_address % FLASH_SECTOR_SIZE))
      (le32 (u32 (s._stored_data_count + 1))))
    FLASH_SECTOR_SIZE
  unfold Flash.updateCount
  dsimp only
  generalize Flash.safeFlashErase hw { s with _stored_data_count := u32 (s._stored_data_count + 1) }
      (s._data_count_address - s._data_count_address % FLASH_SECTOR_SIZE)
      FLASH_SECTOR_SIZE = e at he hp ⊢
  generalize Flash.safeFlashProgram hw e.2
    (s._data_count_address - s._data_count_address % FLASH_SECTOR_SIZE)
    (memcpyAt (memcpyFrom (ptrAdd s.chip
      (s._data_count_address - s._data_count_address % FLASH_SECTOR_SIZE)) FLASH_SECTOR_SIZE)
      (s._data_count_address -
        (s._data_count_address - s._data_count_address % FLASH_SECTOR_SIZE))
      (le32 (u32 (s._stored_data_count + 1))))
    FLASH_SECTOR_SIZE = p at hp ⊢
  obtain ⟨m1, m2, m3, m4, -, m6⟩ := he.trans hp
  obtain ⟨e1, e2, e3, e4, -, e6⟩ := he
  dsimp only at m1 m2 m3 m4 m6 e1 e2 e3 e4 e6
  by_cases h1 : (!e.1) = true
  · rw [if_pos h1]
    exact ⟨e1, e2, e3, e4, e6⟩
  · rw [if_neg h1]
    by_cases h2 : (!p.1) = true
    · rw [if_pos h2]
      exact ⟨m1, m2, m3, m4, m6⟩
    · rw [if_neg h2]
      by_cases h3 : read32 p.2.chip p.2._data_count_address ≠ p.2._stored_data_count
      · rw [if_pos h3]
        exact ⟨m1, m2, m3, m4, m6⟩
      · rw [if_neg h3]
        exact ⟨m1, m2, m3, m4, m6⟩

/-- The function `saveSensorData` changes neither the layout members nor the
enabled flag, for every chip behaviour. -/
theorem saveSensorData_sameLayout (hw : Hw) (s : Flash) (data : SensorData) :
    s.SameLayout (s.saveSensorData hw data).2 := by
  have hw' := writePayload_sameMembers hw s data s.initialTarget.adjust
  have hu := updateCount_sameLayout hw (s.writePayload hw data s.initialTarget.adjust).2
  unfold Flash.saveSensorData
  by_cases h0 : (!s._flash_enabled) = true
  · rw [if_pos h0]
    exact ⟨rfl, rfl, rfl, rfl, rfl⟩
  · rw [if_neg h0]
    by_cases h1 : s._stored_data_count ≥ s._max_data_count
    · rw [if_pos h1]
      exact ⟨rfl, rfl, rfl, rfl, rfl⟩
    · rw [if_neg h1]
      dsimp only
      by_cases h2 : s.initialTarget.sector_address < s._flash_offset
      · rw [if_pos h2]
        exact ⟨rfl, rfl, rfl, rfl, rfl⟩
      · rw [if_neg h2]
        by_cases h3 : s.initialTarget.sector_address ≥ u32 (s._flash_offset + 16 * FLASH_SECTOR_SIZE)
        · rw [if_pos h3]
          exact ⟨rfl, rfl, rfl, rfl, rfl⟩
        · rw [if_neg h3]
          generalize Flash.writePayload hw s data s.initialTarget.adjust = w at hw' hu ⊢
          obtain ⟨m1, m2, m3, m4, -, m6⟩ := hw'
          obtain ⟨u1, u2, u3, u4, u6⟩ := hu
          by_cases h4 : (!w.1) = true
          · rw [if_pos h4]
            exact ⟨m1, m2, m3, m4, m6⟩
          · rw [if_neg h4]
            exact ⟨u1.trans m1, u2.trans m2, u3.trans m3, u4.trans m4, u6.trans m6⟩

/-- The count part of `saveSensorData` succeeds on the fault-free chip when
the count word sits at the start of its sector. -/
theorem updateCount_ideal (s : Flash) (hen : s._flash_enabled = true)
    (hal : s._data_count_address % 4096 = 0)
    (hb : s._data_count_address + 4096 ≤ 4294967296) :
    (s.updateCount idealHw).1 = true := by
  have hsub : s._data_count_address - s._data_count_address % FLASH_SECTOR_SIZE =
      s._data_count_address := by
    simp only [FLASH_SECTOR_SIZE]
    omega
  have he1 := safeFlashErase_ideal_ok
    { s with _stored_data_count := u32 (s._stored_data_count + 1) } s._data_count_address
    hen hal hb
  have hem := safeFlashErase_sameMembers idealHw
    { s with _stored_data_count := u32 (s._stored_data_count + 1) } s._data_count_address
    FLASH_SECTOR_SIZE
  have hec := safeFlashErase_chip idealHw
    { s with _stored_data_count := u32 (s._stored_data_count + 1) } s._data_count_address
    FLASH_SECTOR_SIZE hen hal
  have heen : (Flash.safeFlashErase idealHw
      { s with _stored_data_count := u32 (s._stored_data_count + 1) } s._data_count_address
      FLASH_SECTOR_SIZE).2._flash_enabled = true := by
    rw [hem.2.2.2.2.2]
    exact hen
  have hp1 := safeFlashProgram_ideal_ok _ s.chip s._data_count_address
    (memcpyAt (memcpyFrom (ptrAdd s.chip s._data_count_address) FLASH_SECTOR_SIZE) 0
      (le32 (u32 (s._stored_data_count + 1)))) heen (by omega) hec
  have hpm := safeFlashProgram_sameMembers idealHw
    (Flash.safeFlashErase idealHw
      { s with _stored_data_count := u32 (s._stored_data_count + 1) } s._data_count_address
      FLASH_SECTOR_SIZE).2 s._data_count_address
    (memcpyAt (memcpyFrom (ptrAdd s.chip s._data_count_address) FLASH_SECTOR_SIZE) 0
      (le32 (u32 (s._stored_data_count + 1)))) FLASH_SECTOR_SIZE
  have hw32 := safeFlashProgram_word idealHw _ s._data_count_address
    (memcpyAt (memcpyFrom (ptrAdd s.chip s._data_count_address) FLASH_SECTOR_SIZE) 0
      (le32 (u32 (s._stored_data_count + 1)))) FLASH_SECTOR_SIZE heen (by decide) hp1
  rw [read32_memcpyAt_le32] at hw32
  obtain ⟨-, m2, -, -, m5, -⟩ := hem.trans hpm
  dsimp only at m2 m5
  unfold Flash.updateCount
  dsimp only
  rw [hsub, Nat.sub_self]
  simp only [he1, hp1, Bool.not_true, Bool.false_eq_true, if_false, m2, m5, hw32]
  simp [u32]

/-- The layout of the constructor is kept along `SameLayout`. -/
theorem hasLayout_of_sameLayout (s t : Flash) (f : Nat) (h : s.SameLayout t)
    (hlay : s.HasLayout f) : t.HasLayout f := by
  obtain ⟨a1, a2, a3, a4, -⟩ := h
  obtain ⟨l1, l2, l3, l4⟩ := hlay
  exact ⟨a1.trans l1, a2.trans l2, a3.trans l3, a4.trans l4⟩

/-- An append succeeds on the fault-free chip whenever the store is enabled,
below capacity and inside the range checks, and the record is plausible; the
count grows by one. -/
theorem saveSensorData_ideal (s : Flash) (f : Nat) (data : SensorData) (hf : f < 4294967296)
    (hlay : s.HasLayout f) (hen : s._flash_enabled = true)
    (hk : ¬s._stored_data_count ≥ s._max_data_count)
    (hlow : ¬s.initialTarget.sector_address < s._flash_offset)
    (hhigh : ¬s.initialTarget.sector_address ≥ u32 (s._flash_offset + 16 * FLASH_SECTOR_SIZE))
    (hwt : data.WellTyped) (hvalid : data.Plausible) :
    (s.saveSensorData idealHw data).1 = true ∧
      (s.saveSensorData idealHw data).2._stored_data_count = s._stored_data_count + 1 := by
  obtain ⟨t1, t2, t3, t4, t5, t6, t7, t8⟩ := target_facts s f hf hlay hk hlow hhigh
  obtain ⟨hal, hca, hst, hmax⟩ := hasLayout_facts s f hlay
  have hw1 := writePayload_ideal s data s.initialTarget.adjust hen hwt hvalid t1 t8 t4 t6 t5
  have hwm := writePayload_sameMembers idealHw s data s.initialTarget.adjust
  obtain ⟨-, m2, -, -, m5, m6⟩ := hwm
  have hu1 := updateCount_ideal (s.writePayload idealHw data s.initialTarget.adjust).2
    (by rw [m6]; exact hen) (by rw [m2, hca]; exact hal) (by rw [m2, hca]; omega)
  have hu2 := (updateCount_true idealHw _ hu1).1
  have hsave : s.saveSensorData idealHw data =
      (s.writePayload idealHw data s.initialTarget.adjust).2.updateCount idealHw := by
    unfold Flash.saveSensorData
    simp only [hen, Bool.not_true, Bool.false_eq_true, if_false, hk, hlow, hhigh, hw1]
  rw [hsave]
  refine ⟨hu1, ?_⟩
  rw [hu2, m5]
  simp only [u32]
  omega

/-- With the constructor's layout, an append at a count of 1397 or more is
rejected by the range check against `_flash_offset + 16 * FLASH_SECTOR_SIZE`
(or by the capacity check), for every chip behaviour. -/
theorem saveSensorData_rejects_from_1397 (hw : Hw) (s : Flash) (f : Nat) (data : SensorData)
    (hf : f < 4294967296) (hlay : s.HasLayout f) (hen : s._flash_enabled = true)
    (hk : 1397 ≤ s._stored_data_count) :
    s.saveSensorData hw data = (false, s) := by
  obtain ⟨hal, hca, hst, hmax⟩ := hasLayout_facts s f hlay
  have hoff := hasLayout_offset_lt s f hlay hf
  have hs := struct_sizes.1
  unfold Flash.saveSensorData
  simp only [hen, Bool.not_true, Bool.false_eq_true, if_false]
  by_cases hfull : s._stored_data_count ≥ s._max_data_count
  · rw [if_pos hfull]
  · rw [if_neg hfull]
    by_cases hlow : s.initialTarget.sector_address < s._flash_offset
    · rw [if_pos hlow]
    · rw [if_neg hlow]
      have hhigh : s.initialTarget.sector_address ≥ u32 (s._flash_offset + 16 * FLASH_SECTOR_SIZE) := by
        simp only [Flash.initialTarget, u32, hs, FLASH_PAGE_SIZE, FLASH_SECTOR_SIZE] at hlow ⊢
        rw [hmax] at hfull
        generalize s._flash_offset = off at *
        generalize s._data_start_address = st at *
        generalize s._stored_data_count = k at *
        have hnw : off + 4096 + k * 44 < 4294967296 := by
          by_contra hcon
          have hda : (st + k * 44 % 4294967296) % 4294967296 =
              off + 4096 + k * 44 - 4294967296 := by
            omega
          rw [hda] at hlow
          omega
        have hda : (st + k * 44 % 4294967296) % 4294967296 = off + 4096 + k * 44 := by omega
        rw [hda] at hlow ⊢
        clear hda hst
        obtain ⟨da, hdadef⟩ : ∃ da, da = off + 4096 + k * 44 := ⟨_, rfl⟩
        rw [← hdadef] at hlow ⊢
        have h16 : (off + 16 * 4096) % 4294967296 ≤ off + 65536 := by omega
        omega
      rw [if_pos hhigh]

/-- Appending two batches one after the other. -/
theorem saveAll_append (hw : Hw) (l1 l2 : List SensorData) : ∀ s : Flash,
    Flash.saveAll hw s (l1 ++ l2) =
      ((Flash.saveAll hw s l1).1 ++ (Flash.saveAll hw (Flash.saveAll hw s l1).2 l2).1,
        (Flash.saveAll hw (Flash.saveAll hw s l1).2 l2).2) := by
  induction l1 with
  | nil => intro s; rfl
  | cons d ds ih =>
    intro s
    rw [List.cons_append]
    simp only [Flash.saveAll]
    rw [ih]
    rfl

/-- With the default offset the range checks of `saveSensorData` pass for
every count below 1397. -/
theorem default_range_ok (s : Flash) (hlay : s.HasLayout 0) (hk : s._stored_data_count < 1397) :
    ¬s._stored_data_count ≥ s._max_data_count ∧
      ¬s.initialTarget.sector_address < s._flash_offset ∧
      ¬s.initialTarget.sector_address ≥ u32 (s._flash_offset + 16 * FLASH_SECTOR_SIZE) := by
  obtain ⟨hal, hca, hst, hmax⟩ := hasLayout_facts s 0 hlay
  have hoff : s._flash_offset = 1835008 := by
    obtain ⟨h1, -, -, -⟩ := hlay
    rw [h1]
    simp [Flash.new, DEFAULT_FLASH_TARGET_OFFSET, FLASH_SECTOR_SIZE]
  have hs := struct_sizes.1
  simp only [Flash.initialTarget, u32, hs, FLASH_PAGE_SIZE, FLASH_SECTOR_SIZE, hoff, hmax]
    at hst ⊢
  rw [hst]
  generalize s._stored_data_count = k at *
  have hda : ((1835008 + 4096) % 4294967296 + k * 44 % 4294967296) % 4294967296 =
      1839104 + k * 44 := by omega
  rw [hda]
  have h16 : (1835008 + 16 * 4096) % 4294967296 = 1900544 := by decide
  rw [h16]
  obtain ⟨da, hdadef⟩ : ∃ da, da = 1839104 + k * 44 := ⟨_, rfl⟩
  rw [← hdadef]
  refine ⟨by omega, by omega, by omega⟩

/-- From a store with the default layout, on the fault-free chip, every
append of a plausible record succeeds while the count stays within 1397. -/
theorem saveAll_ideal (ds : List SensorData) : ∀ s : Flash, s.HasLayout 0 →
    s._flash_enabled = true → s._stored_data_count + ds.length ≤ 1397 →
    (∀ x, x ∈ ds → x.WellTyped ∧ x.Plausible) →
    (Flash.saveAll idealHw s ds).1 = List.replicate ds.length true ∧
      (Flash.saveAll idealHw s ds).2._stored_data_count = s._stored_data_count + ds.length ∧
      (Flash.saveAll idealHw s ds).2.HasLayout 0 ∧
      (Flash.saveAll idealHw s ds).2._flash_enabled = true := by
  induction ds with
  | nil =>
    intro s hlay hen _ _
    exact ⟨rfl, rfl, hlay, hen⟩
  | cons d ds ih =>
    intro s hlay hen hlen hds
    simp only [List.length_cons] at hlen
    obtain ⟨r1, r2, r3⟩ := default_range_ok s hlay (by omega)
    obtain ⟨hwt, hpl⟩ := hds d (List.mem_cons_self d ds)
    obtain ⟨hok, hcount⟩ := saveSensorData_ideal s 0 d (by decide) hlay hen r1 r2 r3 hwt hpl
    have hsl := saveSensorData_sameLayout idealHw s d
    have hlay' := hasLayout_of_sameLayout s _ 0 hsl hlay
    have hen' : (s.saveSensorData idealHw d).2._flash_enabled = true := by
      rw [hsl.2.2.2.2]
      exact hen
    obtain ⟨i1, i2, i3, i4⟩ := ih (s.saveSensorData idealHw d).2 hlay' hen'
      (by rw [hcount]; omega) (fun x hx => hds x (List.mem_cons_of_mem d hx))
    simp only [Flash.saveAll, List.length_cons, List.replicate_succ]
    refine ⟨?_, ?_, i3, i4⟩
    · rw [hok, i1]
    · rw [i2, hcount]
      omega

/-! ## C3: capacity monotonicity -/

/-- C3 at its failing input, on the fault-free chip from a freshly reset store
with the default offset: for every list of 1397 plausible records followed by
one more record, `saveSensorData` returns true exactly 1397 times in a row and
the 1398th call returns false with `getStoredCount()` left at 1397, although
`getMaxDataCount()` is 2885: the range check against
`_flash_offset + 16 * FLASH_SECTOR_SIZE` rejects every later record. -/
theorem C3_appends_stop_at_1397 (ds : List SensorData) (d : SensorData)
    (hlen : ds.length = 1397) (hds : ∀ x, x ∈ ds → x.WellTyped ∧ x.Plausible) :
    (readyStore.saveAll idealHw (ds ++ [d])).1 = List.replicate 1397 true ++ [false] ∧
      (readyStore.saveAll idealHw (ds ++ [d])).2.getStoredCount = 1397 ∧
      (readyStore.saveAll idealHw (ds ++ [d])).2.getMaxDataCount = 2885 ∧
      readyStore.getStoredCount = 0 := by
  have h0 : readyStore._stored_data_count = 0 := by decide!
  have hlay : readyStore.HasLayout 0 := ⟨by decide!, by decide!, by decide!, by decide!⟩
  have hen : readyStore._flash_enabled = true := by decide!
  obtain ⟨i1, i2, i3, i4⟩ := saveAll_ideal ds readyStore hlay hen (by rw [h0, hlen]) hds
  rw [h0, hlen] at i2
  rw [hlen] at i1
  have hrej := saveSensorData_rejects_from_1397 idealHw (Flash.saveAll idealHw readyStore ds).2 0 d
    (by decide) i3 i4 (by omega)
  have hmax := (hasLayout_facts _ 0 i3).2.2.2
  rw [saveAll_append]
  simp only [Flash.saveAll, hrej, i1, Flash.getStoredCount, Flash.getMaxDataCount]
  exact ⟨trivial, by omega, hmax, h0⟩

/-- C3 on 1397 copies of a plausible record followed by one more. -/
theorem C3_appends_stop_at_1397_witness :
    (List.replicate 1397 (sampleRecord 1700000000 false)).length = 1397 ∧
      (readyStore.saveAll idealHw
        (List.replicate 1397 (sampleRecord 1700000000 false) ++
          [sampleRecord 1700000000 false])).2.getStoredCount = 1397 :=
  ⟨List.length_replicate _ _,
    (C3_appends_stop_at_1397 (List.replicate 1397 (sampleRecord 1700000000 false))
      (sampleRecord 1700000000 false) (List.length_replicate _ _)
      (fun x hx => by
        rw [List.eq_of_mem_replicate hx]
        exact ⟨by decide, by decide!⟩)).2.1⟩

/-! ## C11: the decode result is all-or-nothing -/

/-- Bit 0 of a byte, as the decoder tests it. -/
theorem flag_bit (x : Nat) : decide ((x &&& 1) ≠ 0) = decide (x % 2 = 1) := by
  rw [Nat.and_one_is_mod]
  by_cases h : x % 2 = 1
  · simp [h]
  · have h0 : x % 2 = 0 := by omega
    simp [h0]

/-- The fields the decoder extracts are the fields of the buffer. -/
theorem extractFields_ofBytes (b : Bytes) :
    extractFields (SerializedSensorData.ofBytes b) = fieldsOf b := by
  simp only [extractFields, SerializedSensorData.ofBytes, fieldsOf, flag_bit]

/-- C11. Decode result is all-or-nothing: for every buffer `b`,
`deserializeSensorData(b)` is either the record whose every field is the
corresponding field of `b` (`is_fake_gps` being bit 0 of the flags byte) or
the default record, every field zero and timestamp 0; and it is the default
record whenever the magic word of `b` is not `0xABCD1234`, or the recomputed
checksum differs from the stored one and the plausibility check fails. -/
theorem C11_decode_all_or_nothing (b : Bytes) :
    (deserializeSensorData b = fieldsOf b ∨ deserializeSensorData b = SensorData.default) ∧
      ((read32 b 0 ≠ 0xABCD1234 ∨
          (valueChecksum (SerializedSensorData.ofBytes b) ≠ read32 b 48 ∧
            dataLooksValid (SerializedSensorData.ofBytes b) = false)) →
        deserializeSensorData b = SensorData.default) ∧
      SensorData.default =
        { temp := 0, hum := 0, pres := 0, gasRes := 0, pm2_5 := 0, pm5 := 0, pm10 := 0,
          co2 := 0, latitude := 0, longitude := 0, timestamp := 0, is_fake_gps := false } := by
  have hmagic : (SerializedSensorData.ofBytes b).magic = read32 b 0 := rfl
  have hsum : (SerializedSensorData.ofBytes b).checksum = read32 b 48 := rfl
  refine ⟨?_, ?_, rfl⟩
  · unfold deserializeSensorData
    dsimp only
    by_cases h1 : (SerializedSensorData.ofBytes b).magic ≠ 0xABCD1234
    · rw [if_pos h1]
      exact Or.inr rfl
    · rw [if_neg h1]
      split
      · exact Or.inr rfl
      · exact Or.inl (extractFields_ofBytes b)
  · intro h
    unfold deserializeSensorData
    dsimp only
    by_cases h1 : (SerializedSensorData.ofBytes b).magic ≠ 0xABCD1234
    · rw [if_pos h1]
    · rw [if_neg h1]
      rcases h with h | ⟨h2, h3⟩
      · exact absurd (hmagic ▸ h) h1
      · rw [valueChecksum_checksum, hsum, if_pos ⟨h2, by simp [h3]⟩]

/-- C11 on an all-zero buffer: the magic word is wrong and the result is the
default record. -/
theorem C11_decode_all_or_nothing_witness :
    read32 (fun _ => 0) 0 ≠ 0xABCD1234 ∧
      deserializeSensorData (fun _ => 0) = SensorData.default :=
  ⟨by decide, (C11_decode_all_or_nothing (fun _ => 0)).2.1 (Or.inl (by decide))⟩

/-! ## C12: bounds of the plausibility recovery -/

/-- C12 at its failing inputs. Every buffer below has magic `0xABCD1234` and
a stored checksum that differs from the recomputed one; temperature is 20.0
and humidity 50.0 unless varied. With a timestamp of exactly 1600000000 or
exactly 2000000000 the decoder returns the default record (timestamp 0), and
so it does with a temperature of exactly -50.0 or exactly 100.0: the test of
`deserializeSensorData` is strict for temperature and timestamp. It recovers
1600000001 and 1999999999, and humidity exactly 0.0 and exactly 100.0. -/
theorem C12_recovery_bounds_are_strict :
    (read32 (withBadChecksum (sampleRecord 1600000000 false)) 0 = 0xABCD1234 ∧
      valueChecksum (SerializedSensorData.ofBytes (withBadChecksum (sampleRecord 1600000000 false)))
        ≠ read32 (withBadChecksum (sampleRecord 1600000000 false)) 48 ∧
      deserializeSensorData (withBadChecksum (sampleRecord 1600000000 false)) =
        SensorData.default) ∧
    (read32 (withBadChecksum (sampleRecord 2000000000 false)) 0 = 0xABCD1234 ∧
      valueChecksum (SerializedSensorData.ofBytes (withBadChecksum (sampleRecord 2000000000 false)))
        ≠ read32 (withBadChecksum (sampleRecord 2000000000 false)) 48 ∧
      deserializeSensorData (withBadChecksum (sampleRecord 2000000000 false)) =
        SensorData.default) ∧
    deserializeSensorData (withBadChecksum (sampleRecord 1600000001 false)) =
      sampleRecord 1600000001 false ∧
    deserializeSensorData (withBadChecksum (sampleRecord 1999999999 false)) =
      sampleRecord 1999999999 false ∧
    deserializeSensorData (withBadChecksum (sampleRecord 1599999999 false)) =
      SensorData.default ∧
    deserializeSensorData (withBadChecksum (sampleRecord 2000000001 false)) =
      SensorData.default ∧
    deserializeSensorData (withBadChecksum (sampleClimate 0x42C80000 0x42480000 1700000000)) =
      SensorData.default ∧
    deserializeSensorData (withBadChecksum (sampleClimate 0xC2480000 0x42480000 1700000000)) =
      SensorData.default ∧
    deserializeSensorData (withBadChecksum (sampleClimate 0x41A00000 0x42C80000 1700000000)) =
      sampleClimate 0x41A00000 0x42C80000 1700000000 ∧
    deserializeSensorData (withBadChecksum (sampleClimate 0x41A00000 0 1700000000)) =
      sampleClimate 0x41A00000 0 1700000000 := by
  decide!

/-! ## Replacing one byte of a serialized record -/

/-- Reading a byte list in which one position was replaced. -/
theorem read8_ofList_set (l : List Nat) (p v i : Nat) :
    read8 (ofList (l.set p v)) i =
      if i = p ∧ p < l.length then v % 256 else read8 (ofList l) i := by
  unfold read8 ofList
  by_cases h : i = p
  · subst h
    by_cases hp : i < l.length
    · simp [List.getD_eq_getElem?_getD, List.getElem?_set, hp]
    · have hnone : l[i]? = none := List.getElem?_eq_none (by omega)
      simp [List.getD_eq_getElem?_getD, List.getElem?_set, hp, hnone]
  · have h' : ¬p = i := fun e => h e.symm
    simp [List.getD_eq_getElem?_getD, List.getElem?_set, h, h']

/-- Every byte `serializeSensorData` writes is a byte. -/
theorem serializeSensorData_byte_lt (x : SensorData) (i : Nat) :
    (serializeSensorData x).getD i 0 < 256 := by
  have hall : ∀ b ∈ serializeSensorData x, b < 256 := by
    intro b hb
    simp only [serializeSensorData, SerializedSensorData.toBytes, le32, le16,
      List.cons_append, List.nil_append, List.mem_cons, List.mem_singleton,
      List.not_mem_nil, or_false] at hb
    omega
  rw [List.getD_eq_getElem?_getD]
  cases h : (serializeSensorData x)[i]? with
  | none => simp
  | some b =>
    simp only [Option.getD_some]
    exact hall b (List.getElem?_mem h)

/-- The stored checksum of a serialized record is the computed one. -/
theorem serialize_checksum_matches (x : SensorData) :
    valueChecksum (SerializedSensorData.ofBytes (ofList (serializeSensorData x))) =
      (SerializedSensorData.ofBytes (ofList (serializeSensorData x))).checksum := by
  have key : SerializedSensorData.ofBytes (ofList (serializeSensorData x)) =
      { serializedFields x with checksum := valueChecksum (serializedFields x) } := by
    unfold serializeSensorData
    exact ofBytes_toBytes _ (serialized_wellTyped x)
  rw [key]
  rfl

/-- A byte outside the replaced position reads as before. -/
theorem read8_set_other (l : List Nat) (p v a : Nat) (h : a ≠ p) :
    read8 (ofList (l.set p v)) a = read8 (ofList l) a := by
  rw [read8_ofList_set, if_neg (fun e => h e.1)]

/-- A 16-bit word that does not contain the replaced position reads as
before. -/
theorem read16_set_other (l : List Nat) (p v a : Nat) (h : p < a ∨ a + 2 ≤ p) :
    read16 (ofList (l.set p v)) a = read16 (ofList l) a := by
  unfold read16
  rw [read8_set_other l p v a (by omega), read8_set_other l p v (a + 1) (by omega)]

/-- A 32-bit word that does not contain the replaced position reads as
before. -/
theorem read32_set_other (l : List Nat) (p v a : Nat) (h : p < a ∨ a + 4 ≤ p) :
    read32 (ofList (l.set p v)) a = read32 (ofList l) a := by
  unfold read32
  rw [read8_set_other l p v a (by omega), read8_set_other l p v (a + 1) (by omega),
    read8_set_other l p v (a + 2) (by omega), read8_set_other l p v (a + 3) (by omega)]

/-- The scaled conversion of a float is a 32-bit value. -/
theorem f32Mul100ToInt_lt (b : Nat) : f32Mul100ToInt b < 4294967296 := by
  unfold f32Mul100ToInt
  dsimp only
  split
  · omega
  · split
    · split
      · omega
      · exact Nat.mod_lt _ (by norm_num)
    · split <;> omega

/-- A serialized record starts with the magic word. -/
theorem serialize_magic (x : SensorData) :
    read32 (ofList (serializeSensorData x)) 0 = 0xABCD1234 := by
  have key : SerializedSensorData.ofBytes (ofList (serializeSensorData x)) =
      { serializedFields x with checksum := valueChecksum (serializedFields x) } := by
    unfold serializeSensorData
    exact ofBytes_toBytes _ (serialized_wellTyped x)
  have h1 : read32 (ofList (serializeSensorData x)) 0 =
      (SerializedSensorData.ofBytes (ofList (serializeSensorData x))).magic := rfl
  rw [h1, key]
  simp only [serializedFields]

/-- With a valid magic word and a checksum mismatch the decoder returns the
fields of the buffer when they look plausible and the default record
otherwise. -/
theorem deserialize_of_mismatch (b : Bytes) (hmagic : read32 b 0 = 0xABCD1234)
    (hsum : valueChecksum (SerializedSensorData.ofBytes b) ≠ read32 b 48) :
    deserializeSensorData b =
      if dataLooksValid (SerializedSensorData.ofBytes b) then fieldsOf b
      else SensorData.default := by
  have h1 : ¬ (SerializedSensorData.ofBytes b).magic ≠ 0xABCD1234 := not_not.mpr hmagic
  have h2 : (SerializedSensorData.ofBytes b).checksum = read32 b 48 := rfl
  unfold deserializeSensorData
  dsimp only
  rw [if_neg h1, valueChecksum_checksum, h2]
  cases hv : dataLooksValid (SerializedSensorData.ofBytes b)
  · rw [if_pos ⟨hsum, by simp⟩]
    simp
  · rw [if_neg (fun h => by simp at h), extractFields_ofBytes]
    simp

/-- With a valid magic word and a matching checksum the decoder returns the
fields of the buffer without looking at their plausibility. -/
theorem deserialize_of_match (b : Bytes) (hmagic : read32 b 0 = 0xABCD1234)
    (hsum : valueChecksum (SerializedSensorData.ofBytes b) = read32 b 48) :
    deserializeSensorData b = fieldsOf b := by
  have h1 : ¬ (SerializedSensorData.ofBytes b).magic ≠ 0xABCD1234 := not_not.mpr hmagic
  have h2 : (SerializedSensorData.ofBytes b).checksum = read32 b 48 := rfl
  unfold deserializeSensorData
  dsimp only
  rw [if_neg h1, valueChecksum_checksum, h2, if_neg (fun h => h.1 hsum), extractFields_ofBytes]

/-- Replacing a byte of `pres`, `gasRes` or `pm5` leaves the recomputed
checksum equal to the stored one: these fields are no summand. -/
theorem checksum_ignores_unsummed_byte (x : SensorData) (p v : Nat)
    (hp : p ∈ unsummedDataBytes) :
    valueChecksum (SerializedSensorData.ofBytes (ofList ((serializeSensorData x).set p v))) =
      read32 (ofList ((serializeSensorData x).set p v)) 48 := by
  have hcs := serialize_checksum_matches x
  have hr : p < 20 ∨ p = 22 ∨ p = 23 := by
    simp only [unsummedDataBytes, List.mem_cons, List.mem_singleton, List.not_mem_nil,
      or_false] at hp
    omega
  have hl : 12 ≤ p := by
    simp only [unsummedDataBytes, List.mem_cons, List.mem_singleton, List.not_mem_nil,
      or_false] at hp
    omega
  simp only [valueChecksum, SerializedSensorData.ofBytes, List.foldl_cons, List.foldl_nil]
    at hcs ⊢
  rw [read32_set_other _ p v 28 (by omega), read16_set_other _ p v 20 (by omega),
    read16_set_other _ p v 24 (by omega), read32_set_other _ p v 40 (by omega),
    read32_set_other _ p v 32 (by omega), read32_set_other _ p v 36 (by omega),
    read32_set_other _ p v 4 (by omega), read32_set_other _ p v 8 (by omega),
    read8_set_other _ p v 44 (by omega), read32_set_other _ p v 48 (by omega)]
  exact hcs

/-- Replacing a byte of `temp` or `hum` is detected by the checksum exactly
when it changes `(int)(value * 100)`. -/
theorem checksum_float_byte (x : SensorData) (p v : Nat) (hp : p ∈ scaledFloatBytes) :
    valueChecksum (SerializedSensorData.ofBytes (ofList ((serializeSensorData x).set p v))) ≠
        read32 (ofList ((serializeSensorData x).set p v)) 48 ↔
      (f32Mul100ToInt (read32 (ofList ((serializeSensorData x).set p v)) 4) ≠
          f32Mul100ToInt (read32 (ofList (serializeSensorData x)) 4) ∨
        f32Mul100ToInt (read32 (ofList ((serializeSensorData x).set p v)) 8) ≠
          f32Mul100ToInt (read32 (ofList (serializeSensorData x)) 8)) := by
  have hcs := serialize_checksum_matches x
  have hr : 4 ≤ p ∧ p < 12 := by
    simp only [scaledFloatBytes, List.mem_cons, List.mem_singleton, List.not_mem_nil,
      or_false] at hp
    omega
  simp only [valueChecksum, SerializedSensorData.ofBytes, List.foldl_cons, List.foldl_nil, u32]
    at hcs ⊢
  rw [read32_set_other _ p v 28 (by omega), read16_set_other _ p v 20 (by omega),
    read16_set_other _ p v 24 (by omega), read32_set_other _ p v 40 (by omega),
    read32_set_other _ p v 32 (by omega), read32_set_other _ p v 36 (by omega),
    read8_set_other _ p v 44 (by omega), read32_set_other _ p v 48 (by omega)]
  have t1 := f32Mul100ToInt_lt (read32 (ofList ((serializeSensorData x).set p v)) 4)
  have t2 := f32Mul100ToInt_lt (read32 (ofList (serializeSensorData x)) 4)
  have t3 := f32Mul100ToInt_lt (read32 (ofList ((serializeSensorData x).set p v)) 8)
  have t4 := f32Mul100ToInt_lt (read32 (ofList (serializeSensorData x)) 8)
  by_cases h8 : p < 8
  · rw [read32_set_other _ p v 8 (by omega)] at t3 ⊢
    omega
  · rw [read32_set_other _ p v 4 (by omega)] at t1 ⊢
    omega


/-- A multiple of a power of two below `256 * 2 ^ k` is no multiple of `10 ^ 6`. -/
theorem million_not_dvd (d k : Nat) (hd : 0 < d) (hd2 : d < 256) :
    ¬ 1000000 ∣ 2 ^ k * d := by
  intro h
  have h5 : 15625 ∣ 2 ^ k * d := Dvd.dvd.trans (by norm_num) h
  have hc : Nat.Coprime 15625 (2 ^ k) := by
    apply Nat.Coprime.pow_right
    decide
  have := hc.dvd_of_dvd_mul_left h5
  have := Nat.le_of_dvd hd this
  omega

/-- Two words that differ by a nonzero byte multiple differ modulo `10 ^ 6`. -/
theorem million_shift_ne (a d k : Nat) (hd : 0 < d) (hd2 : d < 256) :
    (a + 2 ^ k * d) % 1000000 ≠ a % 1000000 := by
  intro h
  have h1 : (a + 2 ^ k * d) ≡ a + 0 [MOD 1000000] := h
  have h2 := Nat.ModEq.add_left_cancel' a h1
  exact million_not_dvd d k hd hd2 ((Nat.modEq_zero_iff_dvd).mp h2)

/-- Replacing one byte of a little-endian word changes its residue modulo
`10 ^ 6`. -/
theorem million_byte_ne (a b w w' k : Nat) (hw : w < 256) (hw2 : w' < 256) (hne : w ≠ w') :
    (a + 2 ^ k * w + b) % 1000000 ≠ (a + 2 ^ k * w' + b) % 1000000 := by
  rcases Nat.lt_or_gt_of_ne hne with h | h
  · obtain ⟨d, rfl⟩ : ∃ d, w' = w + d := ⟨w' - w, by omega⟩
    have := million_shift_ne (a + 2 ^ k * w + b) d k (by omega) (by omega)
    intro e
    apply this
    have q : a + 2 ^ k * w + b + 2 ^ k * d = a + 2 ^ k * (w + d) + b := by ring
    rw [q, e]
  · obtain ⟨d, rfl⟩ : ∃ d, w = w' + d := ⟨w - w', by omega⟩
    have := million_shift_ne (a + 2 ^ k * w' + b) d k (by omega) (by omega)
    intro e
    apply this
    have q : a + 2 ^ k * w' + b + 2 ^ k * d = a + 2 ^ k * (w' + d) + b := by ring
    rw [q, e]

/-- The residue modulo `10 ^ 6` of a little-endian word changes with its
second byte. -/
theorem million_word_ne1 (b0 b1 c1 b2 b3 : Nat) (h : b1 < 256) (hc : c1 < 256) (hne : b1 ≠ c1) :
    ∃ r s, r = (b0 + 256 * b1 + 65536 * b2 + 16777216 * b3) % 1000000 ∧
      s = (b0 + 256 * c1 + 65536 * b2 + 16777216 * b3) % 1000000 ∧
      r ≠ s ∧ r < 1000000 ∧ s < 1000000 := by
  have key := million_byte_ne b0 (65536 * b2 + 16777216 * b3) b1 c1 8 h hc hne
  norm_num [← add_assoc] at key
  exact ⟨_, _, rfl, rfl, key, Nat.mod_lt _ (by norm_num), Nat.mod_lt _ (by norm_num)⟩

/-- The residue modulo `10 ^ 6` of a little-endian word changes with its
third byte. -/
theorem million_word_ne2 (b0 b1 b2 c2 b3 : Nat) (h : b2 < 256) (hc : c2 < 256) (hne : b2 ≠ c2) :
    ∃ r s, r = (b0 + 256 * b1 + 65536 * b2 + 16777216 * b3) % 1000000 ∧
      s = (b0 + 256 * b1 + 65536 * c2 + 16777216 * b3) % 1000000 ∧
      r ≠ s ∧ r < 1000000 ∧ s < 1000000 := by
  have key := million_byte_ne (b0 + 256 * b1) (16777216 * b3) b2 c2 16 h hc hne
  norm_num [← add_assoc] at key
  exact ⟨_, _, rfl, rfl, key, Nat.mod_lt _ (by norm_num), Nat.mod_lt _ (by norm_num)⟩

/-- The residue modulo `10 ^ 6` of a little-endian word changes with its
fourth byte. -/
theorem million_word_ne3 (b0 b1 b2 b3 c3 : Nat) (h : b3 < 256) (hc : c3 < 256) (hne : b3 ≠ c3) :
    ∃ r s, r = (b0 + 256 * b1 + 65536 * b2 + 16777216 * b3) % 1000000 ∧
      s = (b0 + 256 * b1 + 65536 * b2 + 16777216 * c3) % 1000000 ∧
      r ≠ s ∧ r < 1000000 ∧ s < 1000000 := by
  have key := million_byte_ne (b0 + 256 * b1 + 65536 * b2) 0 b3 c3 24 h hc hne
  norm_num [← add_assoc] at key
  exact ⟨_, _, rfl, rfl, key, Nat.mod_lt _ (by norm_num), Nat.mod_lt _ (by norm_num)⟩

set_option maxHeartbeats 4000000 in
/-- Replacing a byte of `pm2_5`, `pm10`, `co2`, `timestamp` or `flags`, or the
low byte of `latitude` or `longitude`, by a different byte makes the
recomputed checksum differ from the stored one. -/
theorem checksum_detects_plain_byte (x : SensorData) :
    ∀ p ∈ [20, 21, 24, 25, 28, 29, 30, 31, 32, 36, 40, 41, 42, 43, 44], ∀ v, v < 256 →
      v ≠ read8 (ofList (serializeSensorData x)) p →
      valueChecksum (SerializedSensorData.ofBytes (ofList ((serializeSensorData x).set p v))) ≠
        (SerializedSensorData.ofBytes (ofList ((serializeSensorData x).set p v))).checksum := by
  have hcs := serialize_checksum_matches x
  have hlen := serializeSensorData_length x
  simp only [valueChecksum, SerializedSensorData.ofBytes, read32, read16, List.foldl_cons,
    List.foldl_nil, u32] at hcs
  norm_num at hcs
  unfold read8 at hcs
  simp only [List.forall_mem_cons, List.not_mem_nil, false_imp_iff,
    imp_true_iff, and_true, implies_true]
  and_intros
  all_goals
    intro v hv hne
    simp only [valueChecksum, SerializedSensorData.ofBytes, read32, read16, read8_ofList_set,
      hlen, List.foldl_cons, List.foldl_nil, u32]
    norm_num
    unfold read8 at hne ⊢
    omega

set_option maxHeartbeats 1000000 in
/-- Replacing one of the three upper bytes of `latitude` by a different byte
makes the recomputed checksum differ from the stored one, although only
`latitude % 1000000` enters the sum. -/
theorem checksum_detects_latitude_byte (x : SensorData) :
    ∀ p ∈ [33, 34, 35], ∀ v, v < 256 →
      v ≠ read8 (ofList (serializeSensorData x)) p →
      valueChecksum (SerializedSensorData.ofBytes (ofList ((serializeSensorData x).set p v))) ≠
        (SerializedSensorData.ofBytes (ofList ((serializeSensorData x).set p v))).checksum := by
  have hcs := serialize_checksum_matches x
  have hlen := serializeSensorData_length x
  simp only [valueChecksum, SerializedSensorData.ofBytes, read32, read16, List.foldl_cons,
    List.foldl_nil, u32] at hcs
  norm_num at hcs
  unfold read8 at hcs
  simp only [List.forall_mem_cons, List.not_mem_nil, false_imp_iff,
    imp_true_iff, and_true, implies_true]
  refine ⟨?_, ?_, ?_⟩
  · intro v hv hne
    simp only [valueChecksum, SerializedSensorData.ofBytes, read32, read16, read8_ofList_set,
      hlen, List.foldl_cons, List.foldl_nil, u32]
    norm_num
    unfold read8 at hne ⊢
    generalize ofList (serializeSensorData x) = m at hcs hne ⊢
    obtain ⟨r, s, hr, hs, hd, hr1, hs1⟩ := million_word_ne1 (m 32 % 256) (m 33 % 256) (v % 256)
      (m 34 % 256) (m 35 % 256) (Nat.mod_lt _ (by norm_num)) (Nat.mod_lt _ (by norm_num)) (by omega)
    rw [← hr] at hcs
    rw [← hs]
    clear hr hs
    omega
  · intro v hv hne
    simp only [valueChecksum, SerializedSensorData.ofBytes, read32, read16, read8_ofList_set,
      hlen, List.foldl_cons, List.foldl_nil, u32]
    norm_num
    unfold read8 at hne ⊢
    generalize ofList (serializeSensorData x) = m at hcs hne ⊢
    obtain ⟨r, s, hr, hs, hd, hr1, hs1⟩ := million_word_ne2 (m 32 % 256) (m 33 % 256) (m 34 % 256)
      (v % 256) (m 35 % 256) (Nat.mod_lt _ (by norm_num)) (Nat.mod_lt _ (by norm_num)) (by omega)
    rw [← hr] at hcs
    rw [← hs]
    clear hr hs
    omega
  · intro v hv hne
    simp only [valueChecksum, SerializedSensorData.ofBytes, read32, read16, read8_ofList_set,
      hlen, List.foldl_cons, List.foldl_nil, u32]
    norm_num
    unfold read8 at hne ⊢
    generalize ofList (serializeSensorData x) = m at hcs hne ⊢
    obtain ⟨r, s, hr, hs, hd, hr1, hs1⟩ := million_word_ne3 (m 32 % 256) (m 33 % 256) (m 34 % 256)
      (m 35 % 256) (v % 256) (Nat.mod_lt _ (by norm_num)) (Nat.mod_lt _ (by norm_num)) (by omega)
    rw [← hr] at hcs
    rw [← hs]
    clear hr hs
    omega

set_option maxHeartbeats 1000000 in
/-- Replacing one of the three upper bytes of `longitude` by a different byte
makes the recomputed checksum differ from the stored one, although only
`longitude % 1000000` enters the sum. -/
theorem checksum_detects_longitude_byte (x : SensorData) :
    ∀ p ∈ [37, 38, 39], ∀ v, v < 256 →
      v ≠ read8 (ofList (serializeSensorData x)) p →
      valueChecksum (SerializedSensorData.ofBytes (ofList ((serializeSensorData x).set p v))) ≠
        (SerializedSensorData.ofBytes (ofList ((serializeSensorData x).set p v))).checksum := by
  have hcs := serialize_checksum_matches x
  have hlen := serializeSensorData_length x
  simp only [valueChecksum, SerializedSensorData.ofBytes, read32, read16, List.foldl_cons,
    List.foldl_nil, u32] at hcs
  norm_num at hcs
  unfold read8 at hcs
  simp only [List.forall_mem_cons, List.not_mem_nil, false_imp_iff,
    imp_true_iff, and_true, implies_true]
  refine ⟨?_, ?_, ?_⟩
  · intro v hv hne
    simp only [valueChecksum, SerializedSensorData.ofBytes, read32, read16, read8_ofList_set,
      hlen, List.foldl_cons, List.foldl_nil, u32]
    norm_num
    unfold read8 at hne ⊢
    generalize ofList (serializeSensorData x) = m at hcs hne ⊢
    obtain ⟨r, s, hr, hs, hd, hr1, hs1⟩ := million_word_ne1 (m 36 % 256) (m 37 % 256) (v % 256)
      (m 38 % 256) (m 39 % 256) (Nat.mod_lt _ (by norm_num)) (Nat.mod_lt _ (by norm_num)) (by omega)
    rw [← hr] at hcs
    rw [← hs]
    clear hr hs
    omega
  · intro v hv hne
    simp only [valueChecksum, SerializedSensorData.ofBytes, read32, read16, read8_ofList_set,
      hlen, List.foldl_cons, List.foldl_nil, u32]
    norm_num
    unfold read8 at hne ⊢
    generalize ofList (serializeSensorData x) = m at hcs hne ⊢
    obtain ⟨r, s, hr, hs, hd, hr1, hs1⟩ := million_word_ne2 (m 36 % 256) (m 37 % 256) (m 38 % 256)
      (v % 256) (m 39 % 256) (Nat.mod_lt _ (by norm_num)) (Nat.mod_lt _ (by norm_num)) (by omega)
    rw [← hr] at hcs
    rw [← hs]
    clear hr hs
    omega
  · intro v hv hne
    simp only [valueChecksum, SerializedSensorData.ofBytes, read32, read16, read8_ofList_set,
      hlen, List.foldl_cons, List.foldl_nil, u32]
    norm_num
    unfold read8 at hne ⊢
    generalize ofList (serializeSensorData x) = m at hcs hne ⊢
    obtain ⟨r, s, hr, hs, hd, hr1, hs1⟩ := million_word_ne3 (m 36 % 256) (m 37 % 256) (m 38 % 256)
      (m 39 % 256) (v % 256) (Nat.mod_lt _ (by norm_num)) (Nat.mod_lt _ (by norm_num)) (by omega)
    rw [← hr] at hcs
    rw [← hs]
    clear hr hs
    omega

/-- Replacing one byte of an integer summand of the checksum by a different
byte makes the recomputed checksum differ from the stored one. -/
theorem checksum_detects_integer_byte (x : SensorData) (p v : Nat)
    (hp : p ∈ checksummedIntegerBytes) (hv : v < 256)
    (hne : v ≠ read8 (ofList (serializeSensorData x)) p) :
    valueChecksum (SerializedSensorData.ofBytes (ofList ((serializeSensorData x).set p v))) ≠
      (SerializedSensorData.ofBytes (ofList ((serializeSensorData x).set p v))).checksum := by
  by_cases h1 : p ∈ [33, 34, 35]
  · exact checksum_detects_latitude_byte x p h1 v hv hne
  · by_cases h2 : p ∈ [37, 38, 39]
    · exact checksum_detects_longitude_byte x p h2 v hv hne
    · refine checksum_detects_plain_byte x p ?_ v hv hne
      simp only [checksummedIntegerBytes, List.mem_cons, List.mem_singleton, List.not_mem_nil,
        or_false] at hp h1 h2 ⊢
      omega

/-- The byte a serialized record holds at a position, as `read8` returns it. -/
theorem read8_serialize (x : SensorData) (p : Nat) :
    read8 (ofList (serializeSensorData x)) p = (serializeSensorData x).getD p 0 := by
  unfold read8 ofList
  exact Nat.mod_eq_of_lt (serializeSensorData_byte_lt x p)

/-! ## C13: checksum sensitivity -/

/-- C13 fails as stated. In the serialized bytes of a record with timestamp
1600000000, byte 12 (the low byte of `pres`, originally 0) is replaced by 1.
The recomputed checksum still equals the stored one, and although the
plausibility test fails for this timestamp the decoder returns the modified
record: it was accepted through the checksum-match path. Replacing byte 4
(the low byte of `temp`, originally 0) by 1 is accepted in the same way. -/
theorem C13_unsummed_byte_passes_checksum :
    (serializeSensorData (sampleRecord 1600000000 false)).getD 12 0 = 0 ∧
    valueChecksum (SerializedSensorData.ofBytes
        (ofList ((serializeSensorData (sampleRecord 1600000000 false)).set 12 1))) =
      read32 (ofList ((serializeSensorData (sampleRecord 1600000000 false)).set 12 1)) 48 ∧
    dataLooksValid (SerializedSensorData.ofBytes
        (ofList ((serializeSensorData (sampleRecord 1600000000 false)).set 12 1))) = false ∧
    deserializeSensorData
        (ofList ((serializeSensorData (sampleRecord 1600000000 false)).set 12 1)) =
      { sampleRecord 1600000000 false with pres := 0x447D5001 } ∧
    (serializeSensorData (sampleRecord 1600000000 false)).getD 4 0 = 0 ∧
    valueChecksum (SerializedSensorData.ofBytes
        (ofList ((serializeSensorData (sampleRecord 1600000000 false)).set 4 1))) =
      read32 (ofList ((serializeSensorData (sampleRecord 1600000000 false)).set 4 1)) 48 ∧
    deserializeSensorData
        (ofList ((serializeSensorData (sampleRecord 1600000000 false)).set 4 1)) =
      { sampleRecord 1600000000 false with temp := 0x41A00001 } := by
  decide!

/-- C13, amended. For every record `x`, every byte position `p` and every
replacement byte different from the original: if `p` lies in an integer
summand of the checksum (`pm2_5`, `pm10`, `co2`, `latitude`, `longitude`,
`timestamp`, `flags`) the recomputed checksum differs from the stored one, so
the decoder returns the fields of the buffer only when they pass the
plausibility test and the default record otherwise; if `p` lies in `temp` or
`hum` the mismatch is detected exactly when `(int)(value * 100)` changes; if
`p` lies in `pres`, `gasRes` or `pm5` the checksum still matches and the
decoder returns the modified fields. -/
theorem C13_checksum_covers_summed_bytes (x : SensorData) (p v : Nat) (hv : v < 256)
    (hne : v ≠ (serializeSensorData x).getD p 0) :
    (p ∈ checksummedIntegerBytes →
      valueChecksum (SerializedSensorData.ofBytes (ofList ((serializeSensorData x).set p v))) ≠
          read32 (ofList ((serializeSensorData x).set p v)) 48 ∧
        deserializeSensorData (ofList ((serializeSensorData x).set p v)) =
          if dataLooksValid
              (SerializedSensorData.ofBytes (ofList ((serializeSensorData x).set p v))) then
            fieldsOf (ofList ((serializeSensorData x).set p v))
          else SensorData.default) ∧
    (p ∈ scaledFloatBytes →
      (valueChecksum (SerializedSensorData.ofBytes (ofList ((serializeSensorData x).set p v))) ≠
          read32 (ofList ((serializeSensorData x).set p v)) 48 ↔
        (f32Mul100ToInt (read32 (ofList ((serializeSensorData x).set p v)) 4) ≠
            f32Mul100ToInt (read32 (ofList (serializeSensorData x)) 4) ∨
          f32Mul100ToInt (read32 (ofList ((serializeSensorData x).set p v)) 8) ≠
            f32Mul100ToInt (read32 (ofList (serializeSensorData x)) 8)))) ∧
    (p ∈ unsummedDataBytes →
      valueChecksum (SerializedSensorData.ofBytes (ofList ((serializeSensorData x).set p v))) =
          read32 (ofList ((serializeSensorData x).set p v)) 48 ∧
        deserializeSensorData (ofList ((serializeSensorData x).set p v)) =
          fieldsOf (ofList ((serializeSensorData x).set p v))) := by
  refine ⟨fun hp => ?_, fun hp => checksum_float_byte x p v hp, fun hp => ?_⟩
  · have h4 : 4 ≤ p := by
      simp only [checksummedIntegerBytes, List.mem_cons, List.mem_singleton, List.not_mem_nil,
        or_false] at hp
      omega
    have hmagic : read32 (ofList ((serializeSensorData x).set p v)) 0 = 0xABCD1234 := by
      rw [read32_set_other _ p v 0 (by omega)]
      exact serialize_magic x
    have hsum := checksum_detects_integer_byte x p v hp hv (by rw [read8_serialize]; exact hne)
    exact ⟨hsum, deserialize_of_mismatch _ hmagic hsum⟩
  · have h4 : 4 ≤ p := by
      simp only [unsummedDataBytes, List.mem_cons, List.mem_singleton, List.not_mem_nil,
        or_false] at hp
      omega
    have hmagic : read32 (ofList ((serializeSensorData x).set p v)) 0 = 0xABCD1234 := by
      rw [read32_set_other _ p v 0 (by omega)]
      exact serialize_magic x
    have hsum := checksum_ignores_unsummed_byte x p v hp
    exact ⟨hsum, deserialize_of_match _ hmagic hsum⟩

/-- C13 on a sample record: replacing the low byte of `co2` (144) by 0 is
detected. -/
theorem C13_checksum_covers_summed_bytes_witness :
    (serializeSensorData (sampleRecord 1700000000 false)).getD 28 0 = 144 ∧
    valueChecksum (SerializedSensorData.ofBytes
        (ofList ((serializeSensorData (sampleRecord 1700000000 false)).set 28 0))) ≠
      read32 (ofList ((serializeSensorData (sampleRecord 1700000000 false)).set 28 0)) 48 :=
  ⟨by decide!,
    ((C13_checksum_covers_summed_bytes (sampleRecord 1700000000 false) 28 0 (by decide)
      (by decide!)).1 (by decide)).1⟩

/-! ## The branches of `init` -/

/-- The address adjustment of `init` changes the data start address only. -/
theorem initStart_members (s : Flash) :
    s.initStart.chip = s.chip ∧ s.initStart._data_count_address = s._data_count_address ∧
      s.initStart._flash_offset = s._flash_offset ∧
      s.initStart._max_data_count = s._max_data_count ∧
      s.initStart._flash_enabled = s._flash_enabled := by
  unfold Flash.initStart
  dsimp only
  split <;> exact ⟨rfl, rfl, rfl, rfl, rfl⟩

/-- The body of `init` on an enabled store, by the count word it reads. -/
theorem init_enabled (hw : Hw) (s : Flash) (hen : s._flash_enabled = true) :
    s.init hw =
      if read32 s.chip s._data_count_address = 0xFFFFFFFF then
        (if !(s.initErase hw).1 then
          (true, { (s.initErase hw).2 with _stored_data_count := 0, _flash_enabled := false })
        else if !(s.initProgram hw).1 then
          (true, { (s.initProgram hw).2 with _stored_data_count := 0, _flash_enabled := false })
        else (true, (s.initProgram hw).2))
      else if read32 s.chip s._data_count_address > s._max_data_count then
        (if !(s.initStart.resetStorage hw).1 then
          (true, { (s.initStart.resetStorage hw).2 with
            _stored_data_count := 0, _flash_enabled := false })
        else (true, { (s.initStart.resetStorage hw).2 with _stored_data_count := 0 }))
      else if read32 s.chip s._data_count_address > 0 then
        (if read32 s.chip s.initStart._data_start_address = 0xABCD1234 then
          (true, { s.initStart with _stored_data_count := read32 s.chip s._data_count_address })
        else if !(Flash.resetStorage hw { s.initStart with
              _stored_data_count := read32 s.chip s._data_count_address }).1 then
          (true, { (Flash.resetStorage hw { s.initStart with
              _stored_data_count := read32 s.chip s._data_count_address }).2 with
            _stored_data_count := 0, _flash_enabled := false })
        else
          (true, (Flash.resetStorage hw { s.initStart with
              _stored_data_count := read32 s.chip s._data_count_address }).2))
      else
        (true, { s.initStart with _stored_data_count := read32 s.chip s._data_count_address }) := by
  obtain ⟨h1, h2, -, h4, -⟩ := initStart_members s
  unfold Flash.initProgram Flash.initErase
  rw [← h1, ← h2, ← h4]
  unfold Flash.init
  rw [if_neg (by simp [hen])]
  rfl

/-! ## C14: init is fail-open -/

/-- C14. `init` is fail-open: for every chip behaviour `hw` (every outcome of
the erase, program and reset steps), every flash image and every setting of
the enabled flag, `init()` returns true; and when the erase or the program
step of the first-time initialisation fails, or a `resetStorage()` that
`init` triggers fails (count word above the maximum, or a positive count
with a wrong first magic), `init` leaves the store with flash disabled and
`getStoredCount() = 0`. -/
theorem C14_init_is_fail_open (hw : Hw) (s : Flash) :
    (s.init hw).1 = true ∧
    (s.isFlashEnabled = true → read32 s.chip s._data_count_address = 0xFFFFFFFF →
      (s.initErase hw).1 = false ∨ (s.initProgram hw).1 = false →
      (s.init hw).2.isFlashEnabled = false ∧ (s.init hw).2.getStoredCount = 0) ∧
    (s.isFlashEnabled = true → read32 s.chip s._data_count_address ≠ 0xFFFFFFFF →
      read32 s.chip s._data_count_address > s.getMaxDataCount →
      (s.initStart.resetStorage hw).1 = false →
      (s.init hw).2.isFlashEnabled = false ∧ (s.init hw).2.getStoredCount = 0) ∧
    (s.isFlashEnabled = true → read32 s.chip s._data_count_address ≠ 0xFFFFFFFF →
      read32 s.chip s._data_count_address ≤ s.getMaxDataCount →
      read32 s.chip s._data_count_address > 0 →
      read32 s.chip s.initStart._data_start_address ≠ 0xABCD1234 →
      (Flash.resetStorage hw { s.initStart with
        _stored_data_count := read32 s.chip s._data_count_address }).1 = false →
      (s.init hw).2.isFlashEnabled = false ∧ (s.init hw).2.getStoredCount = 0) := by
  refine ⟨?_, ?_, ?_, ?_⟩
  · cases hen : s._flash_enabled
    · unfold Flash.init
      rw [if_pos (by simp [hen])]
    · rw [init_enabled hw s hen]
      repeat' split
      all_goals rfl
  · intro hen hc hfail
    rw [init_enabled hw s hen, if_pos hc]
    cases he : (s.initErase hw).1
    · exact ⟨rfl, rfl⟩
    · have hp : (s.initProgram hw).1 = false := by
        rcases hfail with h | h
        · rw [he] at h
          exact absurd h (by decide)
        · exact h
      rw [hp]
      exact ⟨rfl, rfl⟩
  · intro hen hc hgt hfail
    rw [init_enabled hw s hen, if_neg hc, if_pos hgt, hfail]
    exact ⟨rfl, rfl⟩
  · intro hen hc hle hpos hmagic hfail
    rw [init_enabled hw s hen, if_neg hc, if_neg (not_lt.mpr hle), if_pos hpos, if_neg hmagic,
      hfail]
    exact ⟨rfl, rfl⟩

/-- C14 on a chip that ignores erase and program: the first-time program step
fails its read-back, `init` returns true and the store is disabled with
count 0. -/
theorem C14_init_is_fail_open_witness :
    ((Flash.new 0 (fun _ => 0xFF)).init stuckHw).1 = true ∧
      ((Flash.new 0 (fun _ => 0xFF)).init stuckHw).2.isFlashEnabled = false ∧
      ((Flash.new 0 (fun _ => 0xFF)).init stuckHw).2.getStoredCount = 0 :=
  ⟨(C14_init_is_fail_open stuckHw (Flash.new 0 (fun _ => 0xFF))).1,
    (C14_init_is_fail_open stuckHw (Flash.new 0 (fun _ => 0xFF))).2.1 rfl (by decide!)
      (Or.inr (by decide!))⟩

/-- Whatever the chip does, `resetStorage` leaves the in-memory count 0 when
it returns true. -/
theorem resetStorage_count (hw : Hw) (s : Flash) (h : (s.resetStorage hw).1 = true) :
    (s.resetStorage hw).2._stored_data_count = 0 := by
  unfold Flash.resetStorage at h ⊢
  dsimp only at h ⊢
  by_cases h1 : (!s._flash_enabled) = true
  · rw [if_pos h1]
  · rw [if_neg h1] at h ⊢
    generalize (if s._flash_offset % FLASH_SECTOR_SIZE ≠ 0 then
      s._flash_offset / FLASH_SECTOR_SIZE * FLASH_SECTOR_SIZE else s._flash_offset) = a at h ⊢
    by_cases h2 : (!(s.safeFlashErase hw a (16 * FLASH_SECTOR_SIZE)).1) = true
    · rw [if_pos h2] at h
      exact absurd h Bool.false_ne_true
    · rw [if_neg h2] at h ⊢
      split
      · rename_i h3
        rw [if_pos h3] at h
        exact absurd h Bool.false_ne_true
      · exact (safeFlashProgram_sameMembers hw _ _ _ _).2.2.2.2.1

/-- Whatever the chip does, the first-time initialisation steps of `init`
leave the in-memory count 0. -/
theorem initProgram_count (hw : Hw) (s : Flash) :
    (s.initProgram hw).2._stored_data_count = 0 := by
  unfold Flash.initProgram
  rw [(safeFlashProgram_sameMembers hw _ _ _ _).2.2.2.2.1]
  unfold Flash.initErase
  rw [(safeFlashErase_sameMembers hw _ _ _).2.2.2.2.1]

/-- On a store with the constructor's layout `init` adjusts no address. -/
theorem initStart_of_layout (s : Flash) (f : Nat) (hlay : s.HasLayout f) : s.initStart = s := by
  obtain ⟨hal, hca, hst, -⟩ := hasLayout_facts s f hlay
  unfold Flash.initStart
  dsimp only
  rw [if_neg]
  simp only [FLASH_SECTOR_SIZE, u32, ne_eq, not_not]
  rw [hst, hca]
  have h0 : s._flash_offset - s._flash_offset % 4096 = s._flash_offset := by omega
  rw [h0]

/-- Whatever the chip does, `init` on an enabled store ends with count 0
unless it accepts the count word. -/
theorem init_count_zero (hw : Hw) (s : Flash) (hen : s._flash_enabled = true)
    (hrej : ¬(read32 s.chip s._data_count_address ≠ 0xFFFFFFFF ∧
      read32 s.chip s._data_count_address ≤ s._max_data_count ∧
      (read32 s.chip s._data_count_address = 0 ∨
        read32 s.chip s.initStart._data_start_address = 0xABCD1234))) :
    (s.init hw).2._stored_data_count = 0 := by
  rw [init_enabled hw s hen]
  by_cases hc : read32 s.chip s._data_count_address = 0xFFFFFFFF
  · rw [if_pos hc]
    split
    · rfl
    · split
      · rfl
      · exact initProgram_count hw s
  · rw [if_neg hc]
    by_cases hgt : read32 s.chip s._data_count_address > s._max_data_count
    · rw [if_pos hgt]
      split <;> rfl
    · rw [if_neg hgt]
      by_cases hpos : read32 s.chip s._data_count_address > 0
      · have hm : ¬read32 s.chip s.initStart._data_start_address = 0xABCD1234 := by
          intro hm
          exact hrej ⟨hc, by omega, Or.inr hm⟩
        rw [if_pos hpos, if_neg hm]
        cases hr : (Flash.resetStorage hw { s.initStart with
            _stored_data_count := read32 s.chip s._data_count_address }).1
        · rfl
        · exact resetStorage_count hw _ hr
      · exact absurd ⟨hc, by omega, Or.inl (by omega)⟩ hrej

/-! ## C15: the count `init` accepts or resets -/

/-- C15. Count accepted or reset by `init`: on every chip, in particular the
fault-free one, for every enabled store with the constructor's layout, count
word `c` at the count address and first-record magic word `m` at the data
start: if `c <= getMaxDataCount()` and (`c = 0` or `m = 0xABCD1234`), `init()`
returns true, `getStoredCount() = c` and the flash image is unchanged; in
every other case (`c = 0xFFFFFFFF`, `c > getMaxDataCount()`, or `c > 0` with
any other `m`) `getStoredCount() = 0`. -/
theorem C15_init_accepts_or_resets_count (hw : Hw) (s : Flash) (f : Nat) (hlay : s.HasLayout f)
    (hen : s.isFlashEnabled = true) :
    (read32 s.chip s._data_count_address ≤ s.getMaxDataCount ∧
        (read32 s.chip s._data_count_address = 0 ∨
          read32 s.chip s._data_start_address = 0xABCD1234) →
      (s.init hw).1 = true ∧
        (s.init hw).2.getStoredCount = read32 s.chip s._data_count_address ∧
        (s.init hw).2.chip = s.chip) ∧
    (¬(read32 s.chip s._data_count_address ≤ s.getMaxDataCount ∧
        (read32 s.chip s._data_count_address = 0 ∨
          read32 s.chip s._data_start_address = 0xABCD1234)) →
      (s.init hw).2.getStoredCount = 0) := by
  obtain ⟨hal, hca, hst, hmax⟩ := hasLayout_facts s f hlay
  have hsame := initStart_of_layout s f hlay
  refine ⟨fun h => ?_, fun h => ?_⟩
  · have hle : read32 s.chip s._data_count_address ≤ s._max_data_count := h.1
    have hacc := init_accepts hw s (read32 s.chip s._data_count_address) hen
      (by
        simp only [FLASH_SECTOR_SIZE, u32]
        rw [hst, hca]
        have h0 : s._flash_offset - s._flash_offset % 4096 = s._flash_offset := by omega
        rw [h0])
      rfl hle (by omega)
      (fun hpos => by
        rcases h.2 with h0 | hm
        · omega
        · exact hm)
    rw [hacc]
    exact ⟨rfl, rfl, rfl⟩
  · apply init_count_zero hw s hen
    rw [hsame]
    intro hacc
    exact h ⟨hacc.2.1, hacc.2.2⟩

/-- C15 on the fault-free chip: the image of the store with one record holds
count word 1 and a valid first magic, and `init` accepts the count word and
leaves the image unchanged. -/
theorem C15_init_accepts_or_resets_count_witness :
    read32 storeWithOneRecord.chip storeWithOneRecord._data_count_address = 1 ∧
      ((storeWithOneRecord.init idealHw).1 = true ∧
        (storeWithOneRecord.init idealHw).2.getStoredCount =
          read32 storeWithOneRecord.chip storeWithOneRecord._data_count_address ∧
        (storeWithOneRecord.init idealHw).2.chip = storeWithOneRecord.chip) := by
  have hlay : storeWithOneRecord.HasLayout 0 :=
    ⟨by decide!, by decide!, by decide!, by decide!⟩
  exact ⟨by decide!,
    (C15_init_accepts_or_resets_count idealHw storeWithOneRecord 0 hlay (by decide!)).1
      ⟨by decide!, Or.inr (by decide!)⟩⟩

/-! ## C16: the layout the constructor computes -/

/-- C16 fails as stated. For the 32-bit argument `0xFFFFFFFF` the base offset
is `0xFFFFF000` and the data start address, a `uint32_t` sum, wraps to 0: it
is not the base offset plus 4096. -/
theorem C16_data_start_wraps :
    (Flash.new 4294967295 (fun _ => 0xFF))._flash_offset = 4294963200 ∧
      (Flash.new 4294967295 (fun _ => 0xFF))._data_start_address = 0 ∧
      (Flash.new 4294967295 (fun _ => 0xFF))._data_start_address ≠
        (Flash.new 4294967295 (fun _ => 0xFF))._flash_offset + 4096 := by
  decide!

/-- C16, amended. Layout computation: for every 32-bit constructor argument
`f`, the base offset is `1792 * 1024` when `f = 0` and otherwise
`4096 * floor(f / 4096)`, never more than `f`; the count address equals the
base offset; the data start address is the base offset plus 4096 reduced
modulo `2 ^ 32`, which is the base offset plus 4096 for every
`f < 0xFFFFF000`; both addresses are multiples of 4096, and an already
aligned non-zero `f` is left unchanged. -/
theorem C16_layout_computation (f : Nat) (chip : Bytes) (hf : f < 4294967296) :
    (Flash.new f chip)._flash_offset = (if f = 0 then 1792 * 1024 else 4096 * (f / 4096)) ∧
      (f ≠ 0 → (Flash.new f chip)._flash_offset ≤ f) ∧
      (Flash.new f chip)._data_count_address = (Flash.new f chip)._flash_offset ∧
      (Flash.new f chip)._data_start_address =
        ((Flash.new f chip)._flash_offset + 4096) % 4294967296 ∧
      (f < 0xFFFFF000 →
        (Flash.new f chip)._data_start_address = (Flash.new f chip)._flash_offset + 4096) ∧
      (Flash.new f chip)._data_count_address % 4096 = 0 ∧
      (Flash.new f chip)._data_start_address % 4096 = 0 ∧
      (f ≠ 0 → f % 4096 = 0 → (Flash.new f chip)._flash_offset = f) := by
  have hoff : (Flash.new f chip)._flash_offset =
      (if f = 0 then 1792 * 1024 else 4096 * (f / 4096)) := by
    simp only [Flash.new, FLASH_SECTOR_SIZE, DEFAULT_FLASH_TARGET_OFFSET]
    by_cases h0 : f = 0
    · rw [if_pos h0, if_pos h0, if_neg (by decide)]
    · rw [if_neg h0, if_neg h0]
      split <;> omega
  have hcount : (Flash.new f chip)._data_count_address = (Flash.new f chip)._flash_offset := rfl
  have hstart : (Flash.new f chip)._data_start_address =
      ((Flash.new f chip)._flash_offset + 4096) % 4294967296 := rfl
  rw [hstart, hcount, hoff]
  by_cases h0 : f = 0
  · subst h0
    simp
  · rw [if_neg h0]
    refine ⟨rfl, fun _ => by omega, rfl, rfl, fun h => ?_, by omega, by omega, fun _ h => by omega⟩
    have : 4096 * (f / 4096) + 4096 < 4294967296 := by
      have : f < 4294963200 := h
      omega
    exact Nat.mod_eq_of_lt this

/-- C16 at `f = 5000`: the base offset is 4096 and the data start is 8192. -/
theorem C16_layout_computation_witness :
    (Flash.new 5000 (fun _ => 0xFF))._flash_offset = 4096 ∧
      (Flash.new 5000 (fun _ => 0xFF))._data_start_address = 4096 + 4096 :=
  ⟨(C16_layout_computation 5000 (fun _ => 0xFF) (by decide)).1,
    ((C16_layout_computation 5000 (fun _ => 0xFF) (by decide)).2.2.2.2.1 (by decide)).trans
      (congrArg (· + 4096) (C16_layout_computation 5000 (fun _ => 0xFF) (by decide)).1)⟩

/-! ## C17: the disabled store -/

/-- C17 at its failing input. On the ready store with flash disabled
(`setFlashEnabled(false)`), `saveSensorData` returns true without touching
the flash and `loadAllSensorData` returns the empty list, but
`saveSensorDataBatch` with one record, which never tests the flag, programs
the flash: the word at the data start was erased (`0xFFFFFFFF`) and holds
the record's magic afterwards. -/
theorem C17_batch_writes_when_disabled :
    (readyStore.setFlashEnabled false).isFlashEnabled = false ∧
    ((readyStore.setFlashEnabled false).saveSensorData idealHw
        (sampleRecord 1700000000 false)).1 = true ∧
    read32 ((readyStore.setFlashEnabled false).saveSensorData idealHw
        (sampleRecord 1700000000 false)).2.chip readyStore._data_start_address = 0xFFFFFFFF ∧
    (readyStore.setFlashEnabled false).loadAllSensorData = [] ∧
    ((readyStore.setFlashEnabled false).saveSensorDataBatch idealHw
        [sampleRecord 1700000000 false]).1 = true ∧
    read32 (readyStore.setFlashEnabled false).chip readyStore._data_start_address =
      0xFFFFFFFF ∧
    read32 ((readyStore.setFlashEnabled false).saveSensorDataBatch idealHw
        [sampleRecord 1700000000 false]).2.chip readyStore._data_start_address = 0xABCD1234 := by
  decide!

/-! ## C18: what a reset erases -/

/-- C18 at its failing input. On the fault-free chip, an enabled store with
the default offset on an all-zero image: `resetStorage()` returns true with
count 0 and count word 0, and so does `eraseStorage()`, but the byte at
`base + 16 * 4096` still reads 0, not `0xFF`, although it lies inside the
32 sectors on which `getMaxDataCount()` is computed (the last record slot,
index 2884, starts at `base + 4096 + 2884 * 44`). Both functions erase 16
sectors. -/
theorem C18_reset_erases_half :
    ((Flash.new 0 (fun _ => 0)).resetStorage idealHw).1 = true ∧
    ((Flash.new 0 (fun _ => 0)).resetStorage idealHw).2.getStoredCount = 0 ∧
    read32 ((Flash.new 0 (fun _ => 0)).resetStorage idealHw).2.chip 1835008 = 0 ∧
    read8 ((Flash.new 0 (fun _ => 0)).resetStorage idealHw).2.chip (1835008 + 16 * 4096 - 1) =
      0xFF ∧
    read8 ((Flash.new 0 (fun _ => 0)).resetStorage idealHw).2.chip (1835008 + 16 * 4096) = 0 ∧
    ((Flash.new 0 (fun _ => 0)).eraseStorage idealHw).1 = true ∧
    ((Flash.new 0 (fun _ => 0)).eraseStorage idealHw).2.getStoredCount = 0 ∧
    read8 ((Flash.new 0 (fun _ => 0)).eraseStorage idealHw).2.chip (1835008 + 16 * 4096) = 0 ∧
    (Flash.new 0 (fun _ => 0))._flash_offset = 1835008 ∧
    (Flash.new 0 (fun _ => 0)).getMaxDataCount = (32 * 4096 - 4096) / 44 ∧
    1835008 + 16 * 4096 <
      (Flash.new 0 (fun _ => 0))._data_start_address + 2884 * SENSOR_DATA_SIZE := by
  decide!

/-! ## C19: erasing twice -/

/-- On the fault-free chip `eraseStorage` returns true with count 0, and the
image it leaves is: 0 in the four bytes of the count word, `0xFF` in the rest
of the sixteen sectors from the base offset, and the old contents elsewhere. -/
theorem eraseStorage_ideal (s : Flash) :
    (s.eraseStorage idealHw).1 = true ∧ (s.eraseStorage idealHw).2._stored_data_count = 0 ∧
      (s.eraseStorage idealHw).2._flash_offset = s._flash_offset ∧
      (s.eraseStorage idealHw).2._data_count_address = s._data_count_address ∧
      ∀ a, (s.eraseStorage idealHw).2.chip a =
        if s._data_count_address ≤ a ∧ a < s._data_count_address + 4 then 0
        else if s._flash_offset ≤ a ∧ a < s._flash_offset + 65536 then 0xFF
        else s.chip a := by
  have hchip : ∀ a, (idealHw.flash_range_program
      (idealHw.flash_range_erase s.chip s._flash_offset (16 * FLASH_SECTOR_SIZE))
      s._data_count_address (ofList (le32 0)) DATA_COUNT_SIZE) a =
        if s._data_count_address ≤ a ∧ a < s._data_count_address + 4 then 0
        else if s._flash_offset ≤ a ∧ a < s._flash_offset + 65536 then 0xFF
        else s.chip a := by
    intro a
    simp only [idealHw, alignUp, FLASH_SECTOR_SIZE, DATA_COUNT_SIZE]
    by_cases h1 : s._data_count_address ≤ a ∧ a < s._data_count_address + 4
    · rw [if_pos h1, if_pos h1]
      have hz : read8 (ofList (le32 0)) (a - s._data_count_address) = 0 := by
        have hlt : a - s._data_count_address < 4 := by omega
        interval_cases (a - s._data_count_address) <;> decide
      rw [hz, Nat.and_zero]
    · rw [if_neg h1, if_neg h1]
  have hword : read32 (idealHw.flash_range_program
      (idealHw.flash_range_erase s.chip s._flash_offset (16 * FLASH_SECTOR_SIZE))
      s._data_count_address (ofList (le32 0)) DATA_COUNT_SIZE) s._data_count_address = 0 := by
    unfold read32 read8
    rw [hchip, hchip, hchip, hchip, if_pos (by omega), if_pos (by omega), if_pos (by omega),
      if_pos (by omega)]
  unfold Flash.eraseStorage
  dsimp only
  rw [if_neg (not_not.mpr hword)]
  exact ⟨rfl, rfl, rfl, rfl, hchip⟩

/-- C19. Idempotent erase: on the fault-free chip, for every prior store
state, two consecutive calls of `eraseStorage()` both return true,
`getStoredCount() = 0` after each of them, and the flash image after the
second call equals the image after the first, byte for byte. -/
theorem C19_erase_twice (s : Flash) :
    (s.eraseStorage idealHw).1 = true ∧
      (s.eraseStorage idealHw).2.getStoredCount = 0 ∧
      ((s.eraseStorage idealHw).2.eraseStorage idealHw).1 = true ∧
      ((s.eraseStorage idealHw).2.eraseStorage idealHw).2.getStoredCount = 0 ∧
      ∀ a, ((s.eraseStorage idealHw).2.eraseStorage idealHw).2.chip a =
        (s.eraseStorage idealHw).2.chip a := by
  obtain ⟨h1, h2, h3, h4, h5⟩ := eraseStorage_ideal s
  obtain ⟨g1, g2, -, -, g5⟩ := eraseStorage_ideal (s.eraseStorage idealHw).2
  refine ⟨h1, h2, g1, g2, fun a => ?_⟩
  rw [g5, h3, h4, h5]
  by_cases c1 : s._data_count_address ≤ a ∧ a < s._data_count_address + 4
  · rw [if_pos c1, if_pos c1]
  · rw [if_neg c1, if_neg c1]
    by_cases c2 : s._flash_offset ≤ a ∧ a < s._flash_offset + 65536
    · rw [if_pos c2, if_pos c2]
    · rw [if_neg c2, if_neg c2]

/-! ## C20: the count word after a batch append -/

/-- C20 at its failing input. On the fault-free NOR chip, the ready store
(in-memory and persisted count 0) and a batch of one record:
`saveSensorDataBatch` returns true and the in-memory count is 1, but the
count word read back from flash is still 0, because the word is programmed
without an erase and programming can only clear bits; `init()` on a newly
constructed store then yields 0. From the store with one record a batch of
two gives the in-memory count 3 and the count word 1. -/
theorem C20_batch_count_not_persisted :
    readyStore.getStoredCount = 0 ∧
    read32 readyStore.chip readyStore._data_count_address = 0 ∧
    (readyStore.saveSensorDataBatch idealHw [sampleRecord 1700000000 false]).1 = true ∧
    (readyStore.saveSensorDataBatch idealHw [sampleRecord 1700000000 false]).2.getStoredCount
      = 1 ∧
    read32 (readyStore.saveSensorDataBatch idealHw [sampleRecord 1700000000 false]).2.chip
      readyStore._data_count_address = 0 ∧
    ((Flash.new 0 (readyStore.saveSensorDataBatch idealHw
      [sampleRecord 1700000000 false]).2.chip).init idealHw).2.getStoredCount = 0 ∧
    storeWithOneRecord.getStoredCount = 1 ∧
    read32 storeWithOneRecord.chip storeWithOneRecord._data_count_address = 1 ∧
    (storeWithOneRecord.saveSensorDataBatch idealHw
      [sampleRecord 1700000060 false, sampleRecord 1700000120 false]).1 = true ∧
    (storeWithOneRecord.saveSensorDataBatch idealHw
      [sampleRecord 1700000060 false, sampleRecord 1700000120 false]).2.getStoredCount = 3 ∧
    read32 (storeWithOneRecord.saveSensorDataBatch idealHw
      [sampleRecord 1700000060 false, sampleRecord 1700000120 false]).2.chip
      storeWithOneRecord._data_count_address = 1 := by
  decide!

/-! ## Stores reached by appends on the fault-free chip -/

/-- The address members of a store with the default layout. -/
theorem layout_default (s : Flash) (hlay : s.HasLayout 0) :
    s._flash_offset = 1835008 ∧ s._data_count_address = 1835008 ∧
      s._data_start_address = 1839104 ∧ s._max_data_count = 2885 := by
  obtain ⟨-, hca, hst, hmax⟩ := hasLayout_facts s 0 hlay
  have hoff : s._flash_offset = 1835008 := by
    obtain ⟨h1, -, -, -⟩ := hlay
    rw [h1]
    simp [Flash.new, DEFAULT_FLASH_TARGET_OFFSET, FLASH_SECTOR_SIZE]
  rw [hoff] at hca hst
  exact ⟨hoff, hca, hst, hmax⟩

/-- Up to 1397 appends of the sample record succeed; the store then holds
that count, the default layout and the enabled flag. -/
theorem storeAfter_facts (n : Nat) (hn : n ≤ 1397) :
    (readyStore.saveAll idealHw (List.replicate n (sampleRecord 1700000000 false))).1 =
        List.replicate n true ∧
      (storeAfter n).getStoredCount = n ∧ (storeAfter n).HasLayout 0 ∧
      (storeAfter n).isFlashEnabled = true := by
  have h0 : readyStore._stored_data_count = 0 := by decide!
  have hlay : readyStore.HasLayout 0 := ⟨by decide!, by decide!, by decide!, by decide!⟩
  have hen : readyStore._flash_enabled = true := by decide!
  have key := saveAll_ideal (List.replicate n (sampleRecord 1700000000 false)) readyStore hlay hen
    (by rw [h0, List.length_replicate]; omega)
    (fun x hx => by
      rw [List.eq_of_mem_replicate hx]
      exact ⟨by decide, by decide!⟩)
  rw [h0, List.length_replicate, Nat.zero_add] at key
  exact key

/-- The write target depends on the data start address and the count only. -/
theorem initialTarget_default (s : Flash) (hlay : s.HasLayout 0) :
    s.initialTarget = (layoutWithCount s.getStoredCount).initialTarget := by
  obtain ⟨-, -, h3, -⟩ := hlay
  unfold Flash.initialTarget layoutWithCount
  dsimp only
  rw [h3]
  rfl

/-- The next append to a store reached by fewer than 1397 appends passes the
checks of `saveSensorData` and succeeds. -/
theorem storeAfter_append (n : Nat) (hn : n < 1397) :
    ((storeAfter n).saveSensorData idealHw (sampleRecord 1700000000 false)).1 = true ∧
      ¬(storeAfter n).getStoredCount ≥ (storeAfter n).getMaxDataCount ∧
      ¬(storeAfter n).initialTarget.sector_address < (storeAfter n)._flash_offset ∧
      ¬(storeAfter n).initialTarget.sector_address ≥
        u32 ((storeAfter n)._flash_offset + 16 * FLASH_SECTOR_SIZE) := by
  obtain ⟨-, h2, h3, h4⟩ := storeAfter_facts n (by omega)
  obtain ⟨r1, r2, r3⟩ := default_range_ok (storeAfter n) h3 (by
    have : (storeAfter n)._stored_data_count = n := h2
    omega)
  exact ⟨(saveSensorData_ideal (storeAfter n) 0 (sampleRecord 1700000000 false) (by decide) h3 h4
    r1 r2 r3 (by decide) (by decide!)).1, r1, r2, r3⟩

/-! ## C21: records overlap -/

/-- C21 at its failing input. The address stride `SENSOR_DATA_SIZE` is
`sizeof(SensorData) = 44`, while `serializeSensorData` writes
`sizeof(SerializedSensorData) = 52` bytes. On the fault-free chip, from the
ready store: record 0 (with `is_fake_gps` set) is written at the data start
and record 1 is written 44 bytes further, inside the 52 bytes of record 0.
After the first append the flags byte of record 0 (offset 44) reads 1 and
its checksum word (offset 48) reads the checksum; after the second append
they read `0x34`, the low byte of the magic of record 1, and `0x41A00000`,
the temperature of record 1. -/
theorem C21_records_overlap :
    SENSOR_DATA_SIZE = 44 ∧
    (serializeSensorData (sampleRecord 1700000000 true)).length = 52 ∧
    readyStore.initialTarget.adjust.data_address = readyStore._data_start_address ∧
    (readyStore.saveAll idealHw [sampleRecord 1700000000 true]).2.initialTarget.adjust.data_address
      = readyStore._data_start_address + 44 ∧
    (readyStore.saveAll idealHw
      [sampleRecord 1700000000 true, sampleRecord 1700000060 false]).1 = [true, true] ∧
    read8 (readyStore.saveAll idealHw [sampleRecord 1700000000 true]).2.chip
      (readyStore._data_start_address + 44) = 1 ∧
    read8 (readyStore.saveAll idealHw
      [sampleRecord 1700000000 true, sampleRecord 1700000060 false]).2.chip
      (readyStore._data_start_address + 44) = 0x34 ∧
    read32 (readyStore.saveAll idealHw [sampleRecord 1700000000 true]).2.chip
      (readyStore._data_start_address + 48) =
        valueChecksum (serializedFields (sampleRecord 1700000000 true)) ∧
    read32 (readyStore.saveAll idealHw
      [sampleRecord 1700000000 true, sampleRecord 1700000060 false]).2.chip
      (readyStore._data_start_address + 48) = 0x41A00000 := by
  decide!

/-! ## C22: a record split across two pages -/

/-- C22 at its failing input. The store reached by 28 appends holds count 28;
the next `saveSensorData` passes every check and returns true. Its final
`data_address` lies 208 bytes into a page: the adjustment test
`page_offset + SENSOR_DATA_SIZE > FLASH_PAGE_SIZE` adds 44 and does not
fire, but the 52 bytes written end in the next page. -/
theorem C22_record_split_across_pages :
    (storeAfter 28).getStoredCount = 28 ∧
    ((storeAfter 28).saveSensorData idealHw (sampleRecord 1700000000 false)).1 = true ∧
    (storeAfter 28).initialTarget.adjust = (storeAfter 28).initialTarget ∧
    (storeAfter 28).initialTarget.adjust.data_address % FLASH_PAGE_SIZE = 208 ∧
    (serializeSensorData (sampleRecord 1700000000 false)).length = 52 ∧
    ((storeAfter 28).initialTarget.adjust.data_address + 52 - 1) / FLASH_PAGE_SIZE =
      (storeAfter 28).initialTarget.adjust.data_address / FLASH_PAGE_SIZE + 1 := by
  obtain ⟨-, h2, h3, -⟩ := storeAfter_facts 28 (by decide)
  have happ := (storeAfter_append 28 (by decide)).1
  refine ⟨h2, happ, ?_⟩
  rw [initialTarget_default _ h3, h2]
  decide!

/-! ## C25: the sector buffer write runs past the buffer -/

/-- C25 at its failing input. The store reached by 92 appends holds count 92;
the next `saveSensorData` passes every check and returns true. The record
offset in the 4096-byte sector buffer is 4048, so the 52 bytes that
`serializeSensorData` copies end at 4100: the last four bytes, the checksum,
are written past the end of the buffer. -/
theorem C25_sector_buffer_overrun :
    (storeAfter 92).getStoredCount = 92 ∧
    ((storeAfter 92).saveSensorData idealHw (sampleRecord 1700000000 false)).1 = true ∧
    (storeAfter 92).initialTarget.adjust.page_address -
        (storeAfter 92).initialTarget.adjust.sector_address +
        (storeAfter 92).initialTarget.adjust.page_offset = 4048 ∧
    (serializeSensorData (sampleRecord 1700000000 false)).length = 52 ∧
    4048 + 52 > FLASH_SECTOR_SIZE := by
  obtain ⟨-, h2, h3, -⟩ := storeAfter_facts 92 (by decide)
  have happ := (storeAfter_append 92 (by decide)).1
  refine ⟨h2, happ, ?_⟩
  rw [initialTarget_default _ h3, h2]
  decide!

/-! ## C26: the write address and the read address differ -/

/-- C26 at its failing input. The store reached by 5 appends holds count 5;
the next `saveSensorData` passes every check and returns true. Its
page-boundary adjustment moves the record to `data_start + 256`, while
`loadSensorData(5)` reads at `data_start + 5 * SENSOR_DATA_SIZE =
data_start + 220`; after the sixth append `loadSensorData(5)` is the error
record. -/
theorem C26_write_address_differs_from_read_address :
    (storeAfter 5).getStoredCount = 5 ∧
    ((storeAfter 5).saveSensorData idealHw (sampleRecord 1700000000 false)).1 = true ∧
    (storeAfter 5).initialTarget.adjust.data_address = (storeAfter 5)._data_start_address + 256 ∧
    u32 ((storeAfter 5)._data_start_address + u32 (5 * SENSOR_DATA_SIZE)) =
      (storeAfter 5)._data_start_address + 220 ∧
    (storeAfter 6).getStoredCount = 6 ∧
    (storeAfter 6).loadSensorData 5 = getSensorDataError := by
  obtain ⟨-, h2, h3, -⟩ := storeAfter_facts 5 (by decide)
  obtain ⟨-, -, hst, -⟩ := layout_default _ h3
  have happ := (storeAfter_append 5 (by decide)).1
  refine ⟨h2, happ, ?_, ?_, by decide!, by decide!⟩
  · rw [initialTarget_default _ h3, h2, hst]
    decide!
  · rw [hst]
    decide!

/-! ## C27: a write outside the sixteen sectors -/

/-- C27 at its failing input. The store reached by 1396 appends holds count
1396; the next `saveSensorData` passes both range checks, made on the sector
address before the page-boundary adjustment, and returns true. The
adjustment then moves the write to the next page, which starts sector 16:
the sector that is erased and programmed is `base + 16 * 4096`, the value of
`max_allowed_address`, outside the sixteen sectors that `resetStorage` and
`eraseStorage` erase. -/
theorem C27_write_past_sixteen_sectors :
    (storeAfter 1396).getStoredCount = 1396 ∧
    ((storeAfter 1396).saveSensorData idealHw (sampleRecord 1700000000 false)).1 = true ∧
    ¬(storeAfter 1396).initialTarget.sector_address < (storeAfter 1396)._flash_offset ∧
    ¬(storeAfter 1396).initialTarget.sector_address ≥
      u32 ((storeAfter 1396)._flash_offset + 16 * FLASH_SECTOR_SIZE) ∧
    (storeAfter 1396).initialTarget.adjust.sector_address = 1835008 + 16 * 4096 ∧
    (storeAfter 1396)._flash_offset = 1835008 := by
  obtain ⟨-, h2, h3, -⟩ := storeAfter_facts 1396 (by decide)
  obtain ⟨happ, -, r2, r3⟩ := storeAfter_append 1396 (by decide)
  have hoff := (layout_default _ h3).1
  refine ⟨h2, happ, r2, r3, ?_, hoff⟩
  rw [initialTarget_default _ h3, h2]
  decide!

/-! ## C28: the batch staging buffer -/

/-- C28 at its failing input. A batch of 29 records is accepted by the ready
store. The staging buffer has `batchBufferSize 29 = 5 * 256 = 1280` bytes;
the last record is serialized at offset `28 * SENSOR_DATA_SIZE = 1232` and
its 52 bytes end at 1284: the byte at index 1280, past the end of the
buffer, receives byte 48 of the record. -/
theorem C28_batch_buffer_overrun :
    (readyStore.saveSensorDataBatch idealHw
      (List.replicate 29 (sampleRecord 1700000000 false))).1 = true ∧
    batchBufferSize 29 = 1280 ∧
    u32 (28 * SENSOR_DATA_SIZE) = 1232 ∧
    (serializeSensorData (sampleRecord 1700000000 false)).length = 52 ∧
    (29 - 1) * SENSOR_DATA_SIZE + 52 > batchBufferSize 29 ∧
    read8 (fillBatchBuffer (fun _ => 0xFF) 0
      (List.replicate 29 (sampleRecord 1700000000 false))) 1280 =
        read8 (ofList (serializeSensorData (sampleRecord 1700000000 false))) 48 ∧
    read8 (fillBatchBuffer (fun _ => 0xFF) 0
      (List.replicate 29 (sampleRecord 1700000000 false))) 1280 ≠ 0xFF := by
  decide!

/-! ## Overwriting a field of a serialized record -/

/-- Reading a byte of a buffer into which a byte list was copied. -/
theorem read8_memcpyAt (dst : Bytes) (off : Nat) (l : List Nat) (i : Nat) :
    read8 (memcpyAt dst off l) i =
      if off ≤ i ∧ i < off + l.length then l.getD (i - off) 0 % 256 else read8 dst i := by
  unfold read8 memcpyAt
  split <;> rfl

/-- A byte outside the copied range reads as before. -/
theorem read8_memcpyAt_other (dst : Bytes) (off : Nat) (l : List Nat) (i : Nat)
    (h : i < off ∨ off + l.length ≤ i) : read8 (memcpyAt dst off l) i = read8 dst i := by
  rw [read8_memcpyAt, if_neg (by omega)]

/-- A 16-bit word outside the copied range reads as before. -/
theorem read16_memcpyAt_other (dst : Bytes) (off : Nat) (l : List Nat) (a : Nat)
    (h : a + 2 ≤ off ∨ off + l.length ≤ a) : read16 (memcpyAt dst off l) a = read16 dst a := by
  unfold read16
  rw [read8_memcpyAt_other _ _ _ _ (by omega), read8_memcpyAt_other _ _ _ _ (by omega)]

/-- A 32-bit word outside the copied range reads as before. -/
theorem read32_memcpyAt_other (dst : Bytes) (off : Nat) (l : List Nat) (a : Nat)
    (h : a + 4 ≤ off ∨ off + l.length ≤ a) : read32 (memcpyAt dst off l) a = read32 dst a := by
  unfold read32
  rw [read8_memcpyAt_other _ _ _ _ (by omega), read8_memcpyAt_other _ _ _ _ (by omega),
    read8_memcpyAt_other _ _ _ _ (by omega), read8_memcpyAt_other _ _ _ _ (by omega)]

/-- The word read back where the four bytes of `v` were copied. -/
theorem read32_memcpyAt_le32_at (dst : Bytes) (off v : Nat) :
    read32 (memcpyAt dst off (le32 v)) off = u32 v := by
  simp only [read32, read8_memcpyAt, le32, u32, List.length_cons, List.length_nil]
  rw [if_pos (by omega), if_pos (by omega), if_pos (by omega), if_pos (by omega)]
  have e0 : off - off = 0 := by omega
  have e1 : off + 1 - off = 1 := by omega
  have e2 : off + 2 - off = 2 := by omega
  have e3 : off + 3 - off = 3 := by omega
  rw [e0, e1, e2, e3]
  simp only [List.getD_cons_zero, List.getD_cons_succ]
  omega

/-- The word read back where the two bytes of `v` were copied. -/
theorem read16_memcpyAt_le16_at (dst : Bytes) (off v : Nat) :
    read16 (memcpyAt dst off (le16 v)) off = v % 65536 := by
  simp only [read16, read8_memcpyAt, le16, List.length_cons, List.length_nil]
  rw [if_pos (by omega), if_pos (by omega)]
  have e0 : off - off = 0 := by omega
  have e1 : off + 1 - off = 1 := by omega
  rw [e0, e1]
  simp only [List.getD_cons_zero, List.getD_cons_succ]
  omega

/-- A 32-bit read is a 32-bit value. -/
theorem read32_lt (m : Bytes) (a : Nat) : read32 m a < 4294967296 := by
  unfold read32 read8
  omega

/-- A 16-bit read is a 16-bit value. -/
theorem read16_lt (m : Bytes) (a : Nat) : read16 m a < 65536 := by
  unfold read16 read8
  omega

/-! ## C30: a changed integer field is detected -/

/-- C30. Single integer field changes are always detected: for every record
`x` and every value `v`, overwriting in `serialize(x)` only `co2` (offset 28)
or only `timestamp` (offset 40) with a different 32-bit `v`, or only `pm2_5`
(offset 20) or only `pm10` (offset 24) with a different 16-bit `v`, the
stored checksum left as written, makes the checksum that
`deserializeSensorData` recomputes differ from the stored one. -/
theorem C30_integer_field_change_detected (x : SensorData) (v : Nat) :
    (v < 4294967296 → v ≠ read32 (ofList (serializeSensorData x)) 28 →
      valueChecksum (SerializedSensorData.ofBytes
          (memcpyAt (ofList (serializeSensorData x)) 28 (le32 v))) ≠
        read32 (memcpyAt (ofList (serializeSensorData x)) 28 (le32 v)) 48) ∧
    (v < 4294967296 → v ≠ read32 (ofList (serializeSensorData x)) 40 →
      valueChecksum (SerializedSensorData.ofBytes
          (memcpyAt (ofList (serializeSensorData x)) 40 (le32 v))) ≠
        read32 (memcpyAt (ofList (serializeSensorData x)) 40 (le32 v)) 48) ∧
    (v < 65536 → v ≠ read16 (ofList (serializeSensorData x)) 20 →
      valueChecksum (SerializedSensorData.ofBytes
          (memcpyAt (ofList (serializeSensorData x)) 20 (le16 v))) ≠
        read32 (memcpyAt (ofList (serializeSensorData x)) 20 (le16 v)) 48) ∧
    (v < 65536 → v ≠ read16 (ofList (serializeSensorData x)) 24 →
      valueChecksum (SerializedSensorData.ofBytes
          (memcpyAt (ofList (serializeSensorData x)) 24 (le16 v))) ≠
        read32 (memcpyAt (ofList (serializeSensorData x)) 24 (le16 v)) 48) := by
  have hcs := serialize_checksum_matches x
  simp only [valueChecksum, SerializedSensorData.ofBytes, List.foldl_cons, List.foldl_nil, u32]
    at hcs ⊢
  have hl32 : (le32 v).length = 4 := rfl
  have hl16 : (le16 v).length = 2 := rfl
  have b1 := read32_lt (ofList (serializeSensorData x)) 28
  have b2 := read32_lt (ofList (serializeSensorData x)) 40
  have b3 := read16_lt (ofList (serializeSensorData x)) 20
  have b4 := read16_lt (ofList (serializeSensorData x)) 24
  refine ⟨fun hv hne => ?_, fun hv hne => ?_, fun hv hne => ?_, fun hv hne => ?_⟩
  · rw [read32_memcpyAt_le32_at, read16_memcpyAt_other _ _ _ 20 (by omega),
      read16_memcpyAt_other _ _ _ 24 (by omega), read32_memcpyAt_other _ _ _ 40 (by omega),
      read32_memcpyAt_other _ _ _ 32 (by omega), read32_memcpyAt_other _ _ _ 36 (by omega),
      read32_memcpyAt_other _ _ _ 4 (by omega), read32_memcpyAt_other _ _ _ 8 (by omega),
      read8_memcpyAt_other _ _ _ 44 (by omega), read32_memcpyAt_other _ _ _ 48 (by omega)]
    unfold u32
    omega
  · rw [read32_memcpyAt_le32_at, read16_memcpyAt_other _ _ _ 20 (by omega),
      read16_memcpyAt_other _ _ _ 24 (by omega), read32_memcpyAt_other _ _ _ 28 (by omega),
      read32_memcpyAt_other _ _ _ 32 (by omega), read32_memcpyAt_other _ _ _ 36 (by omega),
      read32_memcpyAt_other _ _ _ 4 (by omega), read32_memcpyAt_other _ _ _ 8 (by omega),
      read8_memcpyAt_other _ _ _ 44 (by omega), read32_memcpyAt_other _ _ _ 48 (by omega)]
    unfold u32
    omega
  · rw [read16_memcpyAt_le16_at, read32_memcpyAt_other _ _ _ 28 (by omega),
      read16_memcpyAt_other _ _ _ 24 (by omega), read32_memcpyAt_other _ _ _ 40 (by omega),
      read32_memcpyAt_other _ _ _ 32 (by omega), read32_memcpyAt_other _ _ _ 36 (by omega),
      read32_memcpyAt_other _ _ _ 4 (by omega), read32_memcpyAt_other _ _ _ 8 (by omega),
      read8_memcpyAt_other _ _ _ 44 (by omega), read32_memcpyAt_other _ _ _ 48 (by omega)]
    omega
  · rw [read16_memcpyAt_le16_at, read32_memcpyAt_other _ _ _ 28 (by omega),
      read16_memcpyAt_other _ _ _ 20 (by omega), read32_memcpyAt_other _ _ _ 40 (by omega),
      read32_memcpyAt_other _ _ _ 32 (by omega), read32_memcpyAt_other _ _ _ 36 (by omega),
      read32_memcpyAt_other _ _ _ 4 (by omega), read32_memcpyAt_other _ _ _ 8 (by omega),
      read8_memcpyAt_other _ _ _ 44 (by omega), read32_memcpyAt_other _ _ _ 48 (by omega)]
    omega

/-- C30 on the sample record: `co2` is 400, and overwriting it with 401 is
detected. -/
theorem C30_integer_field_change_detected_witness :
    read32 (ofList (serializeSensorData (sampleRecord 1700000000 false))) 28 = 400 ∧
      valueChecksum (SerializedSensorData.ofBytes
          (memcpyAt (ofList (serializeSensorData (sampleRecord 1700000000 false))) 28
            (le32 401))) ≠
        read32 (memcpyAt (ofList (serializeSensorData (sampleRecord 1700000000 false))) 28
          (le32 401)) 48 :=
  ⟨by decide!,
    (C30_integer_field_change_detected (sampleRecord 1700000000 false) 401).1 (by decide)
      (by decide!)⟩

/-! ## What every operation preserves -/

/-- A state with the same four layout members has the same layout. -/
theorem hasLayout_of_members (s t : Flash) (f : Nat) (hlay : s.HasLayout f)
    (h1 : t._flash_offset = s._flash_offset) (h2 : t._data_count_address = s._data_count_address)
    (h3 : t._data_start_address = s._data_start_address)
    (h4 : t._max_data_count = s._max_data_count) : t.HasLayout f :=
  ⟨h1.trans hlay.1, h2.trans hlay.2.1, h3.trans hlay.2.2.1, h4.trans hlay.2.2.2⟩

/-- For every chip behaviour, `resetStorage` keeps the layout members, and
the count it leaves is 0 or the old one. -/
theorem resetStorage_keeps (hw : Hw) (s : Flash) :
    (s.resetStorage hw).2._flash_offset = s._flash_offset ∧
      (s.resetStorage hw).2._data_count_address = s._data_count_address ∧
      (s.resetStorage hw).2._data_start_address = s._data_start_address ∧
      (s.resetStorage hw).2._max_data_count = s._max_data_count ∧
      ((s.resetStorage hw).2._stored_data_count = 0 ∨
        (s.resetStorage hw).2._stored_data_count = s._stored_data_count) := by
  unfold Flash.resetStorage
  dsimp only
  by_cases h1 : (!s._flash_enabled) = true
  · rw [if_pos h1]
    exact ⟨rfl, rfl, rfl, rfl, Or.inl rfl⟩
  · rw [if_neg h1]
    generalize (if s._flash_offset % FLASH_SECTOR_SIZE ≠ 0 then
      s._flash_offset / FLASH_SECTOR_SIZE * FLASH_SECTOR_SIZE else s._flash_offset) = a
    obtain ⟨e1, e2, e3, e4, e5, -⟩ := safeFlashErase_sameMembers hw s a (16 * FLASH_SECTOR_SIZE)
    by_cases h2 : (!(s.safeFlashErase hw a (16 * FLASH_SECTOR_SIZE)).1) = true
    · rw [if_pos h2]
      exact ⟨e1, e2, e3, e4, Or.inr e5⟩
    · rw [if_neg h2]
      split
      all_goals
        exact ⟨(safeFlashProgram_sameMembers hw _ _ _ _).1.trans e1,
          (safeFlashProgram_sameMembers hw _ _ _ _).2.1.trans e2,
          (safeFlashProgram_sameMembers hw _ _ _ _).2.2.1.trans e3,
          (safeFlashProgram_sameMembers hw _ _ _ _).2.2.2.1.trans e4,
          Or.inl (safeFlashProgram_sameMembers hw _ _ _ _).2.2.2.2.1⟩

/-- For every chip behaviour, the first-time initialisation steps of `init`
keep the layout members. -/
theorem initProgram_keeps (hw : Hw) (s : Flash) :
    (s.initProgram hw).2._flash_offset = s.initStart._flash_offset ∧
      (s.initProgram hw).2._data_count_address = s.initStart._data_count_address ∧
      (s.initProgram hw).2._data_start_address = s.initStart._data_start_address ∧
      (s.initProgram hw).2._max_data_count = s.initStart._max_data_count ∧
      (s.initErase hw).2._flash_offset = s.initStart._flash_offset ∧
      (s.initErase hw).2._data_count_address = s.initStart._data_count_address ∧
      (s.initErase hw).2._data_start_address = s.initStart._data_start_address ∧
      (s.initErase hw).2._max_data_count = s.initStart._max_data_count := by
  obtain ⟨p1, p2, p3, p4, -, -⟩ := safeFlashProgram_sameMembers hw (s.initErase hw).2
    (s.initErase hw).2._data_count_address (ofList (le32 0)) DATA_COUNT_SIZE
  obtain ⟨e1, e2, e3, e4, -, -⟩ := safeFlashErase_sameMembers hw
    { s.initStart with _stored_data_count := 0 } s._data_count_address FLASH_PAGE_SIZE
  exact ⟨p1.trans e1, p2.trans e2, p3.trans e3, p4.trans e4, e1, e2, e3, e4⟩

/-- For every chip behaviour, `init` keeps the constructor's layout and
leaves a count within the capacity. -/
theorem init_keeps (hw : Hw) (s : Flash) (f : Nat) (hlay : s.HasLayout f) :
    (s.init hw).2.HasLayout f ∧
      (s.init hw).2._stored_data_count ≤ (s.init hw).2._max_data_count := by
  cases hen : s._flash_enabled
  · unfold Flash.init
    rw [if_pos (by simp [hen])]
    exact ⟨hasLayout_of_members s _ f hlay rfl rfl rfl rfl, Nat.zero_le _⟩
  · have hsame := initStart_of_layout s f hlay
    obtain ⟨q1, q2, q3, q4, q5, q6, q7, q8⟩ := initProgram_keeps hw s
    rw [hsame] at q1 q2 q3 q4 q5 q6 q7 q8
    rw [init_enabled hw s hen, hsame]
    by_cases hc : read32 s.chip s._data_count_address = 0xFFFFFFFF
    · rw [if_pos hc]
      split
      · exact ⟨hasLayout_of_members s _ f hlay q5 q6 q7 q8, Nat.zero_le _⟩
      · split
        · exact ⟨hasLayout_of_members s _ f hlay q1 q2 q3 q4, Nat.zero_le _⟩
        · refine ⟨hasLayout_of_members s _ f hlay q1 q2 q3 q4, ?_⟩
          rw [initProgram_count]
          exact Nat.zero_le _
    · rw [if_neg hc]
      by_cases hgt : read32 s.chip s._data_count_address > s._max_data_count
      · rw [if_pos hgt]
        obtain ⟨r1, r2, r3, r4, -⟩ := resetStorage_keeps hw s
        split
        all_goals exact ⟨hasLayout_of_members s _ f hlay r1 r2 r3 r4, Nat.zero_le _⟩
      · rw [if_neg hgt]
        by_cases hpos : read32 s.chip s._data_count_address > 0
        · rw [if_pos hpos]
          obtain ⟨r1, r2, r3, r4, -⟩ := resetStorage_keeps hw
            { s with _stored_data_count := read32 s.chip s._data_count_address }
          split
          · exact ⟨hasLayout_of_members s _ f hlay rfl rfl rfl rfl, not_lt.mp hgt⟩
          · cases hr : (Flash.resetStorage hw
                { s with _stored_data_count := read32 s.chip s._data_count_address }).1
            · exact ⟨hasLayout_of_members s _ f hlay r1 r2 r3 r4, Nat.zero_le _⟩
            · refine ⟨hasLayout_of_members s _ f hlay r1 r2 r3 r4, ?_⟩
              simp only [Bool.not_true, Bool.false_eq_true, if_false]
              rw [resetStorage_count hw _ hr]
              exact Nat.zero_le _
        · rw [if_neg hpos]
          exact ⟨hasLayout_of_members s _ f hlay rfl rfl rfl rfl, not_lt.mp hgt⟩

/-- For every chip behaviour, `saveSensorData` on a store with the
constructor's layout leaves the count as it was or, when it was below the
capacity, one higher. -/
theorem saveSensorData_count (hw : Hw) (s : Flash) (data : SensorData) (f : Nat)
    (hlay : s.HasLayout f) :
    (s.saveSensorData hw data).2._stored_data_count = s._stored_data_count ∨
      (s._stored_data_count < s._max_data_count ∧
        (s.saveSensorData hw data).2._stored_data_count = s._stored_data_count + 1) := by
  obtain ⟨hal, hca, -, hmax⟩ := hasLayout_facts s f hlay
  unfold Flash.saveSensorData
  by_cases hen : (!s._flash_enabled) = true
  · rw [if_pos hen]
    exact Or.inl rfl
  · rw [if_neg hen]
    by_cases hfull : s._stored_data_count ≥ s._max_data_count
    · rw [if_pos hfull]
      exact Or.inl rfl
    · rw [if_neg hfull]
      dsimp only
      by_cases hlow : s.initialTarget.sector_address < s._flash_offset
      · rw [if_pos hlow]
        exact Or.inl rfl
      · rw [if_neg hlow]
        by_cases hhigh : s.initialTarget.sector_address ≥
            u32 (s._flash_offset + 16 * FLASH_SECTOR_SIZE)
        · rw [if_pos hhigh]
          exact Or.inl rfl
        · rw [if_neg hhigh]
          have hw' := writePayload_sameMembers hw s data s.initialTarget.adjust
          generalize Flash.writePayload hw s data s.initialTarget.adjust = w at hw' ⊢
          obtain ⟨-, m2, -, -, m5, m6⟩ := hw'
          by_cases hwok : (!w.1) = true
          · rw [if_pos hwok]
            exact Or.inl m5
          · rw [if_neg hwok]
            cases hu : (w.2.updateCount hw).1
            · left
              rw [← m5]
              apply updateCount_false hw w.2
              · rw [m6]
                simpa using hen
              · rw [m2, hca]
                exact hal
              · rw [m5]
                omega
              · exact hu
            · right
              refine ⟨by omega, ?_⟩
              rw [(updateCount_true hw w.2 hu).1, m5]
              simp only [u32]
              omega

/-- For every chip behaviour, `saveSensorDataBatch` keeps the layout members
and leaves a count within the capacity when it was within it. -/
theorem saveSensorDataBatch_keeps (hw : Hw) (s : Flash) (data : List SensorData) :
    (s.saveSensorDataBatch hw data).2._flash_offset = s._flash_offset ∧
      (s.saveSensorDataBatch hw data).2._data_count_address = s._data_count_address ∧
      (s.saveSensorDataBatch hw data).2._data_start_address = s._data_start_address ∧
      (s.saveSensorDataBatch hw data).2._max_data_count = s._max_data_count ∧
      (s._stored_data_count ≤ s._max_data_count →
        (s.saveSensorDataBatch hw data).2._stored_data_count ≤ s._max_data_count) := by
  unfold Flash.saveSensorDataBatch
  by_cases h : u32 (s._stored_data_count + data.length) > s._max_data_count
  · rw [if_pos h]
    exact ⟨rfl, rfl, rfl, rfl, fun h => h⟩
  · rw [if_neg h]
    exact ⟨rfl, rfl, rfl, rfl, fun _ => not_lt.mp h⟩

/-- For every chip behaviour, `eraseStorage` keeps the layout members and
leaves the count 0. -/
theorem eraseStorage_keeps (hw : Hw) (s : Flash) :
    (s.eraseStorage hw).2._flash_offset = s._flash_offset ∧
      (s.eraseStorage hw).2._data_count_address = s._data_count_address ∧
      (s.eraseStorage hw).2._data_start_address = s._data_start_address ∧
      (s.eraseStorage hw).2._max_data_count = s._max_data_count ∧
      (s.eraseStorage hw).2._stored_data_count = 0 := by
  unfold Flash.eraseStorage
  dsimp only
  split <;> exact ⟨rfl, rfl, rfl, rfl, rfl⟩

/-! ## The addresses passed to the two flash helpers -/

/-- The two helper calls of `resetStorage` and their address arguments. -/
theorem resetStorage_calls (hw : Hw) (s : Flash) :
    s.resetStorage hw =
      if !s._flash_enabled then (true, { s with _stored_data_count := 0 })
      else
        let e := s.safeFlashErase hw s.resetEraseAddress (16 * FLASH_SECTOR_SIZE)
        if !e.1 then (false, e.2)
        else
          let buffer := memcpyAt (fun _ => 0xFF) (e.2._data_count_address - e.2.countSectorAddress)
            (le32 0)
          let p := Flash.safeFlashProgram hw { e.2 with _stored_data_count := 0 }
            e.2.countSectorAddress buffer FLASH_SECTOR_SIZE
          if !p.1 then (false, p.2) else (true, p.2) := rfl

/-- Every address the store computes for a helper call is aligned: the sector
of a record, also after the page adjustment, the count sector, and the erase
address of `resetStorage`; with the constructor's layout, the count address
itself. -/
theorem call_addresses_aligned (s : Flash) :
    s.initialTarget.adjust.sector_address % 4096 = 0 ∧ s.countSectorAddress % 4096 = 0 ∧
      s.resetEraseAddress % 4096 = 0 := by
  refine ⟨?_, ?_, ?_⟩
  · unfold WriteTarget.adjust
    split
    · simp only [FLASH_SECTOR_SIZE]
      omega
    · simp only [Flash.initialTarget, FLASH_SECTOR_SIZE]
      omega
  · simp only [Flash.countSectorAddress, FLASH_SECTOR_SIZE]
    omega
  · unfold Flash.resetEraseAddress
    simp only [FLASH_SECTOR_SIZE]
    split <;> omega

/-! ## The recorded helper calls -/

/-- With a sector-aligned address `safeFlashErase` is the code after its
alignment test: the 'not sector-aligned' return is not taken. -/
theorem safeFlashErase_of_aligned (hw : Hw) (s : Flash) (address size : Nat)
    (h : address % FLASH_SECTOR_SIZE = 0) :
    s.safeFlashErase hw address size =
      if !s._flash_enabled then (true, s) else s.eraseAfterAlignmentTest hw address size := by
  unfold Flash.safeFlashErase Flash.eraseAfterAlignmentTest
  rw [if_neg (not_not.mpr h)]

/-- With a word-aligned address `safeFlashProgram` is the code after its
alignment test: the 'not word-aligned' return is not taken. -/
theorem safeFlashProgram_of_aligned (hw : Hw) (s : Flash) (address : Nat) (data : Bytes)
    (size : Nat) (h : address % 4 = 0) :
    s.safeFlashProgram hw address data size =
      if !s._flash_enabled then (true, s)
      else s.programAfterAlignmentTest hw address data size := by
  unfold Flash.safeFlashProgram Flash.programAfterAlignmentTest
  rw [if_neg (not_not.mpr h)]

/-- Recording the helper calls does not change what `resetStorage` returns. -/
theorem resetStorageTraced_result (hw : Hw) (s : Flash) :
    (s.resetStorageTraced hw).1 = s.resetStorage hw := by
  unfold Flash.resetStorageTraced Flash.resetStorage Flash.safeFlashEraseTraced
    Flash.safeFlashProgramTraced
  simp only [apply_ite Prod.fst]

/-- Recording the helper calls does not change what `init` returns. -/
theorem initTraced_result (hw : Hw) (s : Flash) : (s.initTraced hw).1 = s.init hw := by
  unfold Flash.initTraced Flash.init Flash.safeFlashEraseTraced Flash.safeFlashProgramTraced
  simp only [← resetStorageTraced_result]
  simp only [apply_ite Prod.fst]

/-- Recording the helper calls does not change what the payload part
returns. -/
theorem writePayloadTraced_result (hw : Hw) (s : Flash) (data : SensorData) (t : WriteTarget) :
    (s.writePayloadTraced hw data t).1 = s.writePayload hw data t := by
  unfold Flash.writePayloadTraced Flash.writePayload Flash.safeFlashEraseTraced
    Flash.safeFlashProgramTraced
  simp only [apply_ite Prod.fst]

/-- Recording the helper calls does not change what the count part returns. -/
theorem updateCountTraced_result (hw : Hw) (s : Flash) :
    (s.updateCountTraced hw).1 = s.updateCount hw := by
  unfold Flash.updateCountTraced Flash.updateCount Flash.safeFlashEraseTraced
    Flash.safeFlashProgramTraced
  simp only [apply_ite Prod.fst]

/-- Recording the helper calls does not change what `saveSensorData`
returns. -/
theorem saveSensorDataTraced_result (hw : Hw) (s : Flash) (data : SensorData) :
    (s.saveSensorDataTraced hw data).1 = s.saveSensorData hw data := by
  unfold Flash.saveSensorDataTraced Flash.saveSensorData
  simp only [← writePayloadTraced_result, ← updateCountTraced_result]
  simp only [apply_ite Prod.fst]

/-- Every helper call of `resetStorage` has an aligned address, for every
state and chip behaviour. -/
theorem resetStorageTraced_calls (hw : Hw) (s : Flash) :
    ∀ c ∈ (s.resetStorageTraced hw).2, c.Aligned := by
  intro c hc
  unfold Flash.resetStorageTraced Flash.safeFlashEraseTraced Flash.safeFlashProgramTraced at hc
  simp only [apply_ite Prod.snd, FLASH_SECTOR_SIZE] at hc
  split_ifs at hc
  all_goals
    simp only [List.mem_append, List.mem_singleton, List.not_mem_nil, or_self] at hc
  all_goals
    rcases hc with rfl | rfl
  all_goals
    simp only [HelperCall.Aligned, FLASH_SECTOR_SIZE]
    omega

/-- Every helper call of the payload part has the address of the target
sector. -/
theorem writePayloadTraced_calls (hw : Hw) (s : Flash) (data : SensorData) (t : WriteTarget)
    (hal : t.sector_address % 4096 = 0) :
    ∀ c ∈ (s.writePayloadTraced hw data t).2, c.Aligned := by
  intro c hc
  unfold Flash.writePayloadTraced Flash.safeFlashEraseTraced Flash.safeFlashProgramTraced at hc
  simp only [apply_ite Prod.snd] at hc
  split_ifs at hc
  all_goals
    simp only [List.mem_append, List.mem_singleton, List.not_mem_nil, or_self] at hc
  all_goals
    rcases hc with rfl | rfl
  all_goals
    simp only [HelperCall.Aligned, FLASH_SECTOR_SIZE]
    omega

/-- Every helper call of the count part has an aligned address, for every
state and chip behaviour. -/
theorem updateCountTraced_calls (hw : Hw) (s : Flash) :
    ∀ c ∈ (s.updateCountTraced hw).2, c.Aligned := by
  intro c hc
  unfold Flash.updateCountTraced Flash.safeFlashEraseTraced Flash.safeFlashProgramTraced at hc
  simp only [apply_ite Prod.snd, FLASH_SECTOR_SIZE] at hc
  split_ifs at hc
  all_goals
    simp only [List.mem_append, List.mem_singleton, List.not_mem_nil, or_self] at hc
  all_goals
    rcases hc with rfl | rfl
  all_goals
    simp only [HelperCall.Aligned, FLASH_SECTOR_SIZE]
    omega

/-- Every helper call of `saveSensorData` has an aligned address, for every
state and chip behaviour. -/
theorem saveSensorDataTraced_calls (hw : Hw) (s : Flash) (data : SensorData) :
    ∀ c ∈ (s.saveSensorDataTraced hw data).2, c.Aligned := by
  intro c hc
  have hw1 := writePayloadTraced_calls hw s data s.initialTarget.adjust
    (call_addresses_aligned s).1
  have hu1 := updateCountTraced_calls hw (s.writePayloadTraced hw data s.initialTarget.adjust).1.2
  unfold Flash.saveSensorDataTraced at hc
  simp only [apply_ite Prod.snd] at hc
  split_ifs at hc
  · exact absurd hc (List.not_mem_nil c)
  · exact absurd hc (List.not_mem_nil c)
  · exact absurd hc (List.not_mem_nil c)
  · exact absurd hc (List.not_mem_nil c)
  · exact hw1 c hc
  · rcases List.mem_append.mp hc with h | h
    · exact hw1 c h
    · exact hu1 c h

/-- Every helper call of `init` on a store with the constructor's layout has
an aligned address, for every chip behaviour. -/
theorem initTraced_calls (hw : Hw) (s : Flash) (f : Nat) (hlay : s.HasLayout f) :
    ∀ c ∈ (s.initTraced hw).2, c.Aligned := by
  intro c hc
  obtain ⟨hal, hca, hst, -⟩ := hasLayout_facts s f hlay
  have hno : ¬s._data_start_address ≠
      u32 (s._data_count_address - s._data_count_address % FLASH_SECTOR_SIZE +
        FLASH_SECTOR_SIZE) := by
    simp only [FLASH_SECTOR_SIZE, u32, ne_eq, not_not]
    rw [hst, hca]
    have h0 : s._flash_offset - s._flash_offset % 4096 = s._flash_offset := by omega
    rw [h0]
  have hpa : (Flash.safeFlashErase hw { s with _stored_data_count := 0 } s._data_count_address
      FLASH_PAGE_SIZE).2._data_count_address = s._data_count_address :=
    (safeFlashErase_sameMembers hw { s with _stored_data_count := 0 } s._data_count_address
      FLASH_PAGE_SIZE).2.1
  have he : (HelperCall.erase s._data_count_address).Aligned := by
    simp only [HelperCall.Aligned, FLASH_SECTOR_SIZE]
    rw [hca]
    exact hal
  have hp : (HelperCall.program s._data_count_address).Aligned := by
    simp only [HelperCall.Aligned]
    rw [hca]
    omega
  unfold Flash.initTraced Flash.safeFlashEraseTraced Flash.safeFlashProgramTraced at hc
  simp only [if_neg hno, apply_ite Prod.snd, hpa] at hc
  split_ifs at hc
  all_goals
    first
    | exact absurd hc (List.not_mem_nil c)
    | exact resetStorageTraced_calls hw _ c hc
    | (simp only [List.mem_append, List.mem_singleton] at hc
       rcases hc with rfl | rfl
       · exact he
       · exact hp)
    | (rw [List.mem_singleton] at hc
       rw [hc]
       exact he)

/-! ## C24: the alignment rejections of the helpers are unreachable -/

/-- C24. Alignment failure branches are unreachable from the write path. For
every constructor offset `f`, every store state with that layout, every chip
behaviour and every record: `init`, `resetStorage` and `saveSensorData`
return what their recorded versions return, in which every call of
`safeFlashErase` and `safeFlashProgram` is listed with its address; every
call so recorded has an address that passes the alignment test of its helper
(a multiple of 4096 for `safeFlashErase`, of 4 for `safeFlashProgram`); with
such an address the helper is the code that follows its alignment test, so
its 'not sector-aligned' or 'not word-aligned' return is not taken; and the
three functions keep the layout, so all of this holds in every state they
reach. -/
theorem C24_helper_addresses_aligned (hw : Hw) (s : Flash) (f : Nat) (data : SensorData)
    (hlay : s.HasLayout f) :
    ((s.initTraced hw).1 = s.init hw ∧ (s.resetStorageTraced hw).1 = s.resetStorage hw ∧
      (s.saveSensorDataTraced hw data).1 = s.saveSensorData hw data) ∧
    ((∀ c ∈ (s.initTraced hw).2, c.Aligned) ∧
      (∀ c ∈ (s.resetStorageTraced hw).2, c.Aligned) ∧
      (∀ c ∈ (s.saveSensorDataTraced hw data).2, c.Aligned)) ∧
    (∀ (t : Flash) (address size : Nat) (buffer : Bytes),
      ((HelperCall.erase address).Aligned →
        t.safeFlashErase hw address size =
          if !t._flash_enabled then (true, t)
          else t.eraseAfterAlignmentTest hw address size) ∧
      ((HelperCall.program address).Aligned →
        t.safeFlashProgram hw address buffer size =
          if !t._flash_enabled then (true, t)
          else t.programAfterAlignmentTest hw address buffer size)) ∧
    ((s.init hw).2.HasLayout f ∧ (s.resetStorage hw).2.HasLayout f ∧
      (s.saveSensorData hw data).2.HasLayout f) := by
  obtain ⟨r1, r2, r3, r4, -⟩ := resetStorage_keeps hw s
  exact ⟨⟨initTraced_result hw s, resetStorageTraced_result hw s,
      saveSensorDataTraced_result hw s data⟩,
    ⟨initTraced_calls hw s f hlay, resetStorageTraced_calls hw s,
      saveSensorDataTraced_calls hw s data⟩,
    fun t address size buffer =>
      ⟨fun h => safeFlashErase_of_aligned hw t address size h,
        fun h => safeFlashProgram_of_aligned hw t address buffer size h⟩,
    (init_keeps hw s f hlay).1, hasLayout_of_members s _ f hlay r1 r2 r3 r4,
    hasLayout_of_sameLayout s _ f (saveSensorData_sameLayout hw s data) hlay⟩

/-- C24 on the ready store with the sample record, on the fault-free chip:
the append makes four helper calls, on the record's sector and on the count
sector, and `init` on an erased image makes its two first-time calls; all of
them are aligned. -/
theorem C24_helper_addresses_aligned_witness :
    (readyStore.saveSensorDataTraced idealHw (sampleRecord 1700000000 false)).2 =
        [HelperCall.erase 1839104, HelperCall.program 1839104, HelperCall.erase 1835008,
          HelperCall.program 1835008] ∧
      ((Flash.new 0 (fun _ => 0xFF)).initTraced idealHw).2 =
        [HelperCall.erase 1835008, HelperCall.program 1835008] ∧
      (∀ c ∈ (readyStore.saveSensorDataTraced idealHw (sampleRecord 1700000000 false)).2,
        c.Aligned) :=
  ⟨by decide!, by decide!,
    (C24_helper_addresses_aligned idealHw readyStore 0 (sampleRecord 1700000000 false)
      ⟨by decide!, by decide!, by decide!, by decide!⟩).2.1.2.2⟩

/-! ## C29: the count never exceeds the capacity -/

/-- C29. Count never exceeds capacity: `getStoredCount() <= getMaxDataCount()`
holds after construction, for every constructor offset `f`, and for every
chip behaviour `hw` (every outcome of the erase and program steps, reads
being stable between operations) each of `init`, `saveSensorData`,
`saveSensorDataBatch`, `eraseStorage`, `resetStorage` and `setFlashEnabled`
takes a state with the constructor's layout and a count within the capacity
to a state with the same layout and a count within the capacity. The load
operations return a value and do not change the state. -/
theorem C29_count_within_capacity (hw : Hw) (s : Flash) (f : Nat) (data : SensorData)
    (batch : List SensorData) (enabled : Bool) (chip : Bytes) (hlay : s.HasLayout f)
    (hinv : s.getStoredCount ≤ s.getMaxDataCount) :
    ((Flash.new f chip).HasLayout f ∧
      (Flash.new f chip).getStoredCount ≤ (Flash.new f chip).getMaxDataCount) ∧
    ((s.init hw).2.HasLayout f ∧
      (s.init hw).2.getStoredCount ≤ (s.init hw).2.getMaxDataCount) ∧
    ((s.saveSensorData hw data).2.HasLayout f ∧
      (s.saveSensorData hw data).2.getStoredCount ≤
        (s.saveSensorData hw data).2.getMaxDataCount) ∧
    ((s.saveSensorDataBatch hw batch).2.HasLayout f ∧
      (s.saveSensorDataBatch hw batch).2.getStoredCount ≤
        (s.saveSensorDataBatch hw batch).2.getMaxDataCount) ∧
    ((s.eraseStorage hw).2.HasLayout f ∧
      (s.eraseStorage hw).2.getStoredCount ≤ (s.eraseStorage hw).2.getMaxDataCount) ∧
    ((s.resetStorage hw).2.HasLayout f ∧
      (s.resetStorage hw).2.getStoredCount ≤ (s.resetStorage hw).2.getMaxDataCount) ∧
    ((s.setFlashEnabled enabled).HasLayout f ∧
      (s.setFlashEnabled enabled).getStoredCount ≤
        (s.setFlashEnabled enabled).getMaxDataCount) := by
  have hinv' : s._stored_data_count ≤ s._max_data_count := hinv
  obtain ⟨b1, b2, b3, b4, b5⟩ := saveSensorDataBatch_keeps hw s batch
  obtain ⟨e1, e2, e3, e4, e5⟩ := eraseStorage_keeps hw s
  obtain ⟨r1, r2, r3, r4, r5⟩ := resetStorage_keeps hw s
  obtain ⟨-, -, -, l4, -⟩ := saveSensorData_sameLayout hw s data
  refine ⟨⟨⟨rfl, rfl, rfl, rfl⟩, Nat.zero_le _⟩, init_keeps hw s f hlay,
    ⟨hasLayout_of_sameLayout s _ f (saveSensorData_sameLayout hw s data) hlay, ?_⟩,
    ⟨hasLayout_of_members s _ f hlay b1 b2 b3 b4, ?_⟩,
    ⟨hasLayout_of_members s _ f hlay e1 e2 e3 e4, ?_⟩,
    ⟨hasLayout_of_members s _ f hlay r1 r2 r3 r4, ?_⟩,
    ⟨hasLayout_of_members s _ f hlay rfl rfl rfl rfl, hinv⟩⟩
  · show (s.saveSensorData hw data).2._stored_data_count ≤
      (s.saveSensorData hw data).2._max_data_count
    rw [l4]
    rcases saveSensorData_count hw s data f hlay with h | ⟨h1, h2⟩
    · rw [h]
      exact hinv'
    · rw [h2]
      exact h1
  · show (s.saveSensorDataBatch hw batch).2._stored_data_count ≤
      (s.saveSensorDataBatch hw batch).2._max_data_count
    rw [b4]
    exact b5 hinv'
  · show (s.eraseStorage hw).2._stored_data_count ≤ (s.eraseStorage hw).2._max_data_count
    rw [e5]
    exact Nat.zero_le _
  · show (s.resetStorage hw).2._stored_data_count ≤ (s.resetStorage hw).2._max_data_count
    rw [r4]
    rcases r5 with h | h
    · rw [h]
      exact Nat.zero_le _
    · rw [h]
      exact hinv'

/-- C29 on the ready store with a chip that ignores erase and program: the
append fails and the count stays within the capacity. -/
theorem C29_count_within_capacity_witness :
    readyStore.getStoredCount ≤ readyStore.getMaxDataCount ∧
      (readyStore.saveSensorData stuckHw (sampleRecord 1700000000 false)).2.getStoredCount ≤
        (readyStore.saveSensorData stuckHw
          (sampleRecord 1700000000 false)).2.getMaxDataCount :=
  ⟨by decide!,
    (C29_count_within_capacity stuckHw readyStore 0 (sampleRecord 1700000000 false) [] true
      (fun _ => 0xFF) ⟨by decide!, by decide!, by decide!, by decide!⟩ (by decide!)).2.2.1.2⟩

/-! ## The flash image after an append -/

end Airscoute
